import Mathlib

/-!
# LEGO WeDo hub driver: shallow embedding

Embedding of `drivers/usb/misc/wedo/{legowedo,wedo_port,wedo_sensor,wedo_motor,wedo_hub}.c`.

* C `enum` and integer fields are `Nat` / `Int` codes; `unsigned char` stores are taken
  modulo 256.
* A `struct` becomes a structure; a function that mutates through a pointer returns the
  new value.
* The pointer `dev_get_drvdata(&wpd->dev)` is the field `drvdata : Option drv_data`.
* Calls into the msensor / dc_motor device classes and URB submissions are returned as
  data next to the new state.
* The two completion handlers and the attribute setters are taken as atomic events.
-/

namespace Wedo

/-! ## Constants of headers that are not part of the sources at hand -/

/-- Modelled from the spec: the errno behind the "invalid-argument condition"; the
kernel header defining `EINVAL` is absent. -/
def EINVAL : Int := 22

/-- Modelled from the spec: errno of a failed allocation (`ENOMEM`), header absent. -/
def ENOMEM : Int := 12

/-- Modelled from the spec: `enum wedo_motor_command` of the absent `wedo_port.h`,
numbered in the order the spec lists the commands (run, coast, brake). -/
def WEDO_MOTOR_COMMAND_RUN : Nat := 0

/-- Modelled from the spec: see `WEDO_MOTOR_COMMAND_RUN`. -/
def WEDO_MOTOR_COMMAND_COAST : Nat := 1

/-- Modelled from the spec: see `WEDO_MOTOR_COMMAND_RUN`. -/
def WEDO_MOTOR_COMMAND_BRAKE : Nat := 2

/-- Modelled from the spec: `enum wedo_motor_polarity` of the absent `wedo_port.h`,
numbered in the order the spec lists the polarities (normal, inverted). -/
def WEDO_MOTOR_POLARITY_NORMAL : Nat := 0

/-- Modelled from the spec: see `WEDO_MOTOR_POLARITY_NORMAL`. -/
def WEDO_MOTOR_POLARITY_INVERTED : Nat := 1

/-- Modelled from the spec: `enum dc_motor_command` of the absent `dc_motor_class.h`,
numbered in the order the spec lists the commands (run, coast, brake). -/
def DC_MOTOR_COMMAND_RUN : Nat := 0

/-- Modelled from the spec: see `DC_MOTOR_COMMAND_RUN`. -/
def DC_MOTOR_COMMAND_COAST : Nat := 1

/-- Modelled from the spec: see `DC_MOTOR_COMMAND_RUN`. -/
def DC_MOTOR_COMMAND_BRAKE : Nat := 2

/-- Modelled from the spec: the number of `enum dc_motor_command` values. -/
def NUM_DC_MOTOR_COMMANDS : Nat := 3

/-- Modelled from the spec: `enum dc_motor_polarity` of the absent `dc_motor_class.h`. -/
def DC_MOTOR_POLARITY_NORMAL : Nat := 0

/-- Modelled from the spec: see `DC_MOTOR_POLARITY_NORMAL`. -/
def DC_MOTOR_POLARITY_INVERTED : Nat := 1

/-- Modelled from the spec: the number of `enum dc_motor_polarity` values. -/
def NUM_DC_MOTOR_POLARITY : Nat := 2

/-- Modelled from the spec: `enum wedo_type_id` of the absent `wedo_port.h`: the 15
categories, numbered in the order of the designated initialisers of `wedo_id_infos`
(whose `max` fields "must be in ascending order for the state calculation to work"). -/
def WEDO_TYPE_SHORTLO : Nat := 0

/-- Modelled from the spec: see `WEDO_TYPE_SHORTLO`. -/
def WEDO_TYPE_BEND : Nat := 1

/-- Modelled from the spec: see `WEDO_TYPE_SHORTLO`. -/
def WEDO_TYPE_TILT : Nat := 2

/-- Modelled from the spec: see `WEDO_TYPE_SHORTLO`. -/
def WEDO_TYPE_FUTURE : Nat := 3

/-- Modelled from the spec: see `WEDO_TYPE_SHORTLO`. -/
def WEDO_TYPE_RAW : Nat := 4

/-- Modelled from the spec: see `WEDO_TYPE_SHORTLO`. -/
def WEDO_TYPE_TOUCH : Nat := 5

/-- Modelled from the spec: see `WEDO_TYPE_SHORTLO`. -/
def WEDO_TYPE_SOUND : Nat := 6

/-- Modelled from the spec: see `WEDO_TYPE_SHORTLO`. -/
def WEDO_TYPE_TEMP : Nat := 7

/-- Modelled from the spec: see `WEDO_TYPE_SHORTLO`. -/
def WEDO_TYPE_LIGHT : Nat := 8

/-- Modelled from the spec: see `WEDO_TYPE_SHORTLO`. -/
def WEDO_TYPE_MOTION : Nat := 9

/-- Modelled from the spec: see `WEDO_TYPE_SHORTLO`. -/
def WEDO_TYPE_LIGHTBRICK : Nat := 10

/-- Modelled from the spec: see `WEDO_TYPE_SHORTLO`. -/
def WEDO_TYPE_22 : Nat := 11

/-- Modelled from the spec: see `WEDO_TYPE_SHORTLO`. -/
def WEDO_TYPE_OPEN : Nat := 12

/-- Modelled from the spec: see `WEDO_TYPE_SHORTLO`. -/
def WEDO_TYPE_MOTOR : Nat := 13

/-- Modelled from the spec: see `WEDO_TYPE_SHORTLO`. -/
def WEDO_TYPE_SHORTHI : Nat := 14

/-- Modelled from the spec: the number of categories ("enum[15]"). -/
def WEDO_TYPE_MAX : Nat := 15

/-- Modelled from the spec: `enum wedo_sensor_types` of the absent `wedo_sensor.h`,
numbered in the order of the designated initialisers of `wedo_sensor_defs`. -/
def WEDO_TILT_SENSOR : Nat := 0

/-- Modelled from the spec: see `WEDO_TILT_SENSOR`. -/
def WEDO_MOTION_SENSOR : Nat := 1

/-- The two ports of a hub (`WEDO_PORT_1`, `WEDO_PORT_2`, indices of `whd->wpd[]`). -/
inductive wedo_port where
  | WEDO_PORT_1
  | WEDO_PORT_2
  deriving DecidableEq, Repr

/-! ## Machine integers -/

/-- The conversion `(unsigned char) x` of a C `int`. -/
def to_uchar (x : Int) : Nat := (x % 256).toNat

/-- The value of a byte read as a signed 8-bit number (`MSENSOR_DATA_S8`). -/
def s8_of_byte (b : Nat) : Int := if b % 256 < 128 then (b % 256 : Nat) else ((b % 256 : Nat) : Int) - 256

/-! ## wedo_sensor.c -/

def WEDO_TILT_STATUS_UNKNOWN : Nat := 0
def WEDO_TILT_STATUS_BACK : Nat := 1
def WEDO_TILT_STATUS_RIGHT : Nat := 2
def WEDO_TILT_STATUS_LEVEL : Nat := 3
def WEDO_TILT_STATUS_FRONT : Nat := 4
def WEDO_TILT_STATUS_LEFT : Nat := 5
def WEDO_TILT_STATUS_MAX : Nat := 6

/-- The struct `wedo_tilt_status_info`, also the shape of `wedo_id_info`. -/
structure wedo_id_info where
  max : Nat
  name : String
  deriving DecidableEq, Repr

def wedo_tilt_status_infos : List wedo_id_info :=
  [ ⟨0, "unknown"⟩, ⟨48, "back"⟩, ⟨99, "right"⟩, ⟨153, "level"⟩, ⟨204, "front"⟩, ⟨255, "left"⟩ ]

/-- The loop `for (id = start; id < start + n; ++id) if (v <= infos[id].max) break;`
returning the final `id`. The first argument is the number of iterations left before
the loop condition `id < limit` fails. -/
def scan_infos (infos : List wedo_id_info) (v : Nat) : Nat → Nat → Nat
  | 0, id => id
  | n + 1, id => if v ≤ (infos.getD id ⟨0, ""⟩).max then id else scan_infos infos v n (id + 1)

/-- The callbacks a `wedo_mode_info[].analog_cb` slot can point to. -/
inductive analog_cb_fn where
  | raw_cb
  | tilt_axis_cb
  | tilt_status_cb
  deriving DecidableEq, Repr

/-- The part of `struct wedo_sensor_info` the driver reads: `name`, `num_modes` and the
`analog_cb` pointers of `wedo_mode_info[]` (a slot without initialiser is NULL). -/
structure wedo_sensor_info where
  name : String
  num_modes : Nat
  wedo_mode_info : List (Option analog_cb_fn)
  deriving DecidableEq, Repr

def wedo_sensor_defs : List wedo_sensor_info :=
  [ ⟨"wedo-tilt", 3, [some .raw_cb, some .tilt_axis_cb, some .tilt_status_cb]⟩,
    ⟨"wedo-motion", 1, [some .raw_cb]⟩ ]

/-- The struct `wedo_sensor_data`; `raw_data m i` is `ms.mode_info[m].raw_data[i]`,
a byte. -/
structure wedo_sensor_data where
  info : wedo_sensor_info
  mode : Nat
  debounce_count : Nat
  debounce_status : Nat
  status : Nat
  raw_data : Nat → Nat → Nat

/-- Store of `v` into `ms.mode_info[wsd->mode].raw_data[i]`. -/
def set_raw_data (wsd : wedo_sensor_data) (i : Nat) (v : Int) : wedo_sensor_data :=
  { wsd with raw_data := fun m j => if m = wsd.mode ∧ j = i then to_uchar v else wsd.raw_data m j }

/-- The function `wedo_raw_cb`; `input` is `wsd->wpd->input`. -/
def wedo_raw_cb (input : Nat) (wsd : wedo_sensor_data) : wedo_sensor_data :=
  set_raw_data wsd 0 input

def WEDO_TILT_STATUS_DEBOUNCE : Nat := 4

/-- The `for` loop of `wedo_update_tilt_status`: the value of `id` after it. -/
def tilt_status_scan (rawval : Nat) : Nat :=
  scan_infos wedo_tilt_status_infos rawval WEDO_TILT_STATUS_MAX 0

/-- The function `wedo_update_tilt_status`; `input` is `wsd->wpd->input`. Returns the
returned status and the updated sensor data. -/
def wedo_update_tilt_status (input : Nat) (wsd : wedo_sensor_data) : Nat × wedo_sensor_data :=
  let rawval := input
  let id := tilt_status_scan rawval
  let wsd :=
    if id ≠ wsd.debounce_status then
      { wsd with debounce_count := 0, debounce_status := id }
    else if WEDO_TILT_STATUS_DEBOUNCE > wsd.debounce_count then
      { wsd with debounce_count := wsd.debounce_count + 1 }
    else if WEDO_TILT_STATUS_DEBOUNCE = wsd.debounce_count then
      { wsd with debounce_count := wsd.debounce_count + 1, status := id }
    else wsd
  (wsd.status, wsd)

/-- The values `wedo_tilt_axis_cb` stores in `raw_data[0]`, `raw_data[1]` for a status. -/
def tilt_axis_values (status : Nat) : Int × Int :=
  if status = WEDO_TILT_STATUS_BACK then (0, -1)
  else if status = WEDO_TILT_STATUS_RIGHT then (1, 0)
  else if status = WEDO_TILT_STATUS_FRONT then (0, 1)
  else if status = WEDO_TILT_STATUS_LEFT then (-1, 0)
  else (0, 0)

/-- The function `wedo_tilt_axis_cb`. -/
def wedo_tilt_axis_cb (input : Nat) (wsd : wedo_sensor_data) : wedo_sensor_data :=
  let r := wedo_update_tilt_status input wsd
  let v := tilt_axis_values r.1
  set_raw_data (set_raw_data r.2 0 v.1) 1 v.2

/-- The value `wedo_tilt_status_cb` stores in `raw_data[0]` for a status. -/
def tilt_status_value (status : Nat) : Int :=
  if status = WEDO_TILT_STATUS_BACK then 2
  else if status = WEDO_TILT_STATUS_RIGHT then 4
  else if status = WEDO_TILT_STATUS_FRONT then 1
  else if status = WEDO_TILT_STATUS_LEFT then 3
  else 0

/-- The function `wedo_tilt_status_cb`. -/
def wedo_tilt_status_cb (input : Nat) (wsd : wedo_sensor_data) : wedo_sensor_data :=
  let r := wedo_update_tilt_status input wsd
  set_raw_data r.2 0 (tilt_status_value r.1)

/-- Call through an `analog_cb` function pointer. -/
def call_analog_cb (cb : analog_cb_fn) (input : Nat) (wsd : wedo_sensor_data) : wedo_sensor_data :=
  match cb with
  | .raw_cb => wedo_raw_cb input wsd
  | .tilt_axis_cb => wedo_tilt_axis_cb input wsd
  | .tilt_status_cb => wedo_tilt_status_cb input wsd

/-! ## Port and motor data (wedo_port.h, wedo_motor.h) -/

/-- The struct `wedo_motor_data`: the state kept by the dc_motor binding. -/
structure wedo_motor_data where
  command : Nat
  polarity : Nat
  duty_cycle : Int
  deriving DecidableEq, Repr

/-- What `dev_get_drvdata(&wpd->dev)` points to when it is not NULL. -/
inductive drv_data where
  | sensor (wsd : wedo_sensor_data)
  | motor (wmd : wedo_motor_data)

/-- The struct `wedo_port_device`. -/
structure wedo_port_device where
  input : Nat
  id : Nat
  type_id : Nat
  temp_type_id : Nat
  type_debounce : Nat
  command : Nat
  polarity : Nat
  duty_cycle : Int
  drvdata : Option drv_data

/-- Calls into the msensor and dc_motor device classes (the device-registration
collaborator). -/
inductive class_call where
  | register_msensor (name : String)
  | unregister_msensor
  | register_dc_motor
  | unregister_dc_motor
  deriving DecidableEq, Repr

/-- What the environment answers during a registration: whether `kzalloc` returns
memory, and the return value of `register_msensor` / `register_dc_motor`. -/
structure reg_env where
  alloc_ok : Bool
  register_err : Int
  deriving DecidableEq, Repr

/-! ## wedo_port.c -/

def wedo_id_infos : List wedo_id_info :=
  [ ⟨9, "shortlo"⟩, ⟨27, "bend"⟩, ⟨47, "tilt"⟩, ⟨67, "future"⟩, ⟨87, "raw"⟩,
    ⟨109, "touch"⟩, ⟨131, "sound"⟩, ⟨152, "temp"⟩, ⟨169, "light"⟩, ⟨190, "motion"⟩,
    ⟨211, "lightbrick"⟩, ⟨224, "22"⟩, ⟨233, "open"⟩, ⟨246, "motor"⟩, ⟨255, "shorthi"⟩ ]

/-- The function `wedo_sensor_set_mode`. -/
def wedo_sensor_set_mode (wsd : wedo_sensor_data) (mode : Nat) : Int × wedo_sensor_data :=
  if mode ≥ wsd.info.num_modes then (-EINVAL, wsd)
  else (0, { wsd with mode := mode })

/-- The memory `kzalloc(sizeof(struct wedo_sensor_data))` returns, after the `memcpy`
of `wedo_sensor_defs[type]` into `wsd->info`. -/
def new_sensor_data (type : Nat) : wedo_sensor_data :=
  { info := wedo_sensor_defs.getD type ⟨"", 0, []⟩, mode := 0, debounce_count := 0,
    debounce_status := 0, status := 0, raw_data := fun _ _ => 0 }

/-- The function `register_wedo_sensor`. -/
def register_wedo_sensor (env : reg_env) (wpd : wedo_port_device) (type : Nat) :
    Int × wedo_port_device × List class_call :=
  match wpd.drvdata with
  | some _ => (-EINVAL, wpd, [])
  | none =>
    if !env.alloc_ok then (-ENOMEM, wpd, [])
    else
      let wsd := new_sensor_data type
      if env.register_err ≠ 0 then (env.register_err, wpd, [.register_msensor wsd.info.name])
      else
        let wsd := (wedo_sensor_set_mode wsd 0).2
        (0, { wpd with drvdata := some (.sensor wsd) }, [.register_msensor wsd.info.name])

/-- The function `unregister_wedo_sensor`. -/
def unregister_wedo_sensor (wpd : wedo_port_device) : wedo_port_device × List class_call :=
  match wpd.drvdata with
  | none => (wpd, [])
  | some _ => ({ wpd with drvdata := none }, [.unregister_msensor])

/-- The memory `kzalloc(sizeof(struct wedo_motor_data))` returns. -/
def new_motor_data : wedo_motor_data := { command := 0, polarity := 0, duty_cycle := 0 }

/-- The function `register_wedo_motor`. -/
def register_wedo_motor (env : reg_env) (wpd : wedo_port_device) :
    Int × wedo_port_device × List class_call :=
  match wpd.drvdata with
  | some _ => (-EINVAL, wpd, [])
  | none =>
    if !env.alloc_ok then (-ENOMEM, wpd, [])
    else if env.register_err ≠ 0 then (env.register_err, wpd, [.register_dc_motor])
    else (0, { wpd with drvdata := some (.motor new_motor_data) }, [.register_dc_motor])

/-- The function `unregister_wedo_motor`. -/
def unregister_wedo_motor (wpd : wedo_port_device) : wedo_port_device × List class_call :=
  match wpd.drvdata with
  | none => (wpd, [])
  | some _ => ({ wpd with drvdata := none }, [.unregister_dc_motor])

/-- The function `register_wedo_device`. -/
def register_wedo_device (env : reg_env) (wpd : wedo_port_device) (id : Nat) :
    Int × wedo_port_device × List class_call :=
  let wpd := { wpd with type_id := id }
  if wpd.type_id = WEDO_TYPE_TILT then register_wedo_sensor env wpd WEDO_TILT_SENSOR
  else if wpd.type_id = WEDO_TYPE_MOTION then register_wedo_sensor env wpd WEDO_MOTION_SENSOR
  else if wpd.type_id = WEDO_TYPE_MOTOR then register_wedo_motor env wpd
  else (-EINVAL, wpd, [])

/-- The function `unregister_wedo_device`. -/
def unregister_wedo_device (wpd : wedo_port_device) : wedo_port_device × List class_call :=
  if wpd.type_id = WEDO_TYPE_TILT ∨ wpd.type_id = WEDO_TYPE_MOTION then unregister_wedo_sensor wpd
  else if wpd.type_id = WEDO_TYPE_MOTOR then unregister_wedo_motor wpd
  else (wpd, [])

def WEDO_PORT_TYPE_DEBOUNCE : Nat := 100

/-- The `for` loop of `wedo_port_update_status`: the value of `id` after it. -/
def port_type_scan (raw_id : Nat) : Nat :=
  scan_infos wedo_id_infos raw_id WEDO_TYPE_MAX 0

/-- The first `switch` of `wedo_port_update_status`: for a port of type tilt or motion
with a sensor bound, call the `analog_cb` of the selected mode when it is not NULL.
(A motor binding under one of these types would be read through the wrong struct; no
path creates one, and the port is left as it is.) -/
def port_analog_update (wpd : wedo_port_device) : wedo_port_device :=
  if wpd.type_id = WEDO_TYPE_TILT ∨ wpd.type_id = WEDO_TYPE_MOTION then
    match wpd.drvdata with
    | some (.sensor wsd) =>
      match wsd.info.wedo_mode_info.getD wsd.mode none with
      | some cb => { wpd with drvdata := some (.sensor (call_analog_cb cb wpd.input wsd)) }
      | none => wpd
    | _ => wpd
  else wpd

/-- The function `wedo_port_update_status`, returning the new port and the calls made
into the device classes. -/
def wedo_port_update_status (env : reg_env) (wpd : wedo_port_device) :
    wedo_port_device × List class_call :=
  let wpd := port_analog_update wpd
  let id := port_type_scan wpd.id
  if id ≠ wpd.temp_type_id then
    ({ wpd with type_debounce := 0, temp_type_id := id }, [])
  else if WEDO_PORT_TYPE_DEBOUNCE > wpd.type_debounce then
    ({ wpd with type_debounce := wpd.type_debounce + 1 }, [])
  else if WEDO_PORT_TYPE_DEBOUNCE = wpd.type_debounce then
    let u := unregister_wedo_device wpd
    let r := register_wedo_device env u.1 id
    ({ r.2.1 with type_debounce := r.2.1.type_debounce + 1 }, u.2 ++ r.2.2)
  else (wpd, [])

/-! ## Hub data (wedo_hub.h) and the USB device (legowedo.c) -/

/-- Modelled from the spec: `whd->from_hub.status`, declared in the absent
`wedo_hub.h`; the spec's data model gives the status flags error, high_power and
echo_in, each true when its bit of byte 0 is set. -/
structure from_hub_status where
  error : Bool
  high_power : Bool
  echo_bit : Bool
  deriving DecidableEq, Repr

/-- Modelled from the spec: `whd->to_hub.status`, declared in the absent `wedo_hub.h`;
the spec's data model gives the command flags clear_error, high_power, shut_down,
reset and echo_out. -/
structure to_hub_status where
  clear_error : Bool
  high_power : Bool
  shut_down : Bool
  reset : Bool
  echo_bit : Bool
  deriving DecidableEq, Repr

/-- The struct `wedo_hub_device`. Both `whd->wpd[]` entries are present: the hub is
only registered (and the read URB only submitted) once `register_wedo_port` succeeded
for both ports. -/
structure wedo_hub_device where
  from_hub_status : from_hub_status
  from_hub_voltage : Nat
  to_hub_status : to_hub_status
  wpd1 : wedo_port_device
  wpd2 : wedo_port_device

/-- The struct `usb_wedo`. -/
structure usb_wedo where
  whd : wedo_hub_device
  ctl_buf : List Nat
  update_output : Bool
  output_pending : Bool
  io_halt : Bool

/-- The port `whd->wpd[p]`. -/
def get_wpd (dev : usb_wedo) (p : wedo_port) : wedo_port_device :=
  match p with
  | .WEDO_PORT_1 => dev.whd.wpd1
  | .WEDO_PORT_2 => dev.whd.wpd2

/-- Store through the pointer `whd->wpd[p]`. -/
def set_wpd (dev : usb_wedo) (p : wedo_port) (wpd : wedo_port_device) : usb_wedo :=
  match p with
  | .WEDO_PORT_1 => { dev with whd := { dev.whd with wpd1 := wpd } }
  | .WEDO_PORT_2 => { dev with whd := { dev.whd with wpd2 := wpd } }

/-- The function `wedo_update_output_value`. The last branch is `else if (0 > duty_cycle)`,
the only case left. -/
def wedo_update_output_value (wpd : wedo_port_device) : Nat :=
  let duty_cycle := wpd.duty_cycle
  let output : Int :=
    if wpd.command = WEDO_MOTOR_COMMAND_COAST then 0x00
    else if wpd.command = WEDO_MOTOR_COMMAND_BRAKE then 0x80
    else if wpd.command = WEDO_MOTOR_COMMAND_RUN then
      if 0 = duty_cycle then 0x00
      else if 0 < duty_cycle then
        if WEDO_MOTOR_POLARITY_NORMAL = wpd.polarity then duty_cycle + 27
        else -duty_cycle - 27
      else
        if WEDO_MOTOR_POLARITY_NORMAL = wpd.polarity then duty_cycle - 27
        else -duty_cycle + 27
    else 0x00
  to_uchar output

/-- The function `wedo_ctrl_event`, the hub's `event_callback`. -/
def wedo_ctrl_event (wd : usb_wedo) : usb_wedo :=
  if !wd.io_halt then { wd with update_output := true } else wd

/-- The function `wedo_update_output`. -/
def wedo_update_output (wd : usb_wedo) : usb_wedo := wedo_ctrl_event wd

/-- The completed read URB handed to `wedo_in_callback`: `urb->status`,
`urb->actual_length` and the bytes of `dev->in_buf`. -/
structure in_urb where
  status : Int
  actual_length : Nat
  in_buf : List Nat
  deriving DecidableEq, Repr

/-- The byte `dev->in_buf[i]`. -/
def in_byte (urb : in_urb) (i : Nat) : Nat := urb.in_buf.getD i 0 % 256

/-- The bytes `wedo_in_callback` writes to `dev->ctl_buf`. -/
def build_ctl_buf (whd : wedo_hub_device) : List Nat :=
  let b0 : Nat := 0x00
  let b0 := b0 ||| (if whd.to_hub_status.clear_error then 0x80 else 0x00)
  let b0 := b0 ||| (if whd.to_hub_status.high_power then 0x40 else 0x20)
  let b0 := b0 ||| (if whd.to_hub_status.shut_down then 0x10 else 0x00)
  let b0 := b0 ||| (if whd.to_hub_status.reset then 0x08 else 0x00)
  let b0 := b0 ||| (if whd.to_hub_status.echo_bit then 0x01 else 0x00)
  [b0, wedo_update_output_value whd.wpd1, wedo_update_output_value whd.wpd2,
    0x00, 0x00, 0x00, 0x00, 0x00]

/-- What one run of `wedo_in_callback` does to the outside: the frame given to
`usb_submit_urb(dev->ctl_urb)`, if any, and the device-class calls of each port. -/
structure in_effects where
  ctl_submitted : Option (List Nat)
  calls1 : List class_call
  calls2 : List class_call
  deriving DecidableEq, Repr

/-- The per-port part of the decode in `wedo_in_callback`: store input and id, then run
`wedo_port_update_status` when the duty cycle is 0. -/
def in_port_update (env : reg_env) (input id : Nat) (wpd : wedo_port_device) :
    wedo_port_device × List class_call :=
  let wpd := { wpd with input := input, id := id }
  if 0 = wpd.duty_cycle then wedo_port_update_status env wpd else (wpd, [])

/-- The decode part of `wedo_in_callback` (the body of `if (urb->actual_length == 8)`). -/
def in_decode (urb : in_urb) (env1 env2 : reg_env) (whd : wedo_hub_device) :
    wedo_hub_device × List class_call × List class_call :=
  let whd := { whd with
    from_hub_status :=
      { error := decide (in_byte urb 0 &&& 0x80 ≠ 0),
        high_power := decide (in_byte urb 0 &&& 0x40 ≠ 0),
        echo_bit := decide (in_byte urb 0 &&& 0x01 ≠ 0) },
    from_hub_voltage := in_byte urb 1 }
  let r1 := in_port_update env1 (in_byte urb 2) (in_byte urb 3) whd.wpd1
  let whd := { whd with wpd1 := r1.1 }
  let r2 := in_port_update env2 (in_byte urb 4) (in_byte urb 5) whd.wpd2
  let whd := { whd with wpd2 := r2.1 }
  (whd, r1.2, r2.2)

/-- The statement `if (urb->actual_length == 8) { ... }` of `wedo_in_callback`. -/
def in_report (urb : in_urb) (env1 env2 : reg_env) (whd : wedo_hub_device) :
    wedo_hub_device × List class_call × List class_call :=
  if urb.actual_length = 8 then in_decode urb env1 env2 whd else (whd, [], [])

/-- The function `wedo_in_callback`; `env1`, `env2` are the environment's answers to a
registration on port 1 and port 2 during this run. -/
def wedo_in_callback (urb : in_urb) (env1 env2 : reg_env) (dev : usb_wedo) :
    usb_wedo × in_effects :=
  if urb.status ≠ 0 then (dev, ⟨none, [], []⟩)
  else
    let d := in_report urb env1 env2 dev.whd
    let dev := { dev with whd := d.1 }
    if dev.update_output ∧ ¬ dev.output_pending then
      let buf := build_ctl_buf dev.whd
      ({ dev with ctl_buf := buf, update_output := false, output_pending := true },
        ⟨some buf, d.2.1, d.2.2⟩)
    else (dev, ⟨none, d.2.1, d.2.2⟩)

/-- The function `wedo_ctrl_callback`; the second component is the frame of a
resubmitted control URB, if any. -/
def wedo_ctrl_callback (status : Int) (dev : usb_wedo) : usb_wedo × Option (List Nat) :=
  if status ≠ 0 then (dev, some dev.ctl_buf)
  else ({ dev with output_pending := false }, none)

/-! ## wedo_motor.c

The motor operations take the `wedo_motor_data` context; here the context is found as
the motor binding of port `p`, and the result is `none` when the port has no motor
binding (no dc_motor device exists then, so the operation cannot be called). -/

/-- The motor binding of port `p`, if any. -/
def motor_of (dev : usb_wedo) (p : wedo_port) : Option wedo_motor_data :=
  match (get_wpd dev p).drvdata with
  | some (.motor wmd) => some wmd
  | _ => none

/-- The table `to_wedo_motor_command`. -/
def to_wedo_motor_command : List Nat :=
  [WEDO_MOTOR_COMMAND_RUN, WEDO_MOTOR_COMMAND_COAST, WEDO_MOTOR_COMMAND_BRAKE]

/-- The table `to_wedo_motor_polarity`. -/
def to_wedo_motor_polarity : List Nat :=
  [WEDO_MOTOR_POLARITY_NORMAL, WEDO_MOTOR_POLARITY_INVERTED]

/-- The function `wedo_set_command` on the motor of port `p`. -/
def wedo_set_command (p : wedo_port) (command : Nat) (dev : usb_wedo) : Option (Int × usb_wedo) :=
  match motor_of dev p with
  | none => none
  | some wmd =>
    if wmd.command = command then some (0, dev)
    else
      let wmd := { wmd with command := command }
      let wpd := get_wpd dev p
      let wpd :=
        if NUM_DC_MOTOR_COMMANDS > command then
          { wpd with command := to_wedo_motor_command.getD command 0 }
        else wpd
      let wpd := { wpd with drvdata := some (.motor wmd) }
      some (0, wedo_update_output (set_wpd dev p wpd))

/-- The function `wedo_set_polarity` on the motor of port `p`. -/
def wedo_set_polarity (p : wedo_port) (polarity : Nat) (dev : usb_wedo) : Option (Int × usb_wedo) :=
  match motor_of dev p with
  | none => none
  | some wmd =>
    if wmd.polarity = polarity then some (0, dev)
    else
      let wmd := { wmd with polarity := polarity }
      let wpd := get_wpd dev p
      let wpd :=
        if NUM_DC_MOTOR_POLARITY > polarity then
          { wpd with polarity := to_wedo_motor_polarity.getD polarity 0 }
        else wpd
      let wpd := { wpd with drvdata := some (.motor wmd) }
      some (0, wedo_update_output (set_wpd dev p wpd))

/-- The function `wedo_set_duty_cycle` on the motor of port `p`. -/
def wedo_set_duty_cycle (p : wedo_port) (duty_cycle : Int) (dev : usb_wedo) : Option (Int × usb_wedo) :=
  match motor_of dev p with
  | none => none
  | some wmd =>
    if duty_cycle > 100 ∨ duty_cycle < -100 then some (-EINVAL, dev)
    else if wmd.duty_cycle = duty_cycle then some (0, dev)
    else
      let wmd := { wmd with duty_cycle := duty_cycle }
      let wpd := get_wpd dev p
      let wpd := { wpd with duty_cycle := duty_cycle, drvdata := some (.motor wmd) }
      some (0, wedo_update_output (set_wpd dev p wpd))

/-! ## wedo_hub.c -/

/-- The common body of `clear_error_store`, `high_power_store`, `shut_down_store` and
`reset_store`: `value` is what `sscanf(buf, "%d", &value)` parsed (`none` when it did
not return 1), `store` the assignment to the flag. Returns `count` or `-EINVAL`. -/
def flag_store (store : Bool → to_hub_status → to_hub_status) (value : Option Int) (count : Int)
    (whd : wedo_hub_device) : Int × wedo_hub_device :=
  match value with
  | none => (-EINVAL, whd)
  | some v =>
    if v < 0 ∨ v > 1 then (-EINVAL, whd)
    else (count, { whd with to_hub_status := store (decide (v ≠ 0)) whd.to_hub_status })

/-- The function `clear_error_store`. -/
def clear_error_store (value : Option Int) (count : Int) (whd : wedo_hub_device) :
    Int × wedo_hub_device :=
  flag_store (fun b st => { st with clear_error := b }) value count whd

/-- The function `high_power_store`. -/
def high_power_store (value : Option Int) (count : Int) (whd : wedo_hub_device) :
    Int × wedo_hub_device :=
  flag_store (fun b st => { st with high_power := b }) value count whd

/-- The function `shut_down_store`. -/
def shut_down_store (value : Option Int) (count : Int) (whd : wedo_hub_device) :
    Int × wedo_hub_device :=
  flag_store (fun b st => { st with shut_down := b }) value count whd

/-- The function `reset_store`. -/
def reset_store (value : Option Int) (count : Int) (whd : wedo_hub_device) :
    Int × wedo_hub_device :=
  flag_store (fun b st => { st with reset := b }) value count whd

/-! ## The driver as a transition system -/

/-- The port `register_wedo_port` creates (`kzalloc`). -/
def wpd_init : wedo_port_device :=
  { input := 0, id := 0, type_id := 0, temp_type_id := 0, type_debounce := 0,
    command := 0, polarity := 0, duty_cycle := 0, drvdata := none }

/-- The device state `wedo_probe` leaves behind (`kzalloc` of `dev` and `whd`). -/
def dev_init : usb_wedo :=
  { whd :=
      { from_hub_status := ⟨false, false, false⟩, from_hub_voltage := 0,
        to_hub_status := ⟨false, false, false, false, false⟩,
        wpd1 := wpd_init, wpd2 := wpd_init },
    ctl_buf := [0, 0, 0, 0, 0, 0, 0, 0],
    update_output := false, output_pending := false, io_halt := false }

/-- The events that drive the device: completions of the read and of the control URB,
calls of the motor and sensor operations of a port, writes to the hub attributes, and
the halt at the start of `wedo_disconnect`. -/
inductive event where
  | read_complete (urb : in_urb) (env1 env2 : reg_env)
  | write_complete (status : Int)
  | set_command (p : wedo_port) (command : Nat)
  | set_polarity (p : wedo_port) (polarity : Nat)
  | set_duty_cycle (p : wedo_port) (duty_cycle : Int)
  | set_mode (p : wedo_port) (mode : Nat)
  | clear_error_store (value : Option Int)
  | high_power_store (value : Option Int)
  | shut_down_store (value : Option Int)
  | reset_store (value : Option Int)
  | halt
  deriving DecidableEq, Repr

/-- The result of an operation that exists only while its binding does. -/
def apply_op (dev : usb_wedo) (r : Option (Int × usb_wedo)) : usb_wedo :=
  match r with
  | some x => x.2
  | none => dev

/-- The operation `set_mode` of the sensor bound to port `p`, if any. -/
def port_set_mode (p : wedo_port) (mode : Nat) (dev : usb_wedo) : Option (Int × usb_wedo) :=
  match (get_wpd dev p).drvdata with
  | some (.sensor wsd) =>
    let r := wedo_sensor_set_mode wsd mode
    some (r.1, set_wpd dev p { get_wpd dev p with drvdata := some (.sensor r.2) })
  | _ => none

/-- One event: the new state and the frames handed to `usb_submit_urb (dev->ctl_urb)`
while it is handled. -/
def step (e : event) (dev : usb_wedo) : usb_wedo × List (List Nat) :=
  match e with
  | .read_complete urb env1 env2 =>
    let r := wedo_in_callback urb env1 env2 dev
    (r.1, r.2.ctl_submitted.toList)
  | .write_complete status =>
    let r := wedo_ctrl_callback status dev
    (r.1, r.2.toList)
  | .set_command p command => (apply_op dev (wedo_set_command p command dev), [])
  | .set_polarity p polarity => (apply_op dev (wedo_set_polarity p polarity dev), [])
  | .set_duty_cycle p duty_cycle => (apply_op dev (wedo_set_duty_cycle p duty_cycle dev), [])
  | .set_mode p mode => (apply_op dev (port_set_mode p mode dev), [])
  | .clear_error_store value => ({ dev with whd := (clear_error_store value 1 dev.whd).2 }, [])
  | .high_power_store value => ({ dev with whd := (high_power_store value 1 dev.whd).2 }, [])
  | .shut_down_store value => ({ dev with whd := (shut_down_store value 1 dev.whd).2 }, [])
  | .reset_store value => ({ dev with whd := (reset_store value 1 dev.whd).2 }, [])
  | .halt => ({ dev with io_halt := true }, [])

/-- A sequence of events: the final state and all frames submitted, in order. -/
def run (dev : usb_wedo) : List event → usb_wedo × List (List Nat)
  | [] => (dev, [])
  | e :: es =>
    let r := step e dev
    let rs := run r.1 es
    (rs.1, r.2 ++ rs.2)

/-- The states the driver can be in: those some sequence of events leads to from the
state after `wedo_probe`. -/
inductive reachable : usb_wedo → Prop where
  | init : reachable dev_init
  | next (e : event) (dev : usb_wedo) : reachable dev → reachable (step e dev).1

/-- The port a motor command encodes: a fresh port with the given command, polarity and
duty cycle. -/
def motor_port (command polarity : Nat) (duty_cycle : Int) : wedo_port_device :=
  { wpd_init with command := command, polarity := polarity, duty_cycle := duty_cycle }

/-! ## Vocabulary of the properties -/

/-- The field `wedo_id_infos[t].max`. -/
def id_max (t : Nat) : Nat := (wedo_id_infos.getD t ⟨0, ""⟩).max

/-- The field `wedo_tilt_status_infos[t].max`. -/
def tilt_max (t : Nat) : Nat := (wedo_tilt_status_infos.getD t ⟨0, ""⟩).max

/-- Consecutive calls of `wedo_update_tilt_status`, one per raw input. -/
def tilt_feed (wsd : wedo_sensor_data) : List Nat → wedo_sensor_data
  | [] => wsd
  | x :: xs => tilt_feed (wedo_update_tilt_status x wsd).2 xs

/-- One reading of a port: the raw input and raw id of a report, and what the
environment would answer to a registration while it is processed. -/
structure reading where
  input : Nat
  id : Nat
  env : reg_env
  deriving DecidableEq, Repr

/-- One reading given to `wedo_port_update_status`: the report bytes are stored in the
port, then the function runs. -/
def port_read (wpd : wedo_port_device) (r : reading) : wedo_port_device × List class_call :=
  wedo_port_update_status r.env { wpd with input := r.input, id := r.id }

/-- Consecutive readings of a port: the final port and all device-class calls made. -/
def port_feed (wpd : wedo_port_device) : List reading → wedo_port_device × List class_call
  | [] => (wpd, [])
  | r :: rs =>
    let s := port_read wpd r
    let t := port_feed s.1 rs
    (t.1, s.2 ++ t.2)

/-- Two values of `drvdata` are the same binding: both NULL, the same motor data, or a
sensor with the same definition and selected mode (its readings may differ). -/
def same_binding (a b : Option drv_data) : Prop :=
  match a, b with
  | none, none => True
  | some (.motor x), some (.motor y) => x = y
  | some (.sensor x), some (.sensor y) => x.info = y.info ∧ x.mode = y.mode
  | _, _ => False

/-- One rebind of a port to category `id`: `unregister_wedo_device` followed by
`register_wedo_device`, as in the commit branch of `wedo_port_update_status`. -/
def rebind (env : reg_env) (wpd : wedo_port_device) (id : Nat) :
    wedo_port_device × List class_call :=
  let u := unregister_wedo_device wpd
  let r := register_wedo_device env u.1 id
  (r.2.1, u.2 ++ r.2.2)

/-- A tilt sensor binding in mode 1 whose status is settled on level. -/
def tilt_level_settled : wedo_sensor_data :=
  { new_sensor_data WEDO_TILT_SENSOR with
    mode := 1, debounce_count := 5, debounce_status := WEDO_TILT_STATUS_LEVEL,
    status := WEDO_TILT_STATUS_LEVEL }

/-- A port bound as a tilt sensor whose type classifier is settled on tilt. -/
def tilt_port_settled : wedo_port_device :=
  { wpd_init with
    type_id := WEDO_TYPE_TILT, temp_type_id := WEDO_TYPE_TILT, type_debounce := 101,
    drvdata := some (.sensor (new_sensor_data WEDO_TILT_SENSOR)) }

/-- A reading with raw id 240 (a motor), the environment accepting registrations. -/
def motor_reading : reading := { input := 0, id := 240, env := { alloc_ok := true, register_err := 0 } }

/-- Consecutive calls of one analog callback, one per raw input. -/
def cb_feed (cb : analog_cb_fn) (wsd : wedo_sensor_data) : List Nat → wedo_sensor_data
  | [] => wsd
  | x :: xs => cb_feed cb (call_analog_cb cb x wsd) xs

/-- A report of 8 bytes received with status 0: error and high_power set, echo set,
voltage 90, port 1 with input 60 and id 35, port 2 with input 7 and id 240. -/
def sample_urb : in_urb :=
  { status := 0, actual_length := 8, in_buf := [0xC1, 90, 60, 35, 7, 240, 0, 0] }

/-- An environment in which registrations succeed. -/
def env_ok : reg_env := { alloc_ok := true, register_err := 0 }

/-- The duty-cycle invariant of a port: the port's duty cycle is in [-100,100], and a
bound motor holds the same duty cycle. -/
def duty_inv (wpd : wedo_port_device) : Prop :=
  -100 ≤ wpd.duty_cycle ∧ wpd.duty_cycle ≤ 100 ∧
    ∀ wmd, wpd.drvdata = some (.motor wmd) → wmd.duty_cycle = wpd.duty_cycle

/-- The duty-cycle invariant of the device: it holds on both ports. -/
def dev_inv (dev : usb_wedo) : Prop := ∀ p, duty_inv (get_wpd dev p)

/-- A report with status 0 and 8 bytes whose raw id is 240 (a motor) on port 1 and 0 on
port 2. -/
def motor_urb : in_urb :=
  { status := 0, actual_length := 8, in_buf := [0, 90, 0, 240, 0, 0, 0, 0] }

/-- The state after `wedo_probe` and 102 motor reports: a motor is bound to port 1. -/
def dev_motor : usb_wedo :=
  (run dev_init (List.replicate 102 (.read_complete motor_urb env_ok env_ok))).1

/-- The motor operations among the events. -/
def is_motor_event : event → Bool
  | .set_command _ _ => true
  | .set_polarity _ _ => true
  | .set_duty_cycle _ _ => true
  | _ => false

/-- The read completions among the events. -/
def is_read_event : event → Bool
  | .read_complete _ _ _ => true
  | _ => false

/-- The read completions with a nonzero status. -/
def is_failed_read : event → Bool
  | .read_complete urb _ _ => decide (urb.status ≠ 0)
  | _ => false

/-- The read completions and the write completions with status 0. -/
def is_completion_ok : event → Bool
  | .read_complete _ _ _ => true
  | .write_complete status => decide (status = 0)
  | _ => false

/-- The event is a motor operation that changes the state of a motor binding. -/
def changes_motor (e : event) (dev : usb_wedo) : Prop :=
  is_motor_event e = true ∧ ∃ p, motor_of (step e dev).1 p ≠ motor_of dev p

/-- A read that completed with a nonzero status. -/
def failed_urb : in_urb := { status := -71, actual_length := 0, in_buf := [] }

/-- A device with a motor bound to port 1 and a control write in flight. -/
def dev_pending : usb_wedo := { dev_motor with output_pending := true }

/-- Byte 0 of the output frame, as the spec lays it out. -/
def ctl_byte0 (st : to_hub_status) : Nat :=
  (if st.clear_error then 0x80 else 0) ||| (if st.high_power then 0x40 else 0x20) |||
    (if st.shut_down then 0x10 else 0) ||| (if st.reset then 0x08 else 0) |||
    (if st.echo_bit then 0x01 else 0)

/-- The state after a duty cycle of 50 was set on the motor of port 1: the dirty flag is
raised and port 1 is driven. -/
def dev_dirty : usb_wedo := (step (.set_duty_cycle .WEDO_PORT_1 50) dev_motor).1

/-- The calls a user makes: the motor and sensor operations and the hub attribute
writes. -/
def is_mutator : event → Bool
  | .set_command _ _ => true
  | .set_polarity _ _ => true
  | .set_duty_cycle _ _ => true
  | .set_mode _ _ => true
  | .clear_error_store _ => true
  | .high_power_store _ => true
  | .shut_down_store _ => true
  | .reset_store _ => true
  | _ => false

/-- The write completions with a nonzero status. -/
def is_failed_write : event → Bool
  | .write_complete status => decide (status ≠ 0)
  | _ => false

/-- The device together with the number of control writes that were submitted and have
not completed with status 0. -/
structure sched_state where
  dev : usb_wedo
  outstanding : Nat

/-- The events that can occur in a state: a write completion needs an outstanding
write; mutator calls, read completions and the halt can always occur. -/
def sched_enabled (e : event) (s : sched_state) : Prop :=
  match e with
  | .write_complete _ => 0 < s.outstanding
  | _ => True

/-- One event on the device and on the count of outstanding writes: a frame submitted by
a read completion adds one, a write completion with status 0 takes one away, a failed
write completion leaves the count (its URB is handed in again). A submission is taken to
be accepted by the USB core. -/
def sched_step (e : event) (s : sched_state) : sched_state :=
  match e with
  | .read_complete _ _ _ =>
    { dev := (step e s.dev).1, outstanding := s.outstanding + (step e s.dev).2.length }
  | .write_complete status =>
    { dev := (step e s.dev).1,
      outstanding := if status = 0 then s.outstanding - 1 else s.outstanding }
  | _ => { dev := (step e s.dev).1, outstanding := s.outstanding }

/-- The states of device and count that events lead to from the state after the probe. -/
inductive sched_reachable : sched_state → Prop where
  | init : sched_reachable ⟨dev_init, 0⟩
  | next (e : event) (s : sched_state) :
      sched_reachable s → sched_enabled e s → sched_reachable (sched_step e s)

/-- The reading takes the commit branch of `wedo_port_update_status`: its class is the
candidate and the count is at the threshold. -/
def is_commit (wpd : wedo_port_device) (r : reading) : Bool :=
  decide (port_type_scan r.id = wpd.temp_type_id ∧ wpd.type_debounce = WEDO_PORT_TYPE_DEBOUNCE)

/-- The number of readings of a sequence that take the commit branch (each one is one
`unregister_wedo_device` followed by one `register_wedo_device`). -/
def port_feed_commits (wpd : wedo_port_device) : List reading → Nat
  | [] => 0
  | r :: rs => (if is_commit wpd r then 1 else 0) + port_feed_commits (port_read wpd r).1 rs

/-- A binding is present only on a port of type tilt, motion or motor. -/
def bind_wf (wpd : wedo_port_device) : Prop :=
  wpd.drvdata ≠ none →
    wpd.type_id = WEDO_TYPE_TILT ∨ wpd.type_id = WEDO_TYPE_MOTION ∨ wpd.type_id = WEDO_TYPE_MOTOR

/-- The binding of every port fits its type. -/
def dev_wf (dev : usb_wedo) : Prop := ∀ p, bind_wf (get_wpd dev p)

/-- A port bound as a tilt sensor at the reading that commits a motor: the candidate is
motor, the count is at the threshold and the raw id is 240. -/
def tilt_port_at_commit : wedo_port_device :=
  { tilt_port_settled with id := 240, temp_type_id := WEDO_TYPE_MOTOR, type_debounce := 100 }

/-- A tilt sensor binding in mode 2 whose status is settled on right. -/
def tilt_right_mode2 : wedo_sensor_data :=
  { new_sensor_data WEDO_TILT_SENSOR with
    mode := 2, debounce_count := 5, debounce_status := WEDO_TILT_STATUS_RIGHT,
    status := WEDO_TILT_STATUS_RIGHT }

/-- A reading with raw id 40 (a tilt sensor) and raw input 60, registrations succeed. -/
def tilt_reading : reading := { input := 60, id := 40, env := { alloc_ok := true, register_err := 0 } }

/-- A port of type tilt, settled, whose sensor is in mode 2 with status right. -/
def tilt_port_mode2 : wedo_port_device :=
  { tilt_port_settled with drvdata := some (.sensor tilt_right_mode2) }

/-- The drive is reversed: a negative duty cycle with normal polarity, or a positive one
with inverted polarity. -/
def drive_reversed (wpd : wedo_port_device) : Prop :=
  (wpd.duty_cycle < 0 ∧ wpd.polarity = WEDO_MOTOR_POLARITY_NORMAL) ∨
    (0 < wpd.duty_cycle ∧ wpd.polarity = WEDO_MOTOR_POLARITY_INVERTED)

/-- A sequence of events on the device and on the count of outstanding writes. -/
def sched_run (s : sched_state) : List event → sched_state
  | [] => s
  | e :: es => sched_run (sched_step e s) es

/-- Whether every write completion of the sequence finds a write outstanding when its
turn comes, so that every event of the sequence can occur. -/
def sched_run_ok (s : sched_state) : List event → Bool
  | [] => true
  | .write_complete status :: es =>
    decide (0 < s.outstanding) && sched_run_ok (sched_step (.write_complete status) s) es
  | e :: es => sched_run_ok (sched_step e s) es

/-- From the probe: 102 motor reports bind a motor to port 1; a duty cycle of 50 is set
and the next read submits the frame; the write fails once and is handed in again; while
it is in flight a duty cycle of 60 is set and another report is read. -/
def inflight_events : List event :=
  List.replicate 102 (.read_complete motor_urb env_ok env_ok) ++
    [.set_duty_cycle .WEDO_PORT_1 50, .read_complete motor_urb env_ok env_ok,
      .write_complete (-71), .set_duty_cycle .WEDO_PORT_1 60,
      .read_complete motor_urb env_ok env_ok]

/-- The tilt debounce state of the sensor bound to a port, if any: candidate, count and
committed status. -/
def tilt_state_of (wpd : wedo_port_device) : Option (Nat × Nat × Nat) :=
  match wpd.drvdata with
  | some (.sensor wsd) => some (wsd.debounce_status, wsd.debounce_count, wsd.status)
  | _ => none

/-- A port of type tilt whose sensor is in mode 2 with status right, at the reading that
commits tilt once more: the report holds raw id 40 and raw input 60, the candidate is
tilt and the count is at the threshold (as after one reading of another category and
101 tilt readings). -/
def tilt_port_recommit : wedo_port_device :=
  { tilt_port_mode2 with
    input := 60, id := 40, temp_type_id := WEDO_TYPE_TILT, type_debounce := 100 }

/-! ## Theorems -/

/-- C1: for a duty cycle in [-100,100], `wedo_update_output_value` returns 0x00 for
coast and 0x80 for brake whatever duty and polarity are; for run it returns 0x00 at duty
0, the byte of duty+27 (normal) or -(duty+27) (inverted) for a positive duty, and the
byte of duty-27 (normal) or -duty+27 (inverted) for a negative duty, the byte being the
value modulo 256, which read as a signed 8-bit number is the value itself; any other
command gives 0x00. In particular (run, normal, 1) gives 28, (run, normal, 100) gives 127,
(run, inverted, 1) gives -28, (run, normal, -1) gives -28 and (run, normal, 0) gives 0. -/
theorem wedo_update_output_value_table (wpd : wedo_port_device)
    (hlo : -100 ≤ wpd.duty_cycle) (hhi : wpd.duty_cycle ≤ 100) :
    (wpd.command = WEDO_MOTOR_COMMAND_COAST → wedo_update_output_value wpd = 0x00) ∧
    (wpd.command = WEDO_MOTOR_COMMAND_BRAKE → wedo_update_output_value wpd = 0x80) ∧
    (wpd.command = WEDO_MOTOR_COMMAND_RUN → wpd.duty_cycle = 0 →
      wedo_update_output_value wpd = 0x00) ∧
    (wpd.command = WEDO_MOTOR_COMMAND_RUN → 0 < wpd.duty_cycle →
      wpd.polarity = WEDO_MOTOR_POLARITY_NORMAL →
      (wedo_update_output_value wpd : Int) = (wpd.duty_cycle + 27) % 256 ∧
      s8_of_byte (wedo_update_output_value wpd) = wpd.duty_cycle + 27) ∧
    (wpd.command = WEDO_MOTOR_COMMAND_RUN → 0 < wpd.duty_cycle →
      wpd.polarity = WEDO_MOTOR_POLARITY_INVERTED →
      (wedo_update_output_value wpd : Int) = (-(wpd.duty_cycle + 27)) % 256 ∧
      s8_of_byte (wedo_update_output_value wpd) = -(wpd.duty_cycle + 27)) ∧
    (wpd.command = WEDO_MOTOR_COMMAND_RUN → wpd.duty_cycle < 0 →
      wpd.polarity = WEDO_MOTOR_POLARITY_NORMAL →
      (wedo_update_output_value wpd : Int) = (wpd.duty_cycle - 27) % 256 ∧
      s8_of_byte (wedo_update_output_value wpd) = wpd.duty_cycle - 27) ∧
    (wpd.command = WEDO_MOTOR_COMMAND_RUN → wpd.duty_cycle < 0 →
      wpd.polarity = WEDO_MOTOR_POLARITY_INVERTED →
      (wedo_update_output_value wpd : Int) = (-wpd.duty_cycle + 27) % 256 ∧
      s8_of_byte (wedo_update_output_value wpd) = -wpd.duty_cycle + 27) ∧
    (wpd.command ≠ WEDO_MOTOR_COMMAND_COAST → wpd.command ≠ WEDO_MOTOR_COMMAND_BRAKE →
      wpd.command ≠ WEDO_MOTOR_COMMAND_RUN → wedo_update_output_value wpd = 0x00) ∧
    s8_of_byte (wedo_update_output_value
      (motor_port WEDO_MOTOR_COMMAND_RUN WEDO_MOTOR_POLARITY_NORMAL 1)) = 28 ∧
    s8_of_byte (wedo_update_output_value
      (motor_port WEDO_MOTOR_COMMAND_RUN WEDO_MOTOR_POLARITY_NORMAL 100)) = 127 ∧
    s8_of_byte (wedo_update_output_value
      (motor_port WEDO_MOTOR_COMMAND_RUN WEDO_MOTOR_POLARITY_INVERTED 1)) = -28 ∧
    s8_of_byte (wedo_update_output_value
      (motor_port WEDO_MOTOR_COMMAND_RUN WEDO_MOTOR_POLARITY_NORMAL (-1))) = -28 ∧
    s8_of_byte (wedo_update_output_value
      (motor_port WEDO_MOTOR_COMMAND_RUN WEDO_MOTOR_POLARITY_NORMAL 0)) = 0 := by
  obtain ⟨input, id, type_id, temp, deb, command, polarity, d, drv⟩ := wpd
  simp only at hlo hhi
  refine ⟨?_, ?_, ?_, ?_, ?_, ?_, ?_, ?_, ?_, ?_, ?_, ?_, ?_⟩
  · intro h; simp only at h; subst h; simp [wedo_update_output_value, to_uchar]
  · intro h; simp only at h; subst h
    simp [wedo_update_output_value, to_uchar, WEDO_MOTOR_COMMAND_BRAKE, WEDO_MOTOR_COMMAND_COAST]
  · intro h h0; simp only at h h0; subst h; subst h0
    simp [wedo_update_output_value, to_uchar, WEDO_MOTOR_COMMAND_BRAKE, WEDO_MOTOR_COMMAND_COAST,
      WEDO_MOTOR_COMMAND_RUN]
  · intro h h0 hp; simp only at h h0 hp; subst h; subst hp
    have hne : ¬ (0 = d) := by omega
    simp only [wedo_update_output_value, to_uchar, s8_of_byte, WEDO_MOTOR_COMMAND_BRAKE,
      WEDO_MOTOR_COMMAND_COAST, WEDO_MOTOR_COMMAND_RUN, WEDO_MOTOR_POLARITY_NORMAL, hne, h0,
      if_true, if_false]
    simp
    omega
  · intro h h0 hp; simp only at h h0 hp; subst h; subst hp
    have hne : ¬ (0 = d) := by omega
    simp only [wedo_update_output_value, to_uchar, s8_of_byte, WEDO_MOTOR_COMMAND_BRAKE,
      WEDO_MOTOR_COMMAND_COAST, WEDO_MOTOR_COMMAND_RUN, WEDO_MOTOR_POLARITY_NORMAL,
      WEDO_MOTOR_POLARITY_INVERTED, hne, h0, if_true, if_false]
    simp
    omega
  · intro h h0 hp; simp only at h h0 hp; subst h; subst hp
    have hne : ¬ (0 = d) := by omega
    have hnp : ¬ (0 < d) := by omega
    simp only [wedo_update_output_value, to_uchar, s8_of_byte, WEDO_MOTOR_COMMAND_BRAKE,
      WEDO_MOTOR_COMMAND_COAST, WEDO_MOTOR_COMMAND_RUN, WEDO_MOTOR_POLARITY_NORMAL, hne, hnp,
      if_true, if_false]
    simp
    omega
  · intro h h0 hp; simp only at h h0 hp; subst h; subst hp
    have hne : ¬ (0 = d) := by omega
    have hnp : ¬ (0 < d) := by omega
    simp only [wedo_update_output_value, to_uchar, s8_of_byte, WEDO_MOTOR_COMMAND_BRAKE,
      WEDO_MOTOR_COMMAND_COAST, WEDO_MOTOR_COMMAND_RUN, WEDO_MOTOR_POLARITY_NORMAL,
      WEDO_MOTOR_POLARITY_INVERTED, hne, hnp, if_true, if_false]
    simp
    omega
  · intro h1 h2 h3; simp only at h1 h2 h3
    simp [wedo_update_output_value, to_uchar, h1, h2, h3]
  all_goals decide

/-- Witness for C1: a running motor with inverted polarity at duty cycle 50. -/
theorem wedo_update_output_value_table_witness :
    (-100 : Int) ≤ (motor_port WEDO_MOTOR_COMMAND_RUN WEDO_MOTOR_POLARITY_INVERTED 50).duty_cycle ∧
    (motor_port WEDO_MOTOR_COMMAND_RUN WEDO_MOTOR_POLARITY_INVERTED 50).duty_cycle ≤ 100 ∧
    s8_of_byte (wedo_update_output_value
      (motor_port WEDO_MOTOR_COMMAND_RUN WEDO_MOTOR_POLARITY_INVERTED 50)) = -77 :=
  ⟨by decide, by decide,
    ((wedo_update_output_value_table
      (motor_port WEDO_MOTOR_COMMAND_RUN WEDO_MOTOR_POLARITY_INVERTED 50)
      (by decide) (by decide)).2.2.2.2.1 rfl (by decide) rfl).2⟩

/-- C9: `wedo_id_infos` has 15 entries with strictly ascending `max` fields ending at
255; for every raw id in 0..255 the scan of `wedo_port_update_status` stops at an index
below `WEDO_TYPE_MAX`, which is the unique category t with max(t-1) < raw_id <= max(t)
(no lower bound for t = 0): 0..9 shortlo, 10..27 bend, 28..47 tilt, 48..67 future,
68..87 raw, 88..109 touch, 110..131 sound, 132..152 temp, 153..169 light, 170..190
motion, 191..211 lightbrick, 212..224 22, 225..233 open, 234..246 motor, 247..255
shorthi. -/
theorem port_type_scan_table (raw_id : Nat) (hbyte : raw_id ≤ 255) :
    wedo_id_infos.length = 15 ∧
    List.Pairwise (fun a b => a < b) (wedo_id_infos.map (fun e => e.max)) ∧
    id_max 14 = 255 ∧
      port_type_scan raw_id < WEDO_TYPE_MAX ∧
      raw_id ≤ id_max (port_type_scan raw_id) ∧
      (port_type_scan raw_id = 0 ∨ id_max (port_type_scan raw_id - 1) < raw_id) ∧
      (∀ u, u < WEDO_TYPE_MAX → (u = 0 ∨ id_max (u - 1) < raw_id) → raw_id ≤ id_max u →
        u = port_type_scan raw_id) ∧
      (raw_id ≤ 9 → port_type_scan raw_id = WEDO_TYPE_SHORTLO) ∧
      (10 ≤ raw_id → raw_id ≤ 27 → port_type_scan raw_id = WEDO_TYPE_BEND) ∧
      (28 ≤ raw_id → raw_id ≤ 47 → port_type_scan raw_id = WEDO_TYPE_TILT) ∧
      (48 ≤ raw_id → raw_id ≤ 67 → port_type_scan raw_id = WEDO_TYPE_FUTURE) ∧
      (68 ≤ raw_id → raw_id ≤ 87 → port_type_scan raw_id = WEDO_TYPE_RAW) ∧
      (88 ≤ raw_id → raw_id ≤ 109 → port_type_scan raw_id = WEDO_TYPE_TOUCH) ∧
      (110 ≤ raw_id → raw_id ≤ 131 → port_type_scan raw_id = WEDO_TYPE_SOUND) ∧
      (132 ≤ raw_id → raw_id ≤ 152 → port_type_scan raw_id = WEDO_TYPE_TEMP) ∧
      (153 ≤ raw_id → raw_id ≤ 169 → port_type_scan raw_id = WEDO_TYPE_LIGHT) ∧
      (170 ≤ raw_id → raw_id ≤ 190 → port_type_scan raw_id = WEDO_TYPE_MOTION) ∧
      (191 ≤ raw_id → raw_id ≤ 211 → port_type_scan raw_id = WEDO_TYPE_LIGHTBRICK) ∧
      (212 ≤ raw_id → raw_id ≤ 224 → port_type_scan raw_id = WEDO_TYPE_22) ∧
      (225 ≤ raw_id → raw_id ≤ 233 → port_type_scan raw_id = WEDO_TYPE_OPEN) ∧
      (234 ≤ raw_id → raw_id ≤ 246 → port_type_scan raw_id = WEDO_TYPE_MOTOR) ∧
      (247 ≤ raw_id → port_type_scan raw_id = WEDO_TYPE_SHORTHI) := by
  refine ⟨by decide, by decide, by decide, ?_⟩
  have h1 : ∀ raw_id, raw_id < 256 →
      port_type_scan raw_id < WEDO_TYPE_MAX ∧
      raw_id ≤ id_max (port_type_scan raw_id) ∧
      (port_type_scan raw_id = 0 ∨ id_max (port_type_scan raw_id - 1) < raw_id) ∧
      (∀ u, u < WEDO_TYPE_MAX → (u = 0 ∨ id_max (u - 1) < raw_id) → raw_id ≤ id_max u →
        u = port_type_scan raw_id) := by
    set_option maxRecDepth 100000 in decide
  have b1 : ∀ raw_id, raw_id < 256 → (raw_id ≤ 9 → port_type_scan raw_id = WEDO_TYPE_SHORTLO) := by
    set_option maxRecDepth 100000 in decide
  have b2 : ∀ raw_id, raw_id < 256 → (10 ≤ raw_id → raw_id ≤ 27 → port_type_scan raw_id = WEDO_TYPE_BEND) := by
    set_option maxRecDepth 100000 in decide
  have b3 : ∀ raw_id, raw_id < 256 → (28 ≤ raw_id → raw_id ≤ 47 → port_type_scan raw_id = WEDO_TYPE_TILT) := by
    set_option maxRecDepth 100000 in decide
  have b4 : ∀ raw_id, raw_id < 256 → (48 ≤ raw_id → raw_id ≤ 67 → port_type_scan raw_id = WEDO_TYPE_FUTURE) := by
    set_option maxRecDepth 100000 in decide
  have b5 : ∀ raw_id, raw_id < 256 → (68 ≤ raw_id → raw_id ≤ 87 → port_type_scan raw_id = WEDO_TYPE_RAW) := by
    set_option maxRecDepth 100000 in decide
  have b6 : ∀ raw_id, raw_id < 256 → (88 ≤ raw_id → raw_id ≤ 109 → port_type_scan raw_id = WEDO_TYPE_TOUCH) := by
    set_option maxRecDepth 100000 in decide
  have b7 : ∀ raw_id, raw_id < 256 → (110 ≤ raw_id → raw_id ≤ 131 → port_type_scan raw_id = WEDO_TYPE_SOUND) := by
    set_option maxRecDepth 100000 in decide
  have b8 : ∀ raw_id, raw_id < 256 → (132 ≤ raw_id → raw_id ≤ 152 → port_type_scan raw_id = WEDO_TYPE_TEMP) := by
    set_option maxRecDepth 100000 in decide
  have c1 : ∀ raw_id, raw_id < 256 → (153 ≤ raw_id → raw_id ≤ 169 → port_type_scan raw_id = WEDO_TYPE_LIGHT) := by
    set_option maxRecDepth 100000 in decide
  have c2 : ∀ raw_id, raw_id < 256 → (170 ≤ raw_id → raw_id ≤ 190 → port_type_scan raw_id = WEDO_TYPE_MOTION) := by
    set_option maxRecDepth 100000 in decide
  have c3 : ∀ raw_id, raw_id < 256 → (191 ≤ raw_id → raw_id ≤ 211 → port_type_scan raw_id = WEDO_TYPE_LIGHTBRICK) := by
    set_option maxRecDepth 100000 in decide
  have c4 : ∀ raw_id, raw_id < 256 → (212 ≤ raw_id → raw_id ≤ 224 → port_type_scan raw_id = WEDO_TYPE_22) := by
    set_option maxRecDepth 100000 in decide
  have c5 : ∀ raw_id, raw_id < 256 → (225 ≤ raw_id → raw_id ≤ 233 → port_type_scan raw_id = WEDO_TYPE_OPEN) := by
    set_option maxRecDepth 100000 in decide
  have c6 : ∀ raw_id, raw_id < 256 → (234 ≤ raw_id → raw_id ≤ 246 → port_type_scan raw_id = WEDO_TYPE_MOTOR) := by
    set_option maxRecDepth 100000 in decide
  have c7 : ∀ raw_id, raw_id < 256 → (247 ≤ raw_id → port_type_scan raw_id = WEDO_TYPE_SHORTHI) := by
    set_option maxRecDepth 100000 in decide
  have hlt : raw_id < 256 := by omega
  obtain ⟨a1, a2, a3, a4⟩ := h1 raw_id hlt
  exact ⟨a1, a2, a3, a4, b1 raw_id hlt, b2 raw_id hlt, b3 raw_id hlt, b4 raw_id hlt,
    b5 raw_id hlt, b6 raw_id hlt, b7 raw_id hlt, b8 raw_id hlt, c1 raw_id hlt, c2 raw_id hlt,
    c3 raw_id hlt, c4 raw_id hlt, c5 raw_id hlt, c6 raw_id hlt, c7 raw_id hlt⟩

/-- C10: for every raw input in 0..255 the scan of `wedo_update_tilt_status` over the
6-entry ascending table stops at an index below `WEDO_TILT_STATUS_MAX` and yields
unknown for 0, back for 1..48, right for 49..99, level for 100..153, front for 154..204
and left for 205..255. -/
theorem tilt_status_scan_table (rawval : Nat) (hbyte : rawval ≤ 255) :
    wedo_tilt_status_infos.length = 6 ∧
    List.Pairwise (fun a b => a < b) (wedo_tilt_status_infos.map (fun e => e.max)) ∧
      tilt_status_scan rawval < WEDO_TILT_STATUS_MAX ∧
      (rawval = 0 → tilt_status_scan rawval = WEDO_TILT_STATUS_UNKNOWN) ∧
      (1 ≤ rawval → rawval ≤ 48 → tilt_status_scan rawval = WEDO_TILT_STATUS_BACK) ∧
      (49 ≤ rawval → rawval ≤ 99 → tilt_status_scan rawval = WEDO_TILT_STATUS_RIGHT) ∧
      (100 ≤ rawval → rawval ≤ 153 → tilt_status_scan rawval = WEDO_TILT_STATUS_LEVEL) ∧
      (154 ≤ rawval → rawval ≤ 204 → tilt_status_scan rawval = WEDO_TILT_STATUS_FRONT) ∧
      (205 ≤ rawval → tilt_status_scan rawval = WEDO_TILT_STATUS_LEFT) := by
  refine ⟨by decide, by decide, ?_⟩
  have h : ∀ rawval, rawval < 256 →
      tilt_status_scan rawval < WEDO_TILT_STATUS_MAX ∧
      (rawval = 0 → tilt_status_scan rawval = WEDO_TILT_STATUS_UNKNOWN) ∧
      (1 ≤ rawval → rawval ≤ 48 → tilt_status_scan rawval = WEDO_TILT_STATUS_BACK) ∧
      (49 ≤ rawval → rawval ≤ 99 → tilt_status_scan rawval = WEDO_TILT_STATUS_RIGHT) ∧
      (100 ≤ rawval → rawval ≤ 153 → tilt_status_scan rawval = WEDO_TILT_STATUS_LEVEL) ∧
      (154 ≤ rawval → rawval ≤ 204 → tilt_status_scan rawval = WEDO_TILT_STATUS_FRONT) ∧
      (205 ≤ rawval → tilt_status_scan rawval = WEDO_TILT_STATUS_LEFT) := by
    set_option maxRecDepth 100000 in decide
  exact h rawval (by omega)

/-- Witness for C9: raw id 40 lies in 28..47 and is classified as tilt. -/
theorem port_type_scan_table_witness :
    (40 : Nat) ≤ 255 ∧ port_type_scan 40 = WEDO_TYPE_TILT :=
  ⟨by decide, (port_type_scan_table 40 (by decide)).2.2.2.2.2.2.2.2.2.1 (by decide) (by decide)⟩

/-- Witness for C10: raw input 60 lies in 49..99 and is classified as right. -/
theorem tilt_status_scan_table_witness :
    (60 : Nat) ≤ 255 ∧ tilt_status_scan 60 = WEDO_TILT_STATUS_RIGHT :=
  ⟨by decide, (tilt_status_scan_table 60 (by decide)).2.2.2.2.2.1 (by decide) (by decide)⟩

/-! ### The tilt debounce, step by step -/

theorem tilt_step_reset (x : Nat) (wsd : wedo_sensor_data)
    (h : tilt_status_scan x ≠ wsd.debounce_status) :
    (wedo_update_tilt_status x wsd).2 =
      { wsd with debounce_count := 0, debounce_status := tilt_status_scan x } := by
  simp [wedo_update_tilt_status, h]

theorem tilt_step_count (x : Nat) (wsd : wedo_sensor_data)
    (h : tilt_status_scan x = wsd.debounce_status)
    (hc : wsd.debounce_count < WEDO_TILT_STATUS_DEBOUNCE) :
    (wedo_update_tilt_status x wsd).2 =
      { wsd with debounce_count := wsd.debounce_count + 1 } := by
  simp [wedo_update_tilt_status, h, hc]

theorem tilt_step_commit (x : Nat) (wsd : wedo_sensor_data)
    (h : tilt_status_scan x = wsd.debounce_status)
    (hc : wsd.debounce_count = WEDO_TILT_STATUS_DEBOUNCE) :
    (wedo_update_tilt_status x wsd).2 =
      { wsd with debounce_count := wsd.debounce_count + 1, status := tilt_status_scan x } := by
  simp [wedo_update_tilt_status, h, hc]

theorem tilt_step_idle (x : Nat) (wsd : wedo_sensor_data)
    (h : tilt_status_scan x = wsd.debounce_status)
    (hc : WEDO_TILT_STATUS_DEBOUNCE < wsd.debounce_count) :
    (wedo_update_tilt_status x wsd).2 = wsd := by
  have h1 : ¬ (WEDO_TILT_STATUS_DEBOUNCE > wsd.debounce_count) := by omega
  have h2 : ¬ (WEDO_TILT_STATUS_DEBOUNCE = wsd.debounce_count) := by omega
  simp [wedo_update_tilt_status, h, h1, h2]

theorem tilt_feed_append (xs ys : List Nat) :
    ∀ wsd : wedo_sensor_data, tilt_feed wsd (xs ++ ys) = tilt_feed (tilt_feed wsd xs) ys := by
  induction xs with
  | nil => intro wsd; simp [tilt_feed]
  | cons x xs ih => intro wsd; simp [tilt_feed, ih]

/-- Readings of the candidate's class below the threshold only count. -/
theorem tilt_feed_count (B : Nat) (xs : List Nat) :
    ∀ wsd : wedo_sensor_data, wsd.debounce_status = B →
      (∀ y ∈ xs, tilt_status_scan y = B) →
      wsd.debounce_count + xs.length ≤ WEDO_TILT_STATUS_DEBOUNCE →
      tilt_feed wsd xs = { wsd with debounce_count := wsd.debounce_count + xs.length } := by
  induction xs with
  | nil => intro wsd _ _ _; simp [tilt_feed]
  | cons x xs ih =>
    intro wsd hB hxs hlen
    simp only [List.length_cons] at hlen
    have hx : tilt_status_scan x = wsd.debounce_status := by
      rw [hB]; exact hxs x (List.mem_cons_self _ _)
    have hstep := tilt_step_count x wsd hx (by omega)
    simp only [tilt_feed, hstep]
    rw [ih { wsd with debounce_count := wsd.debounce_count + 1 } hB
      (fun y hy => hxs y (List.mem_cons_of_mem _ hy)) (by simp only []; omega)]
    simp [Nat.add_assoc, Nat.add_comm 1]

/-- Readings of the candidate's class past the threshold change nothing. -/
theorem tilt_feed_idle (B : Nat) (xs : List Nat) :
    ∀ wsd : wedo_sensor_data, wsd.debounce_status = B →
      (∀ y ∈ xs, tilt_status_scan y = B) →
      WEDO_TILT_STATUS_DEBOUNCE < wsd.debounce_count →
      tilt_feed wsd xs = wsd := by
  induction xs with
  | nil => intro wsd _ _ _; simp [tilt_feed]
  | cons x xs ih =>
    intro wsd hB hxs hc
    have hx : tilt_status_scan x = wsd.debounce_status := by
      rw [hB]; exact hxs x (List.mem_cons_self _ _)
    simp only [tilt_feed, tilt_step_idle x wsd hx hc]
    exact ih wsd hB (fun y hy => hxs y (List.mem_cons_of_mem _ hy)) hc

/-! ### What one call of `wedo_port_update_status` touches -/

theorem port_analog_update_frame (wpd : wedo_port_device) :
    ∃ d, port_analog_update wpd = { wpd with drvdata := d } := by
  unfold port_analog_update
  split
  · split
    · split
      · exact ⟨_, rfl⟩
      · exact ⟨wpd.drvdata, rfl⟩
    · exact ⟨wpd.drvdata, rfl⟩
  · exact ⟨wpd.drvdata, rfl⟩

theorem unregister_wedo_device_frame (wpd : wedo_port_device) :
    (unregister_wedo_device wpd).1 = wpd ∨
      (unregister_wedo_device wpd).1 = { wpd with drvdata := none } := by
  unfold unregister_wedo_device unregister_wedo_sensor unregister_wedo_motor
  split
  · split
    · exact Or.inl rfl
    · exact Or.inr rfl
  · split
    · split
      · exact Or.inl rfl
      · exact Or.inr rfl
    · exact Or.inl rfl

theorem set_mode_new_sensor_data (type : Nat) :
    (wedo_sensor_set_mode (new_sensor_data type) 0).2 = new_sensor_data type := by
  unfold wedo_sensor_set_mode
  split <;> rfl

theorem register_wedo_sensor_frame (env : reg_env) (wpd : wedo_port_device) (type : Nat) :
    (register_wedo_sensor env wpd type).2.1 = wpd ∨
      (wpd.drvdata = none ∧ (register_wedo_sensor env wpd type).2.1 =
        { wpd with drvdata := some (.sensor (new_sensor_data type)) }) := by
  unfold register_wedo_sensor
  split
  · exact Or.inl rfl
  · rename_i h
    split
    · exact Or.inl rfl
    · split
      · exact Or.inl rfl
      · refine Or.inr ⟨h, ?_⟩
        simp only [set_mode_new_sensor_data]

theorem register_wedo_motor_frame (env : reg_env) (wpd : wedo_port_device) :
    (register_wedo_motor env wpd).2.1 = wpd ∨
      (wpd.drvdata = none ∧ (register_wedo_motor env wpd).2.1 =
        { wpd with drvdata := some (.motor new_motor_data) }) := by
  unfold register_wedo_motor
  split
  · exact Or.inl rfl
  · rename_i h
    split
    · exact Or.inl rfl
    · split
      · exact Or.inl rfl
      · exact Or.inr ⟨h, rfl⟩

/-- After `register_wedo_device` the port has type `id`, and its binding is the old
one, or (when there was none) a fresh sensor or motor binding. -/
theorem register_wedo_device_frame (env : reg_env) (wpd : wedo_port_device) (id : Nat) :
    (register_wedo_device env wpd id).2.1 = { wpd with type_id := id } ∨
      (wpd.drvdata = none ∧ ∃ d, (register_wedo_device env wpd id).2.1 =
        { wpd with type_id := id, drvdata := some d } ∧
        ((∃ t, d = .sensor (new_sensor_data t)) ∨ d = .motor new_motor_data)) := by
  unfold register_wedo_device
  simp only []
  split
  · rcases register_wedo_sensor_frame env { wpd with type_id := id } WEDO_TILT_SENSOR with h | ⟨h0, h⟩
    · exact Or.inl h
    · exact Or.inr ⟨h0, _, h, Or.inl ⟨_, rfl⟩⟩
  · split
    · rcases register_wedo_sensor_frame env { wpd with type_id := id } WEDO_MOTION_SENSOR with
        h | ⟨h0, h⟩
      · exact Or.inl h
      · exact Or.inr ⟨h0, _, h, Or.inl ⟨_, rfl⟩⟩
    · split
      · rcases register_wedo_motor_frame env { wpd with type_id := id } with h | ⟨h0, h⟩
        · exact Or.inl h
        · exact Or.inr ⟨h0, _, h, Or.inr rfl⟩
      · exact Or.inl rfl

theorem register_wedo_device_fields (env : reg_env) (wpd : wedo_port_device) (id : Nat) :
    (register_wedo_device env wpd id).2.1.type_id = id ∧
    (register_wedo_device env wpd id).2.1.type_debounce = wpd.type_debounce ∧
    (register_wedo_device env wpd id).2.1.temp_type_id = wpd.temp_type_id ∧
    (register_wedo_device env wpd id).2.1.input = wpd.input ∧
    (register_wedo_device env wpd id).2.1.id = wpd.id ∧
    (register_wedo_device env wpd id).2.1.command = wpd.command ∧
    (register_wedo_device env wpd id).2.1.polarity = wpd.polarity ∧
    (register_wedo_device env wpd id).2.1.duty_cycle = wpd.duty_cycle := by
  rcases register_wedo_device_frame env wpd id with h | ⟨_, d, h, _⟩ <;> simp [h]

theorem unregister_wedo_device_fields (wpd : wedo_port_device) :
    (unregister_wedo_device wpd).1.type_id = wpd.type_id ∧
    (unregister_wedo_device wpd).1.type_debounce = wpd.type_debounce ∧
    (unregister_wedo_device wpd).1.temp_type_id = wpd.temp_type_id ∧
    (unregister_wedo_device wpd).1.input = wpd.input ∧
    (unregister_wedo_device wpd).1.id = wpd.id ∧
    (unregister_wedo_device wpd).1.command = wpd.command ∧
    (unregister_wedo_device wpd).1.polarity = wpd.polarity ∧
    (unregister_wedo_device wpd).1.duty_cycle = wpd.duty_cycle := by
  rcases unregister_wedo_device_frame wpd with h | h <;> simp [h]

theorem port_analog_update_fields (wpd : wedo_port_device) :
    (port_analog_update wpd).type_id = wpd.type_id ∧
    (port_analog_update wpd).type_debounce = wpd.type_debounce ∧
    (port_analog_update wpd).temp_type_id = wpd.temp_type_id ∧
    (port_analog_update wpd).input = wpd.input ∧
    (port_analog_update wpd).id = wpd.id ∧
    (port_analog_update wpd).command = wpd.command ∧
    (port_analog_update wpd).polarity = wpd.polarity ∧
    (port_analog_update wpd).duty_cycle = wpd.duty_cycle := by
  obtain ⟨d, h⟩ := port_analog_update_frame wpd
  simp [h]

theorem port_update_reset (env : reg_env) (wpd : wedo_port_device)
    (h : port_type_scan wpd.id ≠ wpd.temp_type_id) :
    wedo_port_update_status env wpd =
      ({ port_analog_update wpd with type_debounce := 0, temp_type_id := port_type_scan wpd.id },
        []) := by
  obtain ⟨d, hd⟩ := port_analog_update_frame wpd
  unfold wedo_port_update_status
  simp only [hd, h, ne_eq, not_false_eq_true, if_true]

theorem port_update_count (env : reg_env) (wpd : wedo_port_device)
    (h : port_type_scan wpd.id = wpd.temp_type_id)
    (hc : wpd.type_debounce < WEDO_PORT_TYPE_DEBOUNCE) :
    wedo_port_update_status env wpd =
      ({ port_analog_update wpd with type_debounce := wpd.type_debounce + 1 }, []) := by
  obtain ⟨d, hd⟩ := port_analog_update_frame wpd
  unfold wedo_port_update_status
  simp only [hd, h, ne_eq, not_true_eq_false, if_false, gt_iff_lt, hc, if_true]

theorem port_update_commit (env : reg_env) (wpd : wedo_port_device)
    (h : port_type_scan wpd.id = wpd.temp_type_id)
    (hc : wpd.type_debounce = WEDO_PORT_TYPE_DEBOUNCE) :
    wedo_port_update_status env wpd =
      ({ (register_wedo_device env (unregister_wedo_device (port_analog_update wpd)).1
            (port_type_scan wpd.id)).2.1 with
          type_debounce := WEDO_PORT_TYPE_DEBOUNCE + 1 },
        (unregister_wedo_device (port_analog_update wpd)).2 ++
          (register_wedo_device env (unregister_wedo_device (port_analog_update wpd)).1
            (port_type_scan wpd.id)).2.2) := by
  have hpa := port_analog_update_fields wpd
  have hun := unregister_wedo_device_fields (port_analog_update wpd)
  have hre := register_wedo_device_fields env (unregister_wedo_device (port_analog_update wpd)).1
    (port_type_scan wpd.id)
  have hdeb : (register_wedo_device env (unregister_wedo_device (port_analog_update wpd)).1
      (port_type_scan wpd.id)).2.1.type_debounce = WEDO_PORT_TYPE_DEBOUNCE := by
    rw [hre.2.1, hun.2.1, hpa.2.1, hc]
  have e1 : ¬ (port_type_scan (port_analog_update wpd).id ≠ (port_analog_update wpd).temp_type_id) := by
    rw [hpa.2.2.2.2.1, hpa.2.2.1]; exact not_not.mpr h
  have e2 : ¬ (WEDO_PORT_TYPE_DEBOUNCE > (port_analog_update wpd).type_debounce) := by
    rw [hpa.2.1, hc]; exact lt_irrefl _
  have e3 : WEDO_PORT_TYPE_DEBOUNCE = (port_analog_update wpd).type_debounce := by
    rw [hpa.2.1, hc]
  unfold wedo_port_update_status
  simp only []
  rw [if_neg e1, if_neg e2, if_pos e3, hpa.2.2.2.2.1, hdeb]

theorem port_update_idle (env : reg_env) (wpd : wedo_port_device)
    (h : port_type_scan wpd.id = wpd.temp_type_id)
    (hc : WEDO_PORT_TYPE_DEBOUNCE < wpd.type_debounce) :
    wedo_port_update_status env wpd = (port_analog_update wpd, []) := by
  obtain ⟨d, hd⟩ := port_analog_update_frame wpd
  have h1 : ¬ (wpd.type_debounce < WEDO_PORT_TYPE_DEBOUNCE) := by omega
  have h2 : ¬ (WEDO_PORT_TYPE_DEBOUNCE = wpd.type_debounce) := by omega
  unfold wedo_port_update_status
  simp only [hd, h, ne_eq, not_true_eq_false, if_false, gt_iff_lt, h1, h2]

/-! ### Bindings across calls -/

theorem same_binding_refl (a : Option drv_data) : same_binding a a := by
  unfold same_binding
  cases a with
  | none => trivial
  | some d => cases d <;> simp

theorem same_binding_trans (a b c : Option drv_data)
    (hab : same_binding a b) (hbc : same_binding b c) : same_binding a c := by
  unfold same_binding at *
  cases a with
  | none =>
    cases b with
    | none => exact hbc
    | some d => cases d <;> simp at hab
  | some x =>
    cases x with
    | sensor wa =>
      cases b with
      | none => simp at hab
      | some y =>
        cases y with
        | motor wb => simp at hab
        | sensor wb =>
          cases c with
          | none => simp at hbc
          | some z =>
            cases z with
            | motor wc => simp at hbc
            | sensor wc =>
              simp only at hab hbc ⊢
              exact ⟨hab.1.trans hbc.1, hab.2.trans hbc.2⟩
    | motor wa =>
      cases b with
      | none => simp at hab
      | some y =>
        cases y with
        | sensor wb => simp at hab
        | motor wb =>
          cases c with
          | none => simp at hbc
          | some z =>
            cases z with
            | sensor wc => simp at hbc
            | motor wc =>
              simp only at hab hbc ⊢
              exact hab.trans hbc

theorem wedo_update_tilt_status_info (x : Nat) (wsd : wedo_sensor_data) :
    (wedo_update_tilt_status x wsd).2.info = wsd.info ∧
    (wedo_update_tilt_status x wsd).2.mode = wsd.mode ∧
    (wedo_update_tilt_status x wsd).2.raw_data = wsd.raw_data := by
  unfold wedo_update_tilt_status
  simp only []
  split
  · exact ⟨rfl, rfl, rfl⟩
  · split
    · exact ⟨rfl, rfl, rfl⟩
    · split <;> exact ⟨rfl, rfl, rfl⟩

theorem call_analog_cb_info (cb : analog_cb_fn) (x : Nat) (wsd : wedo_sensor_data) :
    (call_analog_cb cb x wsd).info = wsd.info ∧ (call_analog_cb cb x wsd).mode = wsd.mode := by
  have h := wedo_update_tilt_status_info x wsd
  cases cb <;>
    simp [call_analog_cb, wedo_raw_cb, wedo_tilt_axis_cb, wedo_tilt_status_cb, set_raw_data, h]

theorem port_analog_update_same_binding (wpd : wedo_port_device) :
    same_binding wpd.drvdata (port_analog_update wpd).drvdata := by
  unfold port_analog_update
  split
  · split
    · rename_i wsd hd
      split
      · rename_i cb hcb
        rw [hd]
        simp only [same_binding]
        have h := call_analog_cb_info cb wpd.input wsd
        exact ⟨h.1.symm, h.2.symm⟩
      · exact same_binding_refl _
    · exact same_binding_refl _
  · exact same_binding_refl _

theorem port_feed_append (rs ss : List reading) :
    ∀ wpd : wedo_port_device,
      port_feed wpd (rs ++ ss) =
        ((port_feed (port_feed wpd rs).1 ss).1, (port_feed wpd rs).2 ++ (port_feed (port_feed wpd rs).1 ss).2) := by
  induction rs with
  | nil => intro wpd; simp [port_feed]
  | cons r rs ih => intro wpd; simp [port_feed, ih]

/-- A reading of the candidate's class below the threshold only counts. -/
theorem port_read_count (wpd : wedo_port_device) (r : reading)
    (h : port_type_scan r.id = wpd.temp_type_id)
    (hc : wpd.type_debounce < WEDO_PORT_TYPE_DEBOUNCE) :
    (port_read wpd r).2 = [] ∧
    (port_read wpd r).1.type_id = wpd.type_id ∧
    (port_read wpd r).1.temp_type_id = wpd.temp_type_id ∧
    (port_read wpd r).1.type_debounce = wpd.type_debounce + 1 ∧
    same_binding wpd.drvdata (port_read wpd r).1.drvdata := by
  unfold port_read
  rw [port_update_count r.env { wpd with input := r.input, id := r.id } h hc]
  have hf := port_analog_update_fields { wpd with input := r.input, id := r.id }
  have hb := port_analog_update_same_binding { wpd with input := r.input, id := r.id }
  exact ⟨rfl, hf.1, hf.2.2.1, rfl, hb⟩

/-- A reading of the candidate's class past the threshold changes nothing. -/
theorem port_read_idle (wpd : wedo_port_device) (r : reading)
    (h : port_type_scan r.id = wpd.temp_type_id)
    (hc : WEDO_PORT_TYPE_DEBOUNCE < wpd.type_debounce) :
    (port_read wpd r).2 = [] ∧
    (port_read wpd r).1.type_id = wpd.type_id ∧
    (port_read wpd r).1.temp_type_id = wpd.temp_type_id ∧
    (port_read wpd r).1.type_debounce = wpd.type_debounce ∧
    same_binding wpd.drvdata (port_read wpd r).1.drvdata := by
  unfold port_read
  rw [port_update_idle r.env { wpd with input := r.input, id := r.id } h hc]
  have hf := port_analog_update_fields { wpd with input := r.input, id := r.id }
  have hb := port_analog_update_same_binding { wpd with input := r.input, id := r.id }
  exact ⟨rfl, hf.1, hf.2.2.1, hf.2.1, hb⟩

/-- A reading of another class than the candidate's restarts the count. -/
theorem port_read_reset (wpd : wedo_port_device) (r : reading)
    (h : port_type_scan r.id ≠ wpd.temp_type_id) :
    (port_read wpd r).2 = [] ∧
    (port_read wpd r).1.type_id = wpd.type_id ∧
    (port_read wpd r).1.temp_type_id = port_type_scan r.id ∧
    (port_read wpd r).1.type_debounce = 0 ∧
    same_binding wpd.drvdata (port_read wpd r).1.drvdata := by
  unfold port_read
  rw [port_update_reset r.env { wpd with input := r.input, id := r.id } h]
  have hf := port_analog_update_fields { wpd with input := r.input, id := r.id }
  have hb := port_analog_update_same_binding { wpd with input := r.input, id := r.id }
  exact ⟨rfl, hf.1, rfl, rfl, hb⟩

theorem port_feed_count (B : Nat) (rs : List reading) :
    ∀ wpd : wedo_port_device, wpd.temp_type_id = B →
      (∀ r ∈ rs, port_type_scan r.id = B) →
      wpd.type_debounce + rs.length ≤ WEDO_PORT_TYPE_DEBOUNCE →
      (port_feed wpd rs).2 = [] ∧
      (port_feed wpd rs).1.type_id = wpd.type_id ∧
      (port_feed wpd rs).1.temp_type_id = B ∧
      (port_feed wpd rs).1.type_debounce = wpd.type_debounce + rs.length ∧
      same_binding wpd.drvdata (port_feed wpd rs).1.drvdata := by
  induction rs with
  | nil => intro wpd hB _ _; exact ⟨rfl, rfl, hB, rfl, same_binding_refl _⟩
  | cons r rs ih =>
    intro wpd hB hrs hlen
    simp only [List.length_cons] at hlen
    have hr : port_type_scan r.id = wpd.temp_type_id := by
      rw [hB]; exact hrs r (List.mem_cons_self _ _)
    obtain ⟨c1, c2, c3, c4, c5⟩ := port_read_count wpd r hr (by omega)
    obtain ⟨d1, d2, d3, d4, d5⟩ := ih (port_read wpd r).1 (by rw [c3, hB])
      (fun y hy => hrs y (List.mem_cons_of_mem _ hy)) (by rw [c4]; omega)
    simp only [port_feed, List.length_cons]
    refine ⟨by rw [c1, d1]; rfl, by rw [d2, c2], d3, by rw [d4, c4]; omega, ?_⟩
    exact same_binding_trans _ _ _ c5 d5

theorem port_feed_idle (B : Nat) (rs : List reading) :
    ∀ wpd : wedo_port_device, wpd.temp_type_id = B →
      (∀ r ∈ rs, port_type_scan r.id = B) →
      WEDO_PORT_TYPE_DEBOUNCE < wpd.type_debounce →
      (port_feed wpd rs).2 = [] ∧
      (port_feed wpd rs).1.type_id = wpd.type_id ∧
      (port_feed wpd rs).1.temp_type_id = B ∧
      (port_feed wpd rs).1.type_debounce = wpd.type_debounce ∧
      same_binding wpd.drvdata (port_feed wpd rs).1.drvdata := by
  induction rs with
  | nil => intro wpd hB _ _; exact ⟨rfl, rfl, hB, rfl, same_binding_refl _⟩
  | cons r rs ih =>
    intro wpd hB hrs hc
    have hr : port_type_scan r.id = wpd.temp_type_id := by
      rw [hB]; exact hrs r (List.mem_cons_self _ _)
    obtain ⟨c1, c2, c3, c4, c5⟩ := port_read_idle wpd r hr hc
    obtain ⟨d1, d2, d3, d4, d5⟩ := ih (port_read wpd r).1 (by rw [c3, hB])
      (fun y hy => hrs y (List.mem_cons_of_mem _ hy)) (by rw [c4]; exact hc)
    simp only [port_feed]
    refine ⟨by rw [c1, d1]; rfl, by rw [d2, c2], d3, by rw [d4, c4], ?_⟩
    exact same_binding_trans _ _ _ c5 d5

/-- Readings of a class other than the candidate's: the first restarts the count, up to
100 more only count. -/
theorem port_feed_short (wpd : wedo_port_device) (B : Nat) (rs : List reading)
    (hcand : wpd.temp_type_id ≠ B) (hrs : ∀ r ∈ rs, port_type_scan r.id = B)
    (hlen : rs.length ≤ WEDO_PORT_TYPE_DEBOUNCE + 1) :
    (port_feed wpd rs).2 = [] ∧
    (port_feed wpd rs).1.type_id = wpd.type_id ∧
    same_binding wpd.drvdata (port_feed wpd rs).1.drvdata ∧
    (rs ≠ [] → (port_feed wpd rs).1.temp_type_id = B ∧
      (port_feed wpd rs).1.type_debounce + 1 = rs.length) := by
  cases rs with
  | nil => exact ⟨rfl, rfl, same_binding_refl _, fun h => absurd rfl h⟩
  | cons r rs =>
    have hr : port_type_scan r.id = B := hrs r (List.mem_cons_self _ _)
    simp only [List.length_cons] at hlen
    obtain ⟨c1, c2, c3, c4, c5⟩ := port_read_reset wpd r (by rw [hr]; exact fun h => hcand h.symm)
    obtain ⟨d1, d2, d3, d4, d5⟩ := port_feed_count B rs (port_read wpd r).1 (by rw [c3, hr])
      (fun y hy => hrs y (List.mem_cons_of_mem _ hy)) (by rw [c4]; omega)
    simp only [port_feed, List.length_cons]
    refine ⟨by rw [c1, d1]; rfl, by rw [d2, c2], same_binding_trans _ _ _ c5 d5, fun _ => ⟨d3, ?_⟩⟩
    rw [d4, c4]; omega

theorem port_update_commit_fields (env : reg_env) (p : wedo_port_device)
    (h : port_type_scan p.id = p.temp_type_id)
    (hc : p.type_debounce = WEDO_PORT_TYPE_DEBOUNCE) :
    (wedo_port_update_status env p).1.temp_type_id = p.temp_type_id ∧
    (wedo_port_update_status env p).1.type_debounce = WEDO_PORT_TYPE_DEBOUNCE + 1 ∧
    (wedo_port_update_status env p).1.type_id = port_type_scan p.id ∧
    (wedo_port_update_status env p).1.duty_cycle = p.duty_cycle ∧
    (wedo_port_update_status env p).1.input = p.input ∧
    (wedo_port_update_status env p).1.id = p.id ∧
    (wedo_port_update_status env p).1.command = p.command ∧
    (wedo_port_update_status env p).1.polarity = p.polarity := by
  have hp := port_analog_update_fields p
  have up := unregister_wedo_device_fields (port_analog_update p)
  have rp := register_wedo_device_fields env (unregister_wedo_device (port_analog_update p)).1
    (port_type_scan p.id)
  rw [port_update_commit env p h hc]
  refine ⟨?_, rfl, rp.1, ?_, ?_, ?_, ?_, ?_⟩
  · exact rp.2.2.1.trans (up.2.2.1.trans hp.2.2.1)
  · exact rp.2.2.2.2.2.2.2.trans (up.2.2.2.2.2.2.2.trans hp.2.2.2.2.2.2.2)
  · exact rp.2.2.2.1.trans (up.2.2.2.1.trans hp.2.2.2.1)
  · exact rp.2.2.2.2.1.trans (up.2.2.2.2.1.trans hp.2.2.2.2.1)
  · exact rp.2.2.2.2.2.1.trans (up.2.2.2.2.2.1.trans hp.2.2.2.2.2.1)
  · exact rp.2.2.2.2.2.2.1.trans (up.2.2.2.2.2.2.1.trans hp.2.2.2.2.2.2.1)

/-- The type fields after `wedo_port_update_status` are determined by the raw id and the
type fields before: nothing of the binding is read for them. -/
theorem port_update_type_fields (env env2 : reg_env) (p q : wedo_port_device)
    (hid : p.id = q.id) (ht : p.temp_type_id = q.temp_type_id)
    (hd : p.type_debounce = q.type_debounce) (hty : p.type_id = q.type_id) :
    (wedo_port_update_status env p).1.temp_type_id =
        (wedo_port_update_status env2 q).1.temp_type_id ∧
    (wedo_port_update_status env p).1.type_debounce =
        (wedo_port_update_status env2 q).1.type_debounce ∧
    (wedo_port_update_status env p).1.type_id =
        (wedo_port_update_status env2 q).1.type_id := by
  have hp := port_analog_update_fields p
  have hq := port_analog_update_fields q
  by_cases h : port_type_scan p.id = p.temp_type_id
  · have h2 : port_type_scan q.id = q.temp_type_id := by rw [← hid, ← ht]; exact h
    rcases Nat.lt_trichotomy p.type_debounce WEDO_PORT_TYPE_DEBOUNCE with hc | hc | hc
    · rw [port_update_count env p h hc, port_update_count env2 q h2 (by rw [← hd]; exact hc)]
      simp only [hp.1, hp.2.2.1, hq.1, hq.2.2.1, ht, hd, hty, and_self]
    · obtain ⟨a1, a2, a3, _⟩ := port_update_commit_fields env p h hc
      obtain ⟨b1, b2, b3, _⟩ := port_update_commit_fields env2 q h2 (by rw [← hd]; exact hc)
      exact ⟨by rw [a1, b1, ht], by rw [a2, b2], by rw [a3, b3, hid]⟩
    · rw [port_update_idle env p h hc, port_update_idle env2 q h2 (by rw [← hd]; exact hc)]
      simp only [hp.1, hp.2.1, hp.2.2.1, hq.1, hq.2.1, hq.2.2.1, ht, hd, hty, and_self]
  · have h2 : port_type_scan q.id ≠ q.temp_type_id := by rw [← hid, ← ht]; exact h
    rw [port_update_reset env p h, port_update_reset env2 q h2]
    simp only [hp.1, hq.1, hid, hty, and_self]

/-- Unless it commits, `wedo_port_update_status` leaves the binding as the sensor
callback left it. -/
theorem port_update_binding (env : reg_env) (p : wedo_port_device)
    (h : ¬ (port_type_scan p.id = p.temp_type_id ∧ p.type_debounce = WEDO_PORT_TYPE_DEBOUNCE)) :
    (wedo_port_update_status env p).1.drvdata = (port_analog_update p).drvdata ∧
    (wedo_port_update_status env p).2 = [] := by
  by_cases h1 : port_type_scan p.id = p.temp_type_id
  · rcases Nat.lt_trichotomy p.type_debounce WEDO_PORT_TYPE_DEBOUNCE with hc | hc | hc
    · rw [port_update_count env p h1 hc]; exact ⟨rfl, rfl⟩
    · exact absurd ⟨h1, hc⟩ h
    · rw [port_update_idle env p h1 hc]; exact ⟨rfl, rfl⟩
  · rw [port_update_reset env p h1]; exact ⟨rfl, rfl⟩

/-- The binding after the sensor callback is determined by the type, the raw input and
the binding before: the type candidate and its count are not read. -/
theorem port_analog_update_binding (p q : wedo_port_device)
    (hty : p.type_id = q.type_id) (hin : p.input = q.input) (hdrv : p.drvdata = q.drvdata) :
    (port_analog_update p).drvdata = (port_analog_update q).drvdata := by
  unfold port_analog_update
  rw [hty, hin, hdrv]
  split
  · split
    · split
      · rfl
      · exact hdrv
    · exact hdrv
  · exact hdrv

/-! ### The port-type debounce (C2) -/

set_option maxRecDepth 100000 in
/-- Counterexample to C2 as stated: a port bound and settled as tilt is fed 100
consecutive readings with raw id 240, which classifies as motor; after the 100th the
port is still of type tilt and no device-class call was made, so no rebind has happened. -/
theorem port_hundredth_reading_not_committed :
    tilt_port_settled.type_id = WEDO_TYPE_TILT ∧
    tilt_port_settled.temp_type_id = WEDO_TYPE_TILT ∧
    port_type_scan motor_reading.id = WEDO_TYPE_MOTOR ∧
    (port_feed tilt_port_settled (List.replicate 100 motor_reading)).1.type_id = WEDO_TYPE_TILT ∧
    (port_feed tilt_port_settled (List.replicate 100 motor_reading)).1.type_id ≠ WEDO_TYPE_MOTOR ∧
    (port_feed tilt_port_settled (List.replicate 100 motor_reading)).2 = [] := by
  decide

/-- C2 (amended): a port of type A whose candidate is A is fed readings whose raw id
classifies to B, different from A. Up to 101 consecutive such readings make no
device-class call and leave the type A and the binding; the 102nd performs exactly one
rebind to B (one `unregister_wedo_device`, one `register_wedo_device` for B) and the
type becomes B; further readings of B make no call and keep type and binding. Any
reading whose classification differs from the candidate sets the count to 0. -/
theorem port_type_debounce_law (wpd : wedo_port_device) (A B : Nat)
    (rs : List reading) (r : reading) (more : List reading)
    (hA : wpd.type_id = A) (hcand : wpd.temp_type_id = A) (hAB : B ≠ A)
    (hrs : ∀ x ∈ rs, port_type_scan x.id = B) (hr : port_type_scan r.id = B)
    (hmore : ∀ x ∈ more, port_type_scan x.id = B) (hlen : rs.length = 101) :
    (∀ zs : List reading, (∀ x ∈ zs, port_type_scan x.id = B) → zs.length ≤ 101 →
      (port_feed wpd zs).2 = [] ∧ (port_feed wpd zs).1.type_id = A ∧
      same_binding wpd.drvdata (port_feed wpd zs).1.drvdata) ∧
    port_read (port_feed wpd rs).1 r =
      ({ (rebind r.env (port_analog_update
            { (port_feed wpd rs).1 with input := r.input, id := r.id }) B).1 with
          type_debounce := 101 },
        (rebind r.env (port_analog_update
            { (port_feed wpd rs).1 with input := r.input, id := r.id }) B).2) ∧
    (port_feed wpd (rs ++ [r])).1.type_id = B ∧
    (port_feed wpd (rs ++ [r])).2 =
      (rebind r.env (port_analog_update
        { (port_feed wpd rs).1 with input := r.input, id := r.id }) B).2 ∧
    (port_feed wpd (rs ++ r :: more)).2 = (port_feed wpd (rs ++ [r])).2 ∧
    (port_feed wpd (rs ++ r :: more)).1.type_id = B ∧
    same_binding (port_feed wpd (rs ++ [r])).1.drvdata
      (port_feed wpd (rs ++ r :: more)).1.drvdata ∧
    (∀ (w : wedo_port_device) (x : reading), port_type_scan x.id ≠ w.temp_type_id →
      (port_read w x).1.type_debounce = 0 ∧
      (port_read w x).1.temp_type_id = port_type_scan x.id ∧
      (port_read w x).1.type_id = w.type_id ∧
      (port_read w x).2 = []) := by
  have hne : wpd.temp_type_id ≠ B := by rw [hcand]; exact fun h => hAB h.symm
  have hshort : ∀ zs : List reading, (∀ x ∈ zs, port_type_scan x.id = B) → zs.length ≤ 101 →
      (port_feed wpd zs).2 = [] ∧ (port_feed wpd zs).1.type_id = A ∧
      same_binding wpd.drvdata (port_feed wpd zs).1.drvdata := by
    intro zs hzs hl
    obtain ⟨a1, a2, a3, _⟩ := port_feed_short wpd B zs hne hzs (by simpa [WEDO_PORT_TYPE_DEBOUNCE] using hl)
    exact ⟨a1, by rw [a2, hA], a3⟩
  obtain ⟨a1, a2, a3, a4⟩ := port_feed_short wpd B rs hne hrs
    (by simp [WEDO_PORT_TYPE_DEBOUNCE, hlen])
  have hrsne : rs ≠ [] := by
    intro h; rw [h] at hlen; simp at hlen
  obtain ⟨b1, b2⟩ := a4 hrsne
  have hdeb : (port_feed wpd rs).1.type_debounce = WEDO_PORT_TYPE_DEBOUNCE := by
    simp only [WEDO_PORT_TYPE_DEBOUNCE]; omega
  have hcommit : port_read (port_feed wpd rs).1 r =
      ({ (rebind r.env (port_analog_update
            { (port_feed wpd rs).1 with input := r.input, id := r.id }) B).1 with
          type_debounce := 101 },
        (rebind r.env (port_analog_update
            { (port_feed wpd rs).1 with input := r.input, id := r.id }) B).2) := by
    unfold port_read
    rw [port_update_commit r.env { (port_feed wpd rs).1 with input := r.input, id := r.id }
      (by simp only []; rw [hr, b1]) hdeb]
    simp only [rebind, hr, WEDO_PORT_TYPE_DEBOUNCE]
  have hfields := register_wedo_device_fields r.env
    (unregister_wedo_device (port_analog_update
      { (port_feed wpd rs).1 with input := r.input, id := r.id })).1 B
  have hun := unregister_wedo_device_fields (port_analog_update
      { (port_feed wpd rs).1 with input := r.input, id := r.id })
  have hpa := port_analog_update_fields { (port_feed wpd rs).1 with input := r.input, id := r.id }
  have htype : (port_read (port_feed wpd rs).1 r).1.type_id = B := by
    rw [hcommit]; exact hfields.1
  have htemp : (port_read (port_feed wpd rs).1 r).1.temp_type_id = B := by
    rw [hcommit]
    simp only [rebind]
    rw [hfields.2.2.1, hun.2.2.1, hpa.2.2.1]
    exact b1
  have hdeb2 : WEDO_PORT_TYPE_DEBOUNCE < (port_read (port_feed wpd rs).1 r).1.type_debounce := by
    rw [hcommit]; simp [WEDO_PORT_TYPE_DEBOUNCE]
  have hone : port_feed wpd (rs ++ [r]) =
      ((port_read (port_feed wpd rs).1 r).1, (port_read (port_feed wpd rs).1 r).2) := by
    rw [port_feed_append]
    simp [port_feed, a1]
  obtain ⟨e1, e2, e3, e4, e5⟩ := port_feed_idle B more (port_read (port_feed wpd rs).1 r).1
    htemp hmore hdeb2
  have hall : port_feed wpd (rs ++ r :: more) =
      ((port_feed (port_read (port_feed wpd rs).1 r).1 more).1,
        (port_read (port_feed wpd rs).1 r).2) := by
    rw [port_feed_append]
    simp [port_feed, a1, e1]
  refine ⟨hshort, hcommit, ?_, ?_, ?_, ?_, ?_, ?_⟩
  · rw [hone]; exact htype
  · rw [hone, hcommit]
  · rw [hall, hone]
  · rw [hall]; simp only []; rw [e2]; exact htype
  · rw [hall, hone]; exact e5
  · intro w x hx
    obtain ⟨f1, f2, f3, f4, _⟩ := port_read_reset w x hx
    exact ⟨f4, f3, f2, f1⟩

/-- Witness for C2 (amended): a port settled as tilt, fed 101 and then one more reading
with raw id 240, is of type motor afterwards. -/
theorem port_type_debounce_law_witness :
    tilt_port_settled.type_id = WEDO_TYPE_TILT ∧
    tilt_port_settled.temp_type_id = WEDO_TYPE_TILT ∧
    WEDO_TYPE_MOTOR ≠ WEDO_TYPE_TILT ∧
    port_type_scan motor_reading.id = WEDO_TYPE_MOTOR ∧
    (List.replicate 101 motor_reading).length = 101 ∧
    (port_feed tilt_port_settled (List.replicate 101 motor_reading ++ [motor_reading])).1.type_id =
      WEDO_TYPE_MOTOR :=
  ⟨by decide, by decide, by decide, by decide, by simp,
    (port_type_debounce_law tilt_port_settled WEDO_TYPE_TILT WEDO_TYPE_MOTOR
      (List.replicate 101 motor_reading) motor_reading [motor_reading]
      (by decide) (by decide) (by decide)
      (fun x hx => by rw [List.eq_of_mem_replicate hx]; decide) (by decide)
      (fun x hx => by rw [List.mem_singleton.mp hx]; decide) (by simp)).2.2.1⟩

/-! ### Tilt decode (C8) -/

theorem raw_data_set_get (wsd : wedo_sensor_data) (i : Nat) (v : Int) :
    (set_raw_data wsd i v).raw_data wsd.mode i = to_uchar v := by
  simp [set_raw_data]

/-- C8: the tilt sensor has the modes 0 (raw), 1 (axis) and 2 (status), the motion sensor
only mode 0 (raw). The axis callback stores two values that are a function of the status
the debounce step returns: back (0,-1), right (1,0), front (0,1), left (-1,0), level and
unknown (0,0); the status callback stores level/unknown 0, front 1, back 2, left 3,
right 4; the raw callback stores the raw input itself and does not touch the debounce
state. In particular a returned status right gives (1,0) and 4, as it does for a fresh
tilt sensor after six raw inputs of 60. A port of type tilt or motion runs the
callback of the selected mode of its sensor. -/
theorem tilt_decode_table (input : Nat) (wsd : wedo_sensor_data) (hbyte : input ≤ 255) :
    (wedo_sensor_defs.getD WEDO_TILT_SENSOR ⟨"", 0, []⟩).num_modes = 3 ∧
    (wedo_sensor_defs.getD WEDO_TILT_SENSOR ⟨"", 0, []⟩).wedo_mode_info =
      [some .raw_cb, some .tilt_axis_cb, some .tilt_status_cb] ∧
    (wedo_sensor_defs.getD WEDO_MOTION_SENSOR ⟨"", 0, []⟩).num_modes = 1 ∧
    (wedo_sensor_defs.getD WEDO_MOTION_SENSOR ⟨"", 0, []⟩).wedo_mode_info = [some .raw_cb] ∧
    -- mode "axis"
    (∀ a b : Int,
      (a, b) = (s8_of_byte ((call_analog_cb .tilt_axis_cb input wsd).raw_data wsd.mode 0),
                s8_of_byte ((call_analog_cb .tilt_axis_cb input wsd).raw_data wsd.mode 1)) →
      ((wedo_update_tilt_status input wsd).1 = WEDO_TILT_STATUS_BACK → (a, b) = (0, -1)) ∧
      ((wedo_update_tilt_status input wsd).1 = WEDO_TILT_STATUS_RIGHT → (a, b) = (1, 0)) ∧
      ((wedo_update_tilt_status input wsd).1 = WEDO_TILT_STATUS_FRONT → (a, b) = (0, 1)) ∧
      ((wedo_update_tilt_status input wsd).1 = WEDO_TILT_STATUS_LEFT → (a, b) = (-1, 0)) ∧
      ((wedo_update_tilt_status input wsd).1 = WEDO_TILT_STATUS_LEVEL → (a, b) = (0, 0)) ∧
      ((wedo_update_tilt_status input wsd).1 = WEDO_TILT_STATUS_UNKNOWN → (a, b) = (0, 0))) ∧
    -- mode "status"
    (∀ v : Nat, v = (call_analog_cb .tilt_status_cb input wsd).raw_data wsd.mode 0 →
      ((wedo_update_tilt_status input wsd).1 = WEDO_TILT_STATUS_LEVEL → v = 0) ∧
      ((wedo_update_tilt_status input wsd).1 = WEDO_TILT_STATUS_UNKNOWN → v = 0) ∧
      ((wedo_update_tilt_status input wsd).1 = WEDO_TILT_STATUS_FRONT → v = 1) ∧
      ((wedo_update_tilt_status input wsd).1 = WEDO_TILT_STATUS_BACK → v = 2) ∧
      ((wedo_update_tilt_status input wsd).1 = WEDO_TILT_STATUS_LEFT → v = 3) ∧
      ((wedo_update_tilt_status input wsd).1 = WEDO_TILT_STATUS_RIGHT → v = 4)) ∧
    -- the status the callbacks decode is the committed one
    (wedo_update_tilt_status input wsd).1 = (wedo_update_tilt_status input wsd).2.status ∧
    (call_analog_cb .tilt_axis_cb input wsd).status = (wedo_update_tilt_status input wsd).1 ∧
    (call_analog_cb .tilt_status_cb input wsd).status = (wedo_update_tilt_status input wsd).1 ∧
    -- the callback of the selected mode is the one a tilt or motion port runs
    (∀ (wpd : wedo_port_device) (cb : analog_cb_fn),
      wpd.type_id = WEDO_TYPE_TILT ∨ wpd.type_id = WEDO_TYPE_MOTION →
      wpd.drvdata = some (.sensor wsd) →
      wsd.info.wedo_mode_info.getD wsd.mode none = some cb →
      port_analog_update wpd =
        { wpd with drvdata := some (.sensor (call_analog_cb cb wpd.input wsd)) }) ∧
    -- mode "raw"
    (call_analog_cb .raw_cb input wsd).raw_data wsd.mode 0 = input ∧
    (call_analog_cb .raw_cb input wsd).status = wsd.status ∧
    (call_analog_cb .raw_cb input wsd).debounce_status = wsd.debounce_status ∧
    (call_analog_cb .raw_cb input wsd).debounce_count = wsd.debounce_count ∧
    -- a fresh tilt sensor, six raw inputs classifying to right
    s8_of_byte ((cb_feed .tilt_axis_cb { new_sensor_data WEDO_TILT_SENSOR with mode := 1 }
      (List.replicate 6 60)).raw_data 1 0) = 1 ∧
    s8_of_byte ((cb_feed .tilt_axis_cb { new_sensor_data WEDO_TILT_SENSOR with mode := 1 }
      (List.replicate 6 60)).raw_data 1 1) = 0 ∧
    (cb_feed .tilt_status_cb { new_sensor_data WEDO_TILT_SENSOR with mode := 2 }
      (List.replicate 6 60)).raw_data 2 0 = 4 := by
  have hinfo := wedo_update_tilt_status_info input wsd
  have hst : (wedo_update_tilt_status input wsd).1 = (wedo_update_tilt_status input wsd).2.status := by
    simp [wedo_update_tilt_status]
  have hax0 : (call_analog_cb .tilt_axis_cb input wsd).raw_data wsd.mode 0 =
      to_uchar (tilt_axis_values (wedo_update_tilt_status input wsd).1).1 := by
    simp [call_analog_cb, wedo_tilt_axis_cb, set_raw_data, hinfo.2.1]
  have hax1 : (call_analog_cb .tilt_axis_cb input wsd).raw_data wsd.mode 1 =
      to_uchar (tilt_axis_values (wedo_update_tilt_status input wsd).1).2 := by
    simp [call_analog_cb, wedo_tilt_axis_cb, set_raw_data, hinfo.2.1]
  have hsv : (call_analog_cb .tilt_status_cb input wsd).raw_data wsd.mode 0 =
      to_uchar (tilt_status_value (wedo_update_tilt_status input wsd).1) := by
    simp [call_analog_cb, wedo_tilt_status_cb, set_raw_data, hinfo.2.1]
  refine ⟨by decide, by decide, by decide, by decide, ?_, ?_, hst, ?_, ?_, ?_, ?_, rfl, rfl, rfl,
    by decide, by decide, by decide⟩
  · intro a b hab
    rw [hax0, hax1] at hab
    rw [hab]
    refine ⟨?_, ?_, ?_, ?_, ?_, ?_⟩ <;> intro h <;> rw [h] <;> decide
  · intro v hv
    rw [hsv] at hv
    rw [hv]
    refine ⟨?_, ?_, ?_, ?_, ?_, ?_⟩ <;> intro h <;> rw [h] <;> decide
  · simp [call_analog_cb, wedo_tilt_axis_cb, set_raw_data, hst]
  · simp [call_analog_cb, wedo_tilt_status_cb, set_raw_data, hst]
  · intro wpd cb hty hdrv hcb
    unfold port_analog_update
    simp only [hty, hdrv, hcb, if_true]
  · simp only [call_analog_cb, wedo_raw_cb, raw_data_set_get, to_uchar]
    omega

/-- Witness for C8: the raw callback of a tilt sensor stores the raw input 60. -/
theorem tilt_decode_table_witness :
    (60 : Nat) ≤ 255 ∧
    (call_analog_cb .raw_cb 60 tilt_level_settled).raw_data tilt_level_settled.mode 0 = 60 :=
  ⟨by decide, (tilt_decode_table 60 tilt_level_settled (by decide)).2.2.2.2.2.2.2.2.2.2.1⟩

/-! ### Input decode (C6) -/

/-- Whatever branch it takes, `wedo_port_update_status` keeps the report bytes and the
motor fields of the port. -/
theorem port_update_fields (env : reg_env) (p : wedo_port_device) :
    (wedo_port_update_status env p).1.input = p.input ∧
    (wedo_port_update_status env p).1.id = p.id ∧
    (wedo_port_update_status env p).1.command = p.command ∧
    (wedo_port_update_status env p).1.polarity = p.polarity ∧
    (wedo_port_update_status env p).1.duty_cycle = p.duty_cycle := by
  have hp := port_analog_update_fields p
  by_cases h : port_type_scan p.id = p.temp_type_id
  · rcases Nat.lt_trichotomy p.type_debounce WEDO_PORT_TYPE_DEBOUNCE with hc | hc | hc
    · rw [port_update_count env p h hc]
      exact ⟨hp.2.2.2.1, hp.2.2.2.2.1, hp.2.2.2.2.2.1, hp.2.2.2.2.2.2.1, hp.2.2.2.2.2.2.2⟩
    · obtain ⟨_, _, _, a4, a5, a6, a7, a8⟩ := port_update_commit_fields env p h hc
      exact ⟨a5, a6, a7, a8, a4⟩
    · rw [port_update_idle env p h hc]
      exact ⟨hp.2.2.2.1, hp.2.2.2.2.1, hp.2.2.2.2.2.1, hp.2.2.2.2.2.2.1, hp.2.2.2.2.2.2.2⟩
  · rw [port_update_reset env p h]
    exact ⟨hp.2.2.2.1, hp.2.2.2.2.1, hp.2.2.2.2.2.1, hp.2.2.2.2.2.2.1, hp.2.2.2.2.2.2.2⟩

theorem in_port_update_fields (env : reg_env) (input id : Nat) (p : wedo_port_device) :
    (in_port_update env input id p).1.input = input ∧
    (in_port_update env input id p).1.id = id ∧
    (in_port_update env input id p).1.command = p.command ∧
    (in_port_update env input id p).1.polarity = p.polarity ∧
    (in_port_update env input id p).1.duty_cycle = p.duty_cycle := by
  unfold in_port_update
  simp only []
  split
  · exact port_update_fields env { p with input := input, id := id }
  · exact ⟨rfl, rfl, rfl, rfl, rfl⟩

theorem byte_bits (b : Nat) (hb : b < 256) :
    decide (b &&& 0x80 ≠ 0) = b.testBit 7 ∧ decide (b &&& 0x40 ≠ 0) = b.testBit 6 ∧
    decide (b &&& 0x01 ≠ 0) = b.testBit 0 := by
  have h : ∀ c, c < 256 →
      decide (c &&& 0x80 ≠ 0) = c.testBit 7 ∧ decide (c &&& 0x40 ≠ 0) = c.testBit 6 ∧
      decide (c &&& 0x01 ≠ 0) = c.testBit 0 := by
    set_option maxRecDepth 100000 in decide
  exact h b hb

theorem in_byte_lt (urb : in_urb) (i : Nat) : in_byte urb i < 256 :=
  Nat.mod_lt _ (by decide)

/-- C6: after a read that completed with status 0 and length exactly 8, error is bit 7,
high_power bit 6 and echo bit 0 of byte 0, the voltage is byte 1, and the raw input and
raw id are bytes 2 and 3 for port 1 and bytes 4 and 5 for port 2. After a completed read
of any other length (5 bytes, say) the hub device, with its from-device fields and
every field of both ports, is as before, and no device-class call was made. -/
theorem wedo_in_callback_decode (urb : in_urb) (env1 env2 : reg_env) (dev : usb_wedo) :
    (urb.status = 0 → urb.actual_length = 8 →
      (wedo_in_callback urb env1 env2 dev).1.whd.from_hub_status.error = (in_byte urb 0).testBit 7 ∧
      (wedo_in_callback urb env1 env2 dev).1.whd.from_hub_status.high_power =
        (in_byte urb 0).testBit 6 ∧
      (wedo_in_callback urb env1 env2 dev).1.whd.from_hub_status.echo_bit =
        (in_byte urb 0).testBit 0 ∧
      (wedo_in_callback urb env1 env2 dev).1.whd.from_hub_voltage = in_byte urb 1 ∧
      (wedo_in_callback urb env1 env2 dev).1.whd.wpd1.input = in_byte urb 2 ∧
      (wedo_in_callback urb env1 env2 dev).1.whd.wpd1.id = in_byte urb 3 ∧
      (wedo_in_callback urb env1 env2 dev).1.whd.wpd2.input = in_byte urb 4 ∧
      (wedo_in_callback urb env1 env2 dev).1.whd.wpd2.id = in_byte urb 5) ∧
    (urb.actual_length ≠ 8 →
      (wedo_in_callback urb env1 env2 dev).1.whd = dev.whd ∧
      (wedo_in_callback urb env1 env2 dev).2.calls1 = [] ∧
      (wedo_in_callback urb env1 env2 dev).2.calls2 = []) := by
  constructor
  · intro hs hl
    have hb := byte_bits (in_byte urb 0) (in_byte_lt urb 0)
    have h1 := in_port_update_fields env1 (in_byte urb 2) (in_byte urb 3) dev.whd.wpd1
    have h2 := in_port_update_fields env2 (in_byte urb 4) (in_byte urb 5) dev.whd.wpd2
    unfold wedo_in_callback in_report
    simp only [hs, hl, ne_eq, not_true_eq_false, if_false, if_true, in_decode]
    split <;> simp only [hb.1, hb.2.1, hb.2.2, h1.1, h1.2.1, h2.1, h2.2.1, and_self]
  · intro hl
    unfold wedo_in_callback in_report
    split
    · exact ⟨rfl, rfl, rfl⟩
    · simp only [hl, if_false]
      split <;> exact ⟨rfl, rfl, rfl⟩

/-- Witness for C6: the sample report decoded into the initial device state. -/
theorem wedo_in_callback_decode_witness :
    sample_urb.status = 0 ∧ sample_urb.actual_length = 8 ∧
    (wedo_in_callback sample_urb env_ok env_ok dev_init).1.whd.from_hub_voltage = 90 ∧
    (wedo_in_callback sample_urb env_ok env_ok dev_init).1.whd.wpd2.id = 240 :=
  ⟨by decide, by decide,
    ((wedo_in_callback_decode sample_urb env_ok env_ok dev_init).1 (by decide) (by decide)).2.2.2.1,
    ((wedo_in_callback_decode sample_urb env_ok env_ok dev_init).1 (by decide)
      (by decide)).2.2.2.2.2.2.2⟩

/-! ### The duty-cycle invariant -/

theorem get_set_wpd_same (dev : usb_wedo) (p : wedo_port) (w : wedo_port_device) :
    get_wpd (set_wpd dev p w) p = w := by
  cases p <;> rfl

theorem get_set_wpd_other (dev : usb_wedo) (p q : wedo_port) (w : wedo_port_device)
    (h : q ≠ p) : get_wpd (set_wpd dev p w) q = get_wpd dev q := by
  cases p <;> cases q <;> first | rfl | exact absurd rfl h

theorem get_wpd_update_output (dev : usb_wedo) (q : wedo_port) :
    get_wpd (wedo_update_output dev) q = get_wpd dev q := by
  unfold wedo_update_output wedo_ctrl_event
  split <;> cases q <;> rfl

theorem port_analog_update_motor (wpd : wedo_port_device) (wmd : wedo_motor_data)
    (h : (port_analog_update wpd).drvdata = some (.motor wmd)) :
    wpd.drvdata = some (.motor wmd) := by
  unfold port_analog_update at h
  split at h
  · split at h
    · split at h
      · simp at h
      · exact h
    · exact h
  · exact h

/-- A motor binding found after `wedo_port_update_status` was there before, or is fresh. -/
theorem port_update_motor (env : reg_env) (p : wedo_port_device) (wmd : wedo_motor_data)
    (h : (wedo_port_update_status env p).1.drvdata = some (.motor wmd)) :
    p.drvdata = some (.motor wmd) ∨ wmd = new_motor_data := by
  by_cases hc : port_type_scan p.id = p.temp_type_id ∧ p.type_debounce = WEDO_PORT_TYPE_DEBOUNCE
  · rw [port_update_commit env p hc.1 hc.2] at h
    simp only at h
    rcases register_wedo_device_frame env (unregister_wedo_device (port_analog_update p)).1
      (port_type_scan p.id) with hr | ⟨_, d, hr, hd⟩
    · rw [hr] at h
      simp only at h
      rcases unregister_wedo_device_frame (port_analog_update p) with hu | hu
      · rw [hu] at h
        exact Or.inl (port_analog_update_motor p wmd h)
      · rw [hu] at h
        simp at h
    · rw [hr] at h
      simp only [Option.some.injEq] at h
      rcases hd with ⟨t, hd⟩ | hd
      · rw [hd] at h; simp at h
      · rw [hd] at h
        simp only [drv_data.motor.injEq] at h
        exact Or.inr h.symm
  · rw [(port_update_binding env p hc).1] at h
    exact Or.inl (port_analog_update_motor p wmd h)

theorem in_port_update_duty_inv (env : reg_env) (input id : Nat) (p : wedo_port_device)
    (h : duty_inv p) : duty_inv (in_port_update env input id p).1 := by
  obtain ⟨h1, h2, h3⟩ := h
  have hf := in_port_update_fields env input id p
  refine ⟨by rw [hf.2.2.2.2]; exact h1, by rw [hf.2.2.2.2]; exact h2, ?_⟩
  intro wmd hw
  rw [hf.2.2.2.2]
  unfold in_port_update at hw
  simp only at hw
  split at hw
  · rename_i h0
    rcases port_update_motor env _ wmd hw with hm | hm
    · exact h3 wmd hm
    · rw [hm, ← h0]; rfl
  · exact h3 wmd hw

theorem dev_inv_of_ports (dev : usb_wedo) (h1 : duty_inv dev.whd.wpd1)
    (h2 : duty_inv dev.whd.wpd2) : dev_inv dev := by
  intro p; cases p <;> assumption

theorem in_callback_failed (urb : in_urb) (env1 env2 : reg_env) (dev : usb_wedo)
    (hs : urb.status ≠ 0) :
    wedo_in_callback urb env1 env2 dev = (dev, ⟨none, [], []⟩) := by
  unfold wedo_in_callback
  rw [if_pos hs]

theorem in_callback_quiet (urb : in_urb) (env1 env2 : reg_env) (dev : usb_wedo)
    (hs : urb.status = 0) (hq : ¬ (dev.update_output = true ∧ ¬ dev.output_pending = true)) :
    wedo_in_callback urb env1 env2 dev =
      ({ dev with whd := (in_report urb env1 env2 dev.whd).1 },
        ⟨none, (in_report urb env1 env2 dev.whd).2.1, (in_report urb env1 env2 dev.whd).2.2⟩) := by
  unfold wedo_in_callback
  rw [if_neg (not_not.mpr hs)]
  simp only []
  rw [if_neg hq]

theorem in_callback_submit (urb : in_urb) (env1 env2 : reg_env) (dev : usb_wedo)
    (hs : urb.status = 0) (hu : dev.update_output = true) (hp : dev.output_pending = false) :
    wedo_in_callback urb env1 env2 dev =
      ({ dev with
          whd := (in_report urb env1 env2 dev.whd).1,
          ctl_buf := build_ctl_buf (in_report urb env1 env2 dev.whd).1,
          update_output := false, output_pending := true },
        ⟨some (build_ctl_buf (in_report urb env1 env2 dev.whd).1),
          (in_report urb env1 env2 dev.whd).2.1, (in_report urb env1 env2 dev.whd).2.2⟩) := by
  unfold wedo_in_callback
  rw [if_neg (not_not.mpr hs)]
  simp only []
  rw [if_pos ⟨hu, by rw [hp]; decide⟩]

/-- The hub device after `wedo_in_callback`: decoded when the read completed with
status 0 and 8 bytes, untouched otherwise. -/
theorem in_callback_whd (urb : in_urb) (env1 env2 : reg_env) (dev : usb_wedo) :
    (wedo_in_callback urb env1 env2 dev).1.whd =
      if urb.status = 0 ∧ urb.actual_length = 8 then (in_decode urb env1 env2 dev.whd).1
      else dev.whd := by
  by_cases hs : urb.status = 0
  · have hw : (wedo_in_callback urb env1 env2 dev).1.whd = (in_report urb env1 env2 dev.whd).1 := by
      by_cases hq : dev.update_output = true ∧ ¬ dev.output_pending = true
      · rw [in_callback_submit urb env1 env2 dev hs hq.1 (by simpa using hq.2)]
      · rw [in_callback_quiet urb env1 env2 dev hs hq]
    rw [hw]
    unfold in_report
    by_cases hl : urb.actual_length = 8
    · simp only [hs, hl, and_self, if_true]
    · simp only [hs, hl, and_false, if_false]
  · rw [in_callback_failed urb env1 env2 dev hs]
    simp only [hs, false_and, if_false]

theorem in_callback_dev_inv (urb : in_urb) (env1 env2 : reg_env) (dev : usb_wedo)
    (h : dev_inv dev) : dev_inv (wedo_in_callback urb env1 env2 dev).1 := by
  have h1 : duty_inv dev.whd.wpd1 := h .WEDO_PORT_1
  have h2 : duty_inv dev.whd.wpd2 := h .WEDO_PORT_2
  have i1 := in_port_update_duty_inv env1 (in_byte urb 2) (in_byte urb 3) dev.whd.wpd1 h1
  have i2 := in_port_update_duty_inv env2 (in_byte urb 4) (in_byte urb 5) dev.whd.wpd2 h2
  have hw := in_callback_whd urb env1 env2 dev
  apply dev_inv_of_ports
  · rw [hw]
    split
    · exact i1
    · exact h1
  · rw [hw]
    split
    · exact i2
    · exact h2

theorem update_output_dev_inv (dev : usb_wedo) (h : dev_inv dev) :
    dev_inv (wedo_update_output dev) := by
  intro p; rw [get_wpd_update_output]; exact h p

theorem set_wpd_dev_inv (dev : usb_wedo) (p : wedo_port) (w : wedo_port_device)
    (h : dev_inv dev) (hw : duty_inv w) : dev_inv (set_wpd dev p w) := by
  intro q
  by_cases hq : q = p
  · rw [hq, get_set_wpd_same]; exact hw
  · rw [get_set_wpd_other dev p q w hq]; exact h q

theorem motor_of_some (dev : usb_wedo) (p : wedo_port) (wmd : wedo_motor_data)
    (h : motor_of dev p = some wmd) : (get_wpd dev p).drvdata = some (.motor wmd) := by
  unfold motor_of at h
  split at h
  · rename_i w hw
    simp only [Option.some.injEq] at h
    rw [hw, h]
  · simp at h

theorem set_command_dev_inv (p : wedo_port) (command : Nat) (dev : usb_wedo)
    (h : dev_inv dev) : dev_inv (apply_op dev (wedo_set_command p command dev)) := by
  unfold wedo_set_command
  split
  · exact h
  · rename_i wmd hm
    have hd := motor_of_some dev p wmd hm
    obtain ⟨a1, a2, a3⟩ := h p
    split
    · exact h
    · simp only [apply_op]
      apply update_output_dev_inv
      apply set_wpd_dev_inv _ _ _ h
      split
      · refine ⟨a1, a2, ?_⟩
        intro w hw
        simp only [Option.some.injEq, drv_data.motor.injEq] at hw
        rw [← hw]
        exact a3 wmd hd
      · refine ⟨a1, a2, ?_⟩
        intro w hw
        simp only [Option.some.injEq, drv_data.motor.injEq] at hw
        rw [← hw]
        exact a3 wmd hd

theorem set_polarity_dev_inv (p : wedo_port) (polarity : Nat) (dev : usb_wedo)
    (h : dev_inv dev) : dev_inv (apply_op dev (wedo_set_polarity p polarity dev)) := by
  unfold wedo_set_polarity
  split
  · exact h
  · rename_i wmd hm
    have hd := motor_of_some dev p wmd hm
    obtain ⟨a1, a2, a3⟩ := h p
    split
    · exact h
    · simp only [apply_op]
      apply update_output_dev_inv
      apply set_wpd_dev_inv _ _ _ h
      split
      · refine ⟨a1, a2, ?_⟩
        intro w hw
        simp only [Option.some.injEq, drv_data.motor.injEq] at hw
        rw [← hw]
        exact a3 wmd hd
      · refine ⟨a1, a2, ?_⟩
        intro w hw
        simp only [Option.some.injEq, drv_data.motor.injEq] at hw
        rw [← hw]
        exact a3 wmd hd

theorem set_duty_cycle_dev_inv (p : wedo_port) (duty_cycle : Int) (dev : usb_wedo)
    (h : dev_inv dev) : dev_inv (apply_op dev (wedo_set_duty_cycle p duty_cycle dev)) := by
  unfold wedo_set_duty_cycle
  split
  · exact h
  · rename_i wmd hm
    split
    · exact h
    · rename_i hr
      split
      · exact h
      · simp only [apply_op]
        apply update_output_dev_inv
        apply set_wpd_dev_inv _ _ _ h
        refine ⟨by simp only []; omega, by simp only []; omega, ?_⟩
        intro w hw
        simp only [Option.some.injEq, drv_data.motor.injEq] at hw
        rw [← hw]

theorem set_mode_dev_inv (p : wedo_port) (mode : Nat) (dev : usb_wedo)
    (h : dev_inv dev) : dev_inv (apply_op dev (port_set_mode p mode dev)) := by
  unfold port_set_mode
  split
  · simp only [apply_op]
    obtain ⟨a1, a2, _⟩ := h p
    apply set_wpd_dev_inv _ _ _ h
    refine ⟨a1, a2, ?_⟩
    intro w hw
    simp at hw
  · exact h

theorem flag_store_ports (store : Bool → to_hub_status → to_hub_status) (value : Option Int)
    (count : Int) (whd : wedo_hub_device) :
    (flag_store store value count whd).2.wpd1 = whd.wpd1 ∧
    (flag_store store value count whd).2.wpd2 = whd.wpd2 := by
  unfold flag_store
  split
  · exact ⟨rfl, rfl⟩
  · split <;> exact ⟨rfl, rfl⟩

theorem flag_store_dev_inv (store : Bool → to_hub_status → to_hub_status) (value : Option Int)
    (count : Int) (dev : usb_wedo) (h : dev_inv dev) :
    dev_inv { dev with whd := (flag_store store value count dev.whd).2 } := by
  have hp := flag_store_ports store value count dev.whd
  apply dev_inv_of_ports
  · simp only [hp.1]; exact h .WEDO_PORT_1
  · simp only [hp.2]; exact h .WEDO_PORT_2

theorem step_dev_inv (e : event) (dev : usb_wedo) (h : dev_inv dev) :
    dev_inv (step e dev).1 := by
  cases e with
  | read_complete urb env1 env2 => exact in_callback_dev_inv urb env1 env2 dev h
  | write_complete status =>
    simp only [step, wedo_ctrl_callback]
    split
    · exact h
    · exact dev_inv_of_ports _ (h .WEDO_PORT_1) (h .WEDO_PORT_2)
  | set_command p command => exact set_command_dev_inv p command dev h
  | set_polarity p polarity => exact set_polarity_dev_inv p polarity dev h
  | set_duty_cycle p duty_cycle => exact set_duty_cycle_dev_inv p duty_cycle dev h
  | set_mode p mode => exact set_mode_dev_inv p mode dev h
  | clear_error_store value => exact flag_store_dev_inv _ value 1 dev h
  | high_power_store value => exact flag_store_dev_inv _ value 1 dev h
  | shut_down_store value => exact flag_store_dev_inv _ value 1 dev h
  | reset_store value => exact flag_store_dev_inv _ value 1 dev h
  | halt => exact dev_inv_of_ports _ (h .WEDO_PORT_1) (h .WEDO_PORT_2)

theorem dev_init_inv : dev_inv dev_init := by
  apply dev_inv_of_ports
  · refine ⟨by decide, by decide, ?_⟩
    intro w hw; simp [dev_init, wpd_init] at hw
  · refine ⟨by decide, by decide, ?_⟩
    intro w hw; simp [dev_init, wpd_init] at hw

theorem reachable_dev_inv (dev : usb_wedo) (h : reachable dev) : dev_inv dev := by
  induction h with
  | init => exact dev_init_inv
  | next e dev _ ih => exact step_dev_inv e dev ih

theorem reachable_run (evs : List event) :
    ∀ dev : usb_wedo, reachable dev → reachable (run dev evs).1 := by
  induction evs with
  | nil => intro dev h; exact h
  | cons e es ih =>
    intro dev h
    simp only [run]
    exact ih _ (reachable.next e dev h)

/-! ### The duty-cycle bound (C4) and setting the current value (C7) -/

theorem motor_of_set_wpd (dev : usb_wedo) (p : wedo_port) (w : wedo_port_device)
    (wmd : wedo_motor_data) (h : w.drvdata = some (.motor wmd)) :
    motor_of (wedo_update_output (set_wpd dev p w)) p = some wmd := by
  unfold motor_of
  rw [get_wpd_update_output, get_set_wpd_same, h]

/-- C4: on a port with a motor bound, `wedo_set_duty_cycle` returns `-EINVAL` for every
duty cycle above 100 or below -100 and leaves the whole device state as it was (motor
binding, port fields, dirty flag); for every duty cycle in [-100,100] it returns 0 and
afterwards the binding and the port both hold that duty cycle; so it succeeds exactly
when the duty cycle is in [-100,100]. In every state reachable from the zero-initialised
device the duty cycle of each port, and of a motor bound to it, is in [-100,100]. -/
theorem wedo_set_duty_cycle_bound (p : wedo_port) (dev : usb_wedo) (d : Int) :
    (∀ wmd, motor_of dev p = some wmd → (d > 100 ∨ d < -100) →
      wedo_set_duty_cycle p d dev = some (-EINVAL, dev)) ∧
    (∀ wmd, motor_of dev p = some wmd → reachable dev → -100 ≤ d → d ≤ 100 →
      ∃ dev2 wmd2, wedo_set_duty_cycle p d dev = some (0, dev2) ∧
        motor_of dev2 p = some wmd2 ∧ wmd2.duty_cycle = d ∧ (get_wpd dev2 p).duty_cycle = d) ∧
    (∀ wmd, motor_of dev p = some wmd → ∀ r dev2, wedo_set_duty_cycle p d dev = some (r, dev2) →
      (r = 0 ↔ (-100 ≤ d ∧ d ≤ 100))) ∧
    (reachable dev → ∀ q,
      -100 ≤ (get_wpd dev q).duty_cycle ∧ (get_wpd dev q).duty_cycle ≤ 100 ∧
      ∀ w, motor_of dev q = some w →
        w.duty_cycle = (get_wpd dev q).duty_cycle ∧ -100 ≤ w.duty_cycle ∧ w.duty_cycle ≤ 100) := by
  refine ⟨?_, ?_, ?_, ?_⟩
  · intro wmd hm hd
    unfold wedo_set_duty_cycle
    simp only [hm, hd, if_true]
  · intro wmd hm hreach hlo hhi
    have hinv := reachable_dev_inv dev hreach p
    have hdrv := motor_of_some dev p wmd hm
    have hco : wmd.duty_cycle = (get_wpd dev p).duty_cycle := hinv.2.2 wmd hdrv
    have hr : ¬ (d > 100 ∨ d < -100) := by omega
    unfold wedo_set_duty_cycle
    simp only [hm, hr, if_false]
    by_cases he : wmd.duty_cycle = d
    · simp only [he, if_true]
      exact ⟨dev, wmd, rfl, hm, he, by rw [← hco, he]⟩
    · simp only [he, if_false]
      refine ⟨_, { wmd with duty_cycle := d }, rfl, ?_, rfl, ?_⟩
      · exact motor_of_set_wpd dev p _ _ rfl
      · rw [get_wpd_update_output, get_set_wpd_same]
  · intro wmd hm r dev2 hres
    unfold wedo_set_duty_cycle at hres
    simp only [hm] at hres
    by_cases hr : d > 100 ∨ d < -100
    · simp only [hr, if_true, Option.some.injEq, Prod.mk.injEq] at hres
      constructor
      · intro h0; rw [h0] at hres; exact absurd hres.1 (by decide)
      · intro h; omega
    · simp only [hr, if_false] at hres
      constructor
      · intro _; omega
      · intro _
        split at hres
        · simp only [Option.some.injEq, Prod.mk.injEq] at hres; exact hres.1.symm
        · simp only [Option.some.injEq, Prod.mk.injEq] at hres; exact hres.1.symm
  · intro hreach q
    have hinv := reachable_dev_inv dev hreach q
    refine ⟨hinv.1, hinv.2.1, ?_⟩
    intro w hw
    have hco := hinv.2.2 w (motor_of_some dev q w hw)
    exact ⟨hco, by rw [hco]; exact hinv.1, by rw [hco]; exact hinv.2.1⟩

set_option maxRecDepth 100000 in
/-- Witness for C4: with a motor bound to port 1 after 102 motor reports, a duty cycle of
101 is refused and the state kept. -/
theorem wedo_set_duty_cycle_bound_witness :
    motor_of dev_motor .WEDO_PORT_1 = some new_motor_data ∧
    ((101 : Int) > 100 ∨ (101 : Int) < -100) ∧
    wedo_set_duty_cycle .WEDO_PORT_1 101 dev_motor = some (-EINVAL, dev_motor) :=
  ⟨by decide, Or.inl (by decide),
    (wedo_set_duty_cycle_bound .WEDO_PORT_1 dev_motor 101).1 new_motor_data (by decide)
      (Or.inl (by decide))⟩

/-- C7: on a port with a motor bound, setting the command, the polarity or the duty cycle
to the value the binding holds returns 0 and gives back the very same device state: the
binding, the port's command, polarity and duty cycle and the dirty flag are unchanged,
and no frame is submitted. For the duty cycle this needs the held value to be in
[-100,100], as it is in every reachable state. -/
theorem motor_set_current_value_noop (p : wedo_port) (dev : usb_wedo) (wmd : wedo_motor_data)
    (hm : motor_of dev p = some wmd) :
    wedo_set_command p wmd.command dev = some (0, dev) ∧
    wedo_set_polarity p wmd.polarity dev = some (0, dev) ∧
    (-100 ≤ wmd.duty_cycle → wmd.duty_cycle ≤ 100 →
      wedo_set_duty_cycle p wmd.duty_cycle dev = some (0, dev)) ∧
    (reachable dev → wedo_set_duty_cycle p wmd.duty_cycle dev = some (0, dev)) ∧
    step (.set_command p wmd.command) dev = (dev, []) ∧
    step (.set_polarity p wmd.polarity) dev = (dev, []) ∧
    (reachable dev → step (.set_duty_cycle p wmd.duty_cycle) dev = (dev, [])) := by
  have hc : wedo_set_command p wmd.command dev = some (0, dev) := by
    unfold wedo_set_command; simp only [hm, if_true]
  have hp : wedo_set_polarity p wmd.polarity dev = some (0, dev) := by
    unfold wedo_set_polarity; simp only [hm, if_true]
  have hd : -100 ≤ wmd.duty_cycle → wmd.duty_cycle ≤ 100 →
      wedo_set_duty_cycle p wmd.duty_cycle dev = some (0, dev) := by
    intro hlo hhi
    have hr : ¬ (wmd.duty_cycle > 100 ∨ wmd.duty_cycle < -100) := by omega
    unfold wedo_set_duty_cycle; simp only [hm, hr, if_false, if_true]
  have hrd : reachable dev → wedo_set_duty_cycle p wmd.duty_cycle dev = some (0, dev) := by
    intro hreach
    have hinv := reachable_dev_inv dev hreach p
    have hco := hinv.2.2 wmd (motor_of_some dev p wmd hm)
    exact hd (by rw [hco]; exact hinv.1) (by rw [hco]; exact hinv.2.1)
  refine ⟨hc, hp, hd, hrd, ?_, ?_, ?_⟩
  · simp only [step, hc, apply_op]
  · simp only [step, hp, apply_op]
  · intro hreach; simp only [step, hrd hreach, apply_op]

set_option maxRecDepth 100000 in
/-- Witness for C7: the motor bound to port 1 after 102 motor reports. -/
theorem motor_set_current_value_noop_witness :
    motor_of dev_motor .WEDO_PORT_1 = some new_motor_data ∧
    wedo_set_command .WEDO_PORT_1 new_motor_data.command dev_motor = some (0, dev_motor) :=
  ⟨by decide, (motor_set_current_value_noop .WEDO_PORT_1 dev_motor new_motor_data (by decide)).1⟩

/-! ### The output scheduler (C5) -/

theorem update_output_flags (dev : usb_wedo) :
    (wedo_update_output dev).output_pending = dev.output_pending ∧
    (wedo_update_output dev).io_halt = dev.io_halt ∧
    (wedo_update_output dev).whd = dev.whd ∧
    (dev.update_output = true → (wedo_update_output dev).update_output = true) ∧
    (dev.io_halt = false → (wedo_update_output dev).update_output = true) := by
  unfold wedo_update_output wedo_ctrl_event
  split
  · exact ⟨rfl, rfl, rfl, fun _ => rfl, fun _ => rfl⟩
  · rename_i h
    refine ⟨rfl, rfl, rfl, fun h1 => h1, fun h2 => ?_⟩
    rw [h2] at h; simp at h

theorem set_wpd_flags (dev : usb_wedo) (p : wedo_port) (w : wedo_port_device) :
    (set_wpd dev p w).output_pending = dev.output_pending ∧
    (set_wpd dev p w).io_halt = dev.io_halt ∧
    (set_wpd dev p w).update_output = dev.update_output ∧
    (set_wpd dev p w).whd.to_hub_status = dev.whd.to_hub_status := by
  cases p <;> exact ⟨rfl, rfl, rfl, rfl⟩

/-- A motor operation submits nothing and either leaves the state as it is or stores a
port and calls `wedo_update_output`. -/
theorem motor_event_shape (e : event) (dev : usb_wedo) (he : is_motor_event e = true) :
    (step e dev).2 = [] ∧
    ((step e dev).1 = dev ∨ ∃ p w, (step e dev).1 = wedo_update_output (set_wpd dev p w)) := by
  cases e with
  | set_command p command =>
    refine ⟨rfl, ?_⟩
    simp only [step]
    unfold wedo_set_command
    split
    · exact Or.inl rfl
    · split
      · exact Or.inl rfl
      · exact Or.inr ⟨p, _, rfl⟩
  | set_polarity p polarity =>
    refine ⟨rfl, ?_⟩
    simp only [step]
    unfold wedo_set_polarity
    split
    · exact Or.inl rfl
    · split
      · exact Or.inl rfl
      · exact Or.inr ⟨p, _, rfl⟩
  | set_duty_cycle p duty_cycle =>
    refine ⟨rfl, ?_⟩
    simp only [step]
    unfold wedo_set_duty_cycle
    split
    · exact Or.inl rfl
    · split
      · exact Or.inl rfl
      · split
        · exact Or.inl rfl
        · exact Or.inr ⟨p, _, rfl⟩
  | read_complete urb env1 env2 => simp [is_motor_event] at he
  | write_complete status => simp [is_motor_event] at he
  | set_mode p mode => simp [is_motor_event] at he
  | clear_error_store value => simp [is_motor_event] at he
  | high_power_store value => simp [is_motor_event] at he
  | shut_down_store value => simp [is_motor_event] at he
  | reset_store value => simp [is_motor_event] at he
  | halt => simp [is_motor_event] at he

/-- A motor operation submits nothing, keeps `output_pending`, `io_halt` and the hub
flags, never clears the dirty flag, and raises it when it changes a motor binding on a
hub that is not halted. -/
theorem motor_event_flags (e : event) (dev : usb_wedo) (he : is_motor_event e = true) :
    (step e dev).2 = [] ∧
    (step e dev).1.output_pending = dev.output_pending ∧
    (step e dev).1.io_halt = dev.io_halt ∧
    (dev.update_output = true → (step e dev).1.update_output = true) ∧
    (changes_motor e dev → dev.io_halt = false → (step e dev).1.update_output = true) := by
  obtain ⟨h1, h2⟩ := motor_event_shape e dev he
  rcases h2 with h2 | ⟨p, w, h2⟩
  · rw [h2]
    refine ⟨h1, rfl, rfl, fun h => h, fun hc => ?_⟩
    obtain ⟨_, q, hq⟩ := hc
    rw [h2] at hq
    exact absurd rfl hq
  · have hu := update_output_flags (set_wpd dev p w)
    have hs := set_wpd_flags dev p w
    rw [h2]
    exact ⟨h1, hu.1.trans hs.1, hu.2.1.trans hs.2.1, fun h => hu.2.2.2.1 (hs.2.2.1.trans h),
      fun _ h => hu.2.2.2.2 (hs.2.1.trans h)⟩

/-- While a write is pending a read completion submits nothing and keeps the three
scheduler flags. -/
theorem read_event_pending (e : event) (dev : usb_wedo) (he : is_read_event e = true)
    (hp : dev.output_pending = true) :
    (step e dev).2 = [] ∧
    (step e dev).1.output_pending = dev.output_pending ∧
    (step e dev).1.io_halt = dev.io_halt ∧
    (step e dev).1.update_output = dev.update_output := by
  cases e with
  | read_complete urb env1 env2 =>
    show (wedo_in_callback urb env1 env2 dev).2.ctl_submitted.toList = [] ∧
      (wedo_in_callback urb env1 env2 dev).1.output_pending = dev.output_pending ∧
      (wedo_in_callback urb env1 env2 dev).1.io_halt = dev.io_halt ∧
      (wedo_in_callback urb env1 env2 dev).1.update_output = dev.update_output
    by_cases hs : urb.status = 0
    · rw [in_callback_quiet urb env1 env2 dev hs (by rw [hp]; simp)]
      exact ⟨rfl, rfl, rfl, rfl⟩
    · rw [in_callback_failed urb env1 env2 dev hs]
      exact ⟨rfl, rfl, rfl, rfl⟩
  | write_complete status => simp [is_read_event] at he
  | set_command p command => simp [is_read_event] at he
  | set_polarity p polarity => simp [is_read_event] at he
  | set_duty_cycle p duty_cycle => simp [is_read_event] at he
  | set_mode p mode => simp [is_read_event] at he
  | clear_error_store value => simp [is_read_event] at he
  | high_power_store value => simp [is_read_event] at he
  | shut_down_store value => simp [is_read_event] at he
  | reset_store value => simp [is_read_event] at he
  | halt => simp [is_read_event] at he

/-- A read completion with a nonzero status changes nothing and submits nothing. -/
theorem failed_read_event (e : event) (dev : usb_wedo) (he : is_failed_read e = true) :
    step e dev = (dev, []) := by
  cases e with
  | read_complete urb env1 env2 =>
    simp only [is_failed_read, decide_eq_true_eq] at he
    show ((wedo_in_callback urb env1 env2 dev).1,
      (wedo_in_callback urb env1 env2 dev).2.ctl_submitted.toList) = (dev, [])
    rw [in_callback_failed urb env1 env2 dev he]
    rfl
  | write_complete status => simp [is_failed_read] at he
  | set_command p command => simp [is_failed_read] at he
  | set_polarity p polarity => simp [is_failed_read] at he
  | set_duty_cycle p duty_cycle => simp [is_failed_read] at he
  | set_mode p mode => simp [is_failed_read] at he
  | clear_error_store value => simp [is_failed_read] at he
  | high_power_store value => simp [is_failed_read] at he
  | shut_down_store value => simp [is_failed_read] at he
  | reset_store value => simp [is_failed_read] at he
  | halt => simp [is_failed_read] at he

theorem run_append (es fs : List event) :
    ∀ dev : usb_wedo, run dev (es ++ fs) =
      ((run (run dev es).1 fs).1, (run dev es).2 ++ (run (run dev es).1 fs).2) := by
  induction es with
  | nil => intro dev; simp [run]
  | cons e es ih => intro dev; simp [run, ih]

/-- Motor operations and read completions while a write is pending: nothing is
submitted, the write stays pending, and a raised dirty flag stays raised. -/
theorem run_pending (evs : List event) :
    ∀ dev : usb_wedo, (∀ e ∈ evs, is_motor_event e = true ∨ is_read_event e = true) →
      dev.output_pending = true →
      (run dev evs).2 = [] ∧ (run dev evs).1.output_pending = true ∧
      (run dev evs).1.io_halt = dev.io_halt ∧
      (dev.update_output = true → (run dev evs).1.update_output = true) := by
  induction evs with
  | nil => intro dev _ hp; exact ⟨rfl, hp, rfl, fun h => h⟩
  | cons e es ih =>
    intro dev hev hp
    have hes : ∀ x ∈ es, is_motor_event x = true ∨ is_read_event x = true :=
      fun x hx => hev x (List.mem_cons_of_mem _ hx)
    simp only [run]
    rcases hev e (List.mem_cons_self _ _) with he | he
    · obtain ⟨a1, a2, a3, a4, _⟩ := motor_event_flags e dev he
      obtain ⟨b1, b2, b3, b4⟩ := ih (step e dev).1 hes (by rw [a2]; exact hp)
      exact ⟨by rw [a1, b1]; rfl, b2, by rw [b3, a3], fun h => b4 (a4 h)⟩
    · obtain ⟨a1, a2, a3, a4⟩ := read_event_pending e dev he hp
      obtain ⟨b1, b2, b3, b4⟩ := ih (step e dev).1 hes (by rw [a2]; exact hp)
      exact ⟨by rw [a1, b1]; rfl, b2, by rw [b3, a3], fun h => b4 (by rw [a4]; exact h)⟩

theorem run_failed_reads (evs : List event) :
    ∀ dev : usb_wedo, (∀ e ∈ evs, is_failed_read e = true) → run dev evs = (dev, []) := by
  induction evs with
  | nil => intro dev _; rfl
  | cons e es ih =>
    intro dev hev
    simp only [run, failed_read_event e dev (hev e (List.mem_cons_self _ _)),
      ih dev (fun x hx => hev x (List.mem_cons_of_mem _ hx))]
    rfl

theorem output_value_congr (w v : wedo_port_device) (hc : w.command = v.command)
    (hp : w.polarity = v.polarity) (hd : w.duty_cycle = v.duty_cycle) :
    wedo_update_output_value w = wedo_update_output_value v := by
  unfold wedo_update_output_value
  rw [hc, hp, hd]

theorem build_ctl_buf_length (whd : wedo_hub_device) : (build_ctl_buf whd).length = 8 := by
  unfold build_ctl_buf
  rfl

/-- The decode of a report does not change what the next frame is built from. -/
theorem in_report_frame (urb : in_urb) (env1 env2 : reg_env) (whd : wedo_hub_device) :
    build_ctl_buf (in_report urb env1 env2 whd).1 = build_ctl_buf whd := by
  unfold in_report
  split
  · have h1 := in_port_update_fields env1 (in_byte urb 2) (in_byte urb 3) whd.wpd1
    have h2 := in_port_update_fields env2 (in_byte urb 4) (in_byte urb 5) whd.wpd2
    unfold build_ctl_buf in_decode
    simp only []
    rw [output_value_congr _ whd.wpd1 h1.2.2.1 h1.2.2.2.1 h1.2.2.2.2,
      output_value_congr _ whd.wpd2 h2.2.2.1 h2.2.2.2.1 h2.2.2.2.2]
  · rfl

/-- With the dirty flag clear, read completions and successful write completions submit
nothing and leave the flag clear. -/
theorem run_clean (evs : List event) :
    ∀ dev : usb_wedo, (∀ e ∈ evs, is_completion_ok e = true) → dev.update_output = false →
      (run dev evs).2 = [] ∧ (run dev evs).1.update_output = false := by
  induction evs with
  | nil => intro dev _ hu; exact ⟨rfl, hu⟩
  | cons e es ih =>
    intro dev hev hu
    have hes : ∀ x ∈ es, is_completion_ok x = true :=
      fun x hx => hev x (List.mem_cons_of_mem _ hx)
    have he := hev e (List.mem_cons_self _ _)
    have hstep : (step e dev).2 = [] ∧ (step e dev).1.update_output = false := by
      cases e with
      | read_complete urb env1 env2 =>
        show (wedo_in_callback urb env1 env2 dev).2.ctl_submitted.toList = [] ∧
          (wedo_in_callback urb env1 env2 dev).1.update_output = false
        by_cases hs : urb.status = 0
        · rw [in_callback_quiet urb env1 env2 dev hs (by rw [hu]; simp)]
          exact ⟨rfl, hu⟩
        · rw [in_callback_failed urb env1 env2 dev hs]
          exact ⟨rfl, hu⟩
      | write_complete status =>
        simp only [is_completion_ok, decide_eq_true_eq] at he
        show (wedo_ctrl_callback status dev).2.toList = [] ∧
          (wedo_ctrl_callback status dev).1.update_output = false
        unfold wedo_ctrl_callback
        rw [if_neg (not_not.mpr he)]
        exact ⟨rfl, hu⟩
      | set_command p command => simp [is_completion_ok] at he
      | set_polarity p polarity => simp [is_completion_ok] at he
      | set_duty_cycle p duty_cycle => simp [is_completion_ok] at he
      | set_mode p mode => simp [is_completion_ok] at he
      | clear_error_store value => simp [is_completion_ok] at he
      | high_power_store value => simp [is_completion_ok] at he
      | shut_down_store value => simp [is_completion_ok] at he
      | reset_store value => simp [is_completion_ok] at he
      | halt => simp [is_completion_ok] at he
    obtain ⟨b1, b2⟩ := ih (step e dev).1 hes hstep.2
    simp only [run]
    exact ⟨by rw [hstep.1, b1]; rfl, b2⟩

/-- Counterexample to C5 as stated: a write is in flight, a duty cycle of 50 is set on the
motor of port 1, the write completes with status 0, and the next read completion has a
nonzero status: no frame is submitted at that read completion. -/
theorem write_not_submitted_at_failed_read :
    dev_pending.output_pending = true ∧ dev_pending.io_halt = false ∧
    motor_of (step (.set_duty_cycle .WEDO_PORT_1 50) dev_pending).1 .WEDO_PORT_1 ≠
      motor_of dev_pending .WEDO_PORT_1 ∧
    (step (.set_duty_cycle .WEDO_PORT_1 50) dev_pending).2 = [] ∧
    (step (.read_complete failed_urb env_ok env_ok)
      (wedo_ctrl_callback 0 (step (.set_duty_cycle .WEDO_PORT_1 50) dev_pending).1).1).2 = [] := by
  set_option maxRecDepth 100000 in decide

/-- C5 (amended): a write is in flight and the hub is not halted; motor operations, at
least one of which changes a motor binding, are issued, possibly interleaved with read
completions. No frame is submitted during them. After the write completes with status
0, read completions with a nonzero status submit nothing and change nothing; the next
read completion with status 0 submits exactly one frame, of 8 bytes, which is the
encoding of the state after all the operations; later read completions, also after
that write has completed with status 0, submit nothing. -/
theorem output_coalescing (dev : usb_wedo) (pre post : List event) (m : event)
    (fails : List event) (urb : in_urb) (env1 env2 : reg_env) (later : List event)
    (hp : dev.output_pending = true) (hh : dev.io_halt = false)
    (hpre : ∀ e ∈ pre, is_motor_event e = true ∨ is_read_event e = true)
    (hpost : ∀ e ∈ post, is_motor_event e = true ∨ is_read_event e = true)
    (hm : changes_motor m (run dev pre).1)
    (hfails : ∀ e ∈ fails, is_failed_read e = true) (hurb : urb.status = 0)
    (hlater : ∀ e ∈ later, is_completion_ok e = true) :
    (run dev (pre ++ m :: post)).2 = [] ∧
    (wedo_ctrl_callback 0 (run dev (pre ++ m :: post)).1).2 = none ∧
    run (wedo_ctrl_callback 0 (run dev (pre ++ m :: post)).1).1 fails =
      ((wedo_ctrl_callback 0 (run dev (pre ++ m :: post)).1).1, []) ∧
    (step (.read_complete urb env1 env2)
        (wedo_ctrl_callback 0 (run dev (pre ++ m :: post)).1).1).2 =
      [build_ctl_buf (run dev (pre ++ m :: post)).1.whd] ∧
    (build_ctl_buf (run dev (pre ++ m :: post)).1.whd).length = 8 ∧
    (run (step (.read_complete urb env1 env2)
        (wedo_ctrl_callback 0 (run dev (pre ++ m :: post)).1).1).1 later).2 = [] := by
  obtain ⟨a1, a2, a3, _⟩ := run_pending pre dev hpre hp
  obtain ⟨b1, b2, b3, _, b5⟩ := motor_event_flags m (run dev pre).1 hm.1
  have hdirty : (step m (run dev pre).1).1.update_output = true := b5 hm (by rw [a3]; exact hh)
  obtain ⟨c1, c2, c3, c4⟩ := run_pending post (step m (run dev pre).1).1 hpost (by rw [b2]; exact a2)
  have hrun : run dev (pre ++ m :: post) =
      ((run (step m (run dev pre).1).1 post).1, []) := by
    rw [run_append]
    simp only [run, a1, b1, c1, List.append_nil]
  have hd1u : (run dev (pre ++ m :: post)).1.update_output = true := by rw [hrun]; exact c4 hdirty
  have hcb : wedo_ctrl_callback 0 (run dev (pre ++ m :: post)).1 =
      ({ (run dev (pre ++ m :: post)).1 with output_pending := false }, none) := by
    unfold wedo_ctrl_callback
    simp only [ne_eq, not_true_eq_false, if_false]
  have hsub := in_callback_submit urb env1 env2
    { (run dev (pre ++ m :: post)).1 with output_pending := false } hurb hd1u rfl
  refine ⟨by rw [hrun], by rw [hcb], run_failed_reads fails _ hfails, ?_,
    build_ctl_buf_length _, ?_⟩
  · rw [hcb]
    show (wedo_in_callback urb env1 env2 _).2.ctl_submitted.toList = _
    rw [hsub]
    simp only [Option.toList, in_report_frame]
  · rw [hcb]
    have hst : (step (.read_complete urb env1 env2)
        { (run dev (pre ++ m :: post)).1 with output_pending := false }).1.update_output = false := by
      show (wedo_in_callback urb env1 env2 _).1.update_output = false
      rw [hsub]
    exact (run_clean later _ hlater hst).1

set_option maxRecDepth 100000 in
/-- Witness for C5 (amended): with a write in flight a duty cycle of 50 is set on the
motor of port 1 and a report is read; the write completes, a read fails, and the next
read with status 0 submits the one frame with byte 1 = 77. -/
theorem output_coalescing_witness :
    dev_pending.output_pending = true ∧ dev_pending.io_halt = false ∧
    changes_motor (.set_duty_cycle .WEDO_PORT_1 50) (run dev_pending []).1 ∧
    motor_urb.status = 0 ∧
    (step (.read_complete motor_urb env_ok env_ok)
        (wedo_ctrl_callback 0 (run dev_pending
          ([] ++ .set_duty_cycle .WEDO_PORT_1 50 ::
            [.read_complete sample_urb env_ok env_ok])).1).1).2 =
      [[0x20, 77, 0, 0, 0, 0, 0, 0]] :=
  ⟨by decide, by decide, ⟨rfl, .WEDO_PORT_1, by decide⟩, by decide,
    (output_coalescing dev_pending [] [.read_complete sample_urb env_ok env_ok]
      (.set_duty_cycle .WEDO_PORT_1 50) [.read_complete failed_urb env_ok env_ok]
      motor_urb env_ok env_ok [.write_complete 0, .read_complete motor_urb env_ok env_ok]
      (by decide) (by decide) (fun e he => absurd he (List.not_mem_nil e))
      (fun e he => by rw [List.mem_singleton.mp he]; exact Or.inr rfl)
      ⟨rfl, .WEDO_PORT_1, by decide⟩
      (fun e he => by rw [List.mem_singleton.mp he]; rfl) (by decide)
      (fun e he => by
        rcases List.mem_cons.mp he with h | h
        · rw [h]; rfl
        · rw [List.mem_singleton.mp h]; rfl)).2.2.2.1.trans (by decide)⟩

/-! ### The output frame (C12) -/

theorem build_ctl_buf_bytes (whd : wedo_hub_device) :
    build_ctl_buf whd =
      [ctl_byte0 whd.to_hub_status, wedo_update_output_value whd.wpd1,
        wedo_update_output_value whd.wpd2, 0, 0, 0, 0, 0] := by
  obtain ⟨fs, fv, ⟨a, b, c, d, e⟩, w1, w2⟩ := whd
  cases a <;> cases b <;> cases c <;> cases d <;> cases e <;>
    simp [build_ctl_buf, ctl_byte0]

theorem ctl_byte0_bits (st : to_hub_status) :
    ((ctl_byte0 st).testBit 6 = true ↔ (ctl_byte0 st).testBit 5 = false) ∧
    ((ctl_byte0 st).testBit 6 = st.high_power) ∧
    (ctl_byte0 st).testBit 1 = false ∧ (ctl_byte0 st).testBit 2 = false ∧
    (ctl_byte0 st).testBit 7 = st.clear_error ∧ (ctl_byte0 st).testBit 4 = st.shut_down ∧
    (ctl_byte0 st).testBit 3 = st.reset ∧ (ctl_byte0 st).testBit 0 = st.echo_bit ∧
    ctl_byte0 st < 256 := by
  obtain ⟨a, b, c, d, e⟩ := st
  cases a <;> cases b <;> cases c <;> cases d <;> cases e <;> decide

/-- The frame a read completion submits is built from the hub device it was given. -/
theorem in_callback_frame (urb : in_urb) (env1 env2 : reg_env) (dev : usb_wedo)
    (frame : List Nat)
    (h : (wedo_in_callback urb env1 env2 dev).2.ctl_submitted = some frame) :
    urb.status = 0 ∧ dev.update_output = true ∧ dev.output_pending = false ∧
    frame = build_ctl_buf dev.whd ∧
    (wedo_in_callback urb env1 env2 dev).1.update_output = false ∧
    (wedo_in_callback urb env1 env2 dev).1.output_pending = true ∧
    (wedo_in_callback urb env1 env2 dev).1.ctl_buf = frame ∧
    (wedo_in_callback urb env1 env2 dev).1.io_halt = dev.io_halt := by
  by_cases hs : urb.status = 0
  · by_cases hq : dev.update_output = true ∧ ¬ dev.output_pending = true
    · have hp : dev.output_pending = false := by simpa using hq.2
      rw [in_callback_submit urb env1 env2 dev hs hq.1 hp] at h ⊢
      simp only [Option.some.injEq, in_report_frame] at h
      exact ⟨hs, hq.1, hp, h.symm, rfl, rfl, by simp only [in_report_frame, h], rfl⟩
    · rw [in_callback_quiet urb env1 env2 dev hs hq] at h
      simp at h
  · rw [in_callback_failed urb env1 env2 dev hs] at h
    simp at h

/-- C12: the frame `wedo_in_callback` submits has exactly 8 bytes: byte 0 is
(clear_error ? 0x80 : 0) | (high_power ? 0x40 : 0x20) | (shut_down ? 0x10 : 0) |
(reset ? 0x08 : 0) | (echo_out ? 0x01 : 0), bytes 1 and 2 are the motor encoder outputs
of port 1 and port 2, bytes 3 to 7 are 0. So exactly one of bit 6 and bit 5 of byte 0 is
set, and bits 1 and 2 are clear. The same holds of the frame built from any hub state. -/
theorem ctl_frame_encoding (urb : in_urb) (env1 env2 : reg_env) (dev : usb_wedo)
    (frame : List Nat)
    (h : (wedo_in_callback urb env1 env2 dev).2.ctl_submitted = some frame) :
    frame.length = 8 ∧
    frame =
      [(if dev.whd.to_hub_status.clear_error then 0x80 else 0) |||
        (if dev.whd.to_hub_status.high_power then 0x40 else 0x20) |||
        (if dev.whd.to_hub_status.shut_down then 0x10 else 0) |||
        (if dev.whd.to_hub_status.reset then 0x08 else 0) |||
        (if dev.whd.to_hub_status.echo_bit then 0x01 else 0),
       wedo_update_output_value dev.whd.wpd1, wedo_update_output_value dev.whd.wpd2,
       0, 0, 0, 0, 0] ∧
    (wedo_in_callback urb env1 env2 dev).1.whd.to_hub_status = dev.whd.to_hub_status ∧
    wedo_update_output_value (wedo_in_callback urb env1 env2 dev).1.whd.wpd1 =
      wedo_update_output_value dev.whd.wpd1 ∧
    wedo_update_output_value (wedo_in_callback urb env1 env2 dev).1.whd.wpd2 =
      wedo_update_output_value dev.whd.wpd2 ∧
    ((frame.getD 0 0).testBit 6 = true ↔ (frame.getD 0 0).testBit 5 = false) ∧
    (frame.getD 0 0).testBit 1 = false ∧ (frame.getD 0 0).testBit 2 = false ∧
    (∀ whd : wedo_hub_device,
      (build_ctl_buf whd).length = 8 ∧
      build_ctl_buf whd =
        [ctl_byte0 whd.to_hub_status, wedo_update_output_value whd.wpd1,
          wedo_update_output_value whd.wpd2, 0, 0, 0, 0, 0] ∧
      ((ctl_byte0 whd.to_hub_status).testBit 6 = true ↔
        (ctl_byte0 whd.to_hub_status).testBit 5 = false) ∧
      (ctl_byte0 whd.to_hub_status).testBit 1 = false ∧
      (ctl_byte0 whd.to_hub_status).testBit 2 = false) := by
  obtain ⟨hs, hu, hp, hf, _⟩ := in_callback_frame urb env1 env2 dev frame h
  have hb := ctl_byte0_bits dev.whd.to_hub_status
  have hbytes := build_ctl_buf_bytes dev.whd
  have hpost : build_ctl_buf (wedo_in_callback urb env1 env2 dev).1.whd = build_ctl_buf dev.whd := by
    rw [in_callback_submit urb env1 env2 dev hs hu hp]
    exact in_report_frame urb env1 env2 dev.whd
  rw [build_ctl_buf_bytes, build_ctl_buf_bytes] at hpost
  simp only [List.cons.injEq, and_true] at hpost
  have hst : (wedo_in_callback urb env1 env2 dev).1.whd.to_hub_status = dev.whd.to_hub_status := by
    rw [in_callback_submit urb env1 env2 dev hs hu hp]
    simp only [in_report]
    split
    · rfl
    · rfl
  refine ⟨by rw [hf]; exact build_ctl_buf_length _, by rw [hf, hbytes]; rfl, hst, hpost.2.1,
    hpost.2.2, ?_, ?_, ?_, ?_⟩
  · rw [hf, hbytes]; exact hb.1
  · rw [hf, hbytes]; exact hb.2.2.1
  · rw [hf, hbytes]; exact hb.2.2.2.1
  · intro whd
    have hw := ctl_byte0_bits whd.to_hub_status
    exact ⟨build_ctl_buf_length _, build_ctl_buf_bytes whd, hw.1, hw.2.2.1, hw.2.2.2.1⟩

set_option maxRecDepth 100000 in
/-- Witness for C12: with a duty cycle of 50 set on the motor of port 1 and no hub flag
set, the read completion submits the frame 0x20, 77, 0, 0, 0, 0, 0, 0. -/
theorem ctl_frame_encoding_witness :
    (wedo_in_callback motor_urb env_ok env_ok dev_dirty).2.ctl_submitted =
      some [0x20, 77, 0, 0, 0, 0, 0, 0] ∧
    ([0x20, 77, 0, 0, 0, 0, 0, 0] : List Nat).length = 8 :=
  ⟨by decide,
    (ctl_frame_encoding motor_urb env_ok env_ok dev_dirty [0x20, 77, 0, 0, 0, 0, 0, 0]
      (by decide)).1⟩

/-! ### Driven ports (C18) -/

theorem in_callback_ports (urb : in_urb) (env1 env2 : reg_env) (dev : usb_wedo)
    (hs : urb.status = 0) (hl : urb.actual_length = 8) :
    (wedo_in_callback urb env1 env2 dev).1.whd.wpd1 =
      (in_port_update env1 (in_byte urb 2) (in_byte urb 3) dev.whd.wpd1).1 ∧
    (wedo_in_callback urb env1 env2 dev).1.whd.wpd2 =
      (in_port_update env2 (in_byte urb 4) (in_byte urb 5) dev.whd.wpd2).1 ∧
    (wedo_in_callback urb env1 env2 dev).2.calls1 =
      (in_port_update env1 (in_byte urb 2) (in_byte urb 3) dev.whd.wpd1).2 ∧
    (wedo_in_callback urb env1 env2 dev).2.calls2 =
      (in_port_update env2 (in_byte urb 4) (in_byte urb 5) dev.whd.wpd2).2 := by
  have hr : in_report urb env1 env2 dev.whd = in_decode urb env1 env2 dev.whd := by
    unfold in_report; rw [if_pos hl]
  by_cases hq : dev.update_output = true ∧ ¬ dev.output_pending = true
  · rw [in_callback_submit urb env1 env2 dev hs hq.1 (by simpa using hq.2), hr]
    exact ⟨rfl, rfl, rfl, rfl⟩
  · rw [in_callback_quiet urb env1 env2 dev hs hq, hr]
    exact ⟨rfl, rfl, rfl, rfl⟩

/-- C18: while a report of 8 bytes received with status 0 is processed, a port whose
duty cycle is not 0 only takes the two report bytes: its candidate type, debounce count,
classified type and binding (and every other field) stay as they are and no device-class
call is made; a port whose duty cycle is 0 takes the two bytes and then goes through
`wedo_port_update_status` exactly once. -/
theorem driven_port_skips_classifier (urb : in_urb) (env1 env2 : reg_env) (dev : usb_wedo)
    (hs : urb.status = 0) (hl : urb.actual_length = 8) :
    (dev.whd.wpd1.duty_cycle ≠ 0 →
      (wedo_in_callback urb env1 env2 dev).1.whd.wpd1 =
        { dev.whd.wpd1 with input := in_byte urb 2, id := in_byte urb 3 } ∧
      (wedo_in_callback urb env1 env2 dev).1.whd.wpd1.temp_type_id = dev.whd.wpd1.temp_type_id ∧
      (wedo_in_callback urb env1 env2 dev).1.whd.wpd1.type_debounce = dev.whd.wpd1.type_debounce ∧
      (wedo_in_callback urb env1 env2 dev).1.whd.wpd1.type_id = dev.whd.wpd1.type_id ∧
      (wedo_in_callback urb env1 env2 dev).1.whd.wpd1.drvdata = dev.whd.wpd1.drvdata ∧
      (wedo_in_callback urb env1 env2 dev).2.calls1 = []) ∧
    (dev.whd.wpd2.duty_cycle ≠ 0 →
      (wedo_in_callback urb env1 env2 dev).1.whd.wpd2 =
        { dev.whd.wpd2 with input := in_byte urb 4, id := in_byte urb 5 } ∧
      (wedo_in_callback urb env1 env2 dev).1.whd.wpd2.temp_type_id = dev.whd.wpd2.temp_type_id ∧
      (wedo_in_callback urb env1 env2 dev).1.whd.wpd2.type_debounce = dev.whd.wpd2.type_debounce ∧
      (wedo_in_callback urb env1 env2 dev).1.whd.wpd2.type_id = dev.whd.wpd2.type_id ∧
      (wedo_in_callback urb env1 env2 dev).1.whd.wpd2.drvdata = dev.whd.wpd2.drvdata ∧
      (wedo_in_callback urb env1 env2 dev).2.calls2 = []) ∧
    (dev.whd.wpd1.duty_cycle = 0 →
      (wedo_in_callback urb env1 env2 dev).1.whd.wpd1 =
        (wedo_port_update_status env1
          { dev.whd.wpd1 with input := in_byte urb 2, id := in_byte urb 3 }).1 ∧
      (wedo_in_callback urb env1 env2 dev).2.calls1 =
        (wedo_port_update_status env1
          { dev.whd.wpd1 with input := in_byte urb 2, id := in_byte urb 3 }).2) ∧
    (dev.whd.wpd2.duty_cycle = 0 →
      (wedo_in_callback urb env1 env2 dev).1.whd.wpd2 =
        (wedo_port_update_status env2
          { dev.whd.wpd2 with input := in_byte urb 4, id := in_byte urb 5 }).1 ∧
      (wedo_in_callback urb env1 env2 dev).2.calls2 =
        (wedo_port_update_status env2
          { dev.whd.wpd2 with input := in_byte urb 4, id := in_byte urb 5 }).2) := by
  obtain ⟨h1, h2, h3, h4⟩ := in_callback_ports urb env1 env2 dev hs hl
  refine ⟨?_, ?_, ?_, ?_⟩
  · intro hd
    have hi : in_port_update env1 (in_byte urb 2) (in_byte urb 3) dev.whd.wpd1 =
        ({ dev.whd.wpd1 with input := in_byte urb 2, id := in_byte urb 3 }, []) := by
      unfold in_port_update
      simp only []
      rw [if_neg (fun h => hd h.symm)]
    rw [h1, h3, hi]
    exact ⟨rfl, rfl, rfl, rfl, rfl, rfl⟩
  · intro hd
    have hi : in_port_update env2 (in_byte urb 4) (in_byte urb 5) dev.whd.wpd2 =
        ({ dev.whd.wpd2 with input := in_byte urb 4, id := in_byte urb 5 }, []) := by
      unfold in_port_update
      simp only []
      rw [if_neg (fun h => hd h.symm)]
    rw [h2, h4, hi]
    exact ⟨rfl, rfl, rfl, rfl, rfl, rfl⟩
  · intro hd
    have hi : in_port_update env1 (in_byte urb 2) (in_byte urb 3) dev.whd.wpd1 =
        wedo_port_update_status env1
          { dev.whd.wpd1 with input := in_byte urb 2, id := in_byte urb 3 } := by
      unfold in_port_update
      simp only []
      rw [if_pos hd.symm]
    rw [h1, h3, hi]
    exact ⟨rfl, rfl⟩
  · intro hd
    have hi : in_port_update env2 (in_byte urb 4) (in_byte urb 5) dev.whd.wpd2 =
        wedo_port_update_status env2
          { dev.whd.wpd2 with input := in_byte urb 4, id := in_byte urb 5 } := by
      unfold in_port_update
      simp only []
      rw [if_pos hd.symm]
    rw [h2, h4, hi]
    exact ⟨rfl, rfl⟩

set_option maxRecDepth 100000 in
/-- Witness for C18: port 1 is driven at duty cycle 50 while a report with raw id 35 (a
tilt sensor) arrives; it stays of type motor. -/
theorem driven_port_skips_classifier_witness :
    sample_urb.status = 0 ∧ sample_urb.actual_length = 8 ∧
    dev_dirty.whd.wpd1.duty_cycle ≠ 0 ∧
    (wedo_in_callback sample_urb env_ok env_ok dev_dirty).1.whd.wpd1.type_id =
      dev_dirty.whd.wpd1.type_id :=
  ⟨by decide, by decide, by decide,
    ((driven_port_skips_classifier sample_urb env_ok env_ok dev_dirty (by decide)
      (by decide)).1 (by decide)).2.2.2.1⟩

/-! ### The low bits of the motor byte (C19) -/

/-- Counterexample to C19 as stated: run, normal polarity, duty cycle -1 gives the byte
228 (0xE4), whose low 7 bits are 100 and not the power level 28; duty cycle -100 gives
129 (0x81), whose low 7 bits are 1 and not 127. Forward drive gives 28 and 127. -/
theorem output_value_low_bits_reversed :
    wedo_update_output_value
      (motor_port WEDO_MOTOR_COMMAND_RUN WEDO_MOTOR_POLARITY_NORMAL (-1)) = 228 ∧
    wedo_update_output_value
      (motor_port WEDO_MOTOR_COMMAND_RUN WEDO_MOTOR_POLARITY_NORMAL (-1)) % 128 = 100 ∧
    wedo_update_output_value
      (motor_port WEDO_MOTOR_COMMAND_RUN WEDO_MOTOR_POLARITY_NORMAL (-1)) % 128 ≠ 28 ∧
    wedo_update_output_value
      (motor_port WEDO_MOTOR_COMMAND_RUN WEDO_MOTOR_POLARITY_NORMAL (-100)) = 129 ∧
    wedo_update_output_value
      (motor_port WEDO_MOTOR_COMMAND_RUN WEDO_MOTOR_POLARITY_NORMAL (-100)) % 128 = 1 ∧
    wedo_update_output_value
      (motor_port WEDO_MOTOR_COMMAND_RUN WEDO_MOTOR_POLARITY_INVERTED 1) % 128 = 100 ∧
    wedo_update_output_value
      (motor_port WEDO_MOTOR_COMMAND_RUN WEDO_MOTOR_POLARITY_NORMAL 1) = 28 ∧
    wedo_update_output_value
      (motor_port WEDO_MOTOR_COMMAND_RUN WEDO_MOTOR_POLARITY_NORMAL 100) = 127 := by
  decide

/-- The byte of a running motor with a nonzero duty cycle is the signed value the code
assigns to `output`, taken modulo 256 by the cast to `unsigned char`. -/
theorem output_value_run (wpd : wedo_port_device)
    (hcmd : wpd.command = WEDO_MOTOR_COMMAND_RUN) (hnz : wpd.duty_cycle ≠ 0) :
    (wedo_update_output_value wpd : Int) =
      (if 0 < wpd.duty_cycle then
          (if WEDO_MOTOR_POLARITY_NORMAL = wpd.polarity then wpd.duty_cycle + 27
            else -wpd.duty_cycle - 27)
        else
          (if WEDO_MOTOR_POLARITY_NORMAL = wpd.polarity then wpd.duty_cycle - 27
            else -wpd.duty_cycle + 27)) % 256 := by
  have c1 : ¬ (WEDO_MOTOR_COMMAND_RUN = WEDO_MOTOR_COMMAND_COAST) := by decide
  have c2 : ¬ (WEDO_MOTOR_COMMAND_RUN = WEDO_MOTOR_COMMAND_BRAKE) := by decide
  have hz : ¬ (0 = wpd.duty_cycle) := fun h => hnz h.symm
  unfold wedo_update_output_value to_uchar
  simp only [hcmd, c1, c2, hz, if_false, if_true, eq_self_iff_true]
  exact Int.toNat_of_nonneg (Int.emod_nonneg _ (by decide))

/-- C19 (amended): the motor output byte is a signed two's-complement value. For command
run and a nonzero duty cycle in [-100,100], in both polarities, the power level is
|duty_cycle|+27, between 28 and 127. With forward drive the byte is the power level
itself: the high bit is clear and the low 7 bits hold the power level. With reversed
drive (negative duty cycle with normal polarity, positive with inverted) the byte is
256 minus the power level, the two's complement of the power level (as a signed byte,
minus the power level): it is above 128, its low 7 bits hold 128 minus the power level,
which is the power level only for |duty_cycle| = 37. The high bit is set exactly when
the drive is reversed. -/
theorem output_value_twos_complement (wpd : wedo_port_device)
    (hcmd : wpd.command = WEDO_MOTOR_COMMAND_RUN) (hnz : wpd.duty_cycle ≠ 0)
    (hlo : -100 ≤ wpd.duty_cycle) (hhi : wpd.duty_cycle ≤ 100)
    (hpol : wpd.polarity = WEDO_MOTOR_POLARITY_NORMAL ∨
      wpd.polarity = WEDO_MOTOR_POLARITY_INVERTED) :
    (28 ≤ wpd.duty_cycle.natAbs + 27 ∧ wpd.duty_cycle.natAbs + 27 ≤ 127) ∧
    (¬ drive_reversed wpd →
      wedo_update_output_value wpd = wpd.duty_cycle.natAbs + 27 ∧
      wedo_update_output_value wpd < 128 ∧
      wedo_update_output_value wpd % 128 = wpd.duty_cycle.natAbs + 27 ∧
      s8_of_byte (wedo_update_output_value wpd) = (wpd.duty_cycle.natAbs : Int) + 27) ∧
    (drive_reversed wpd →
      wedo_update_output_value wpd = 256 - (wpd.duty_cycle.natAbs + 27) ∧
      128 < wedo_update_output_value wpd ∧
      wedo_update_output_value wpd % 128 = 128 - (wpd.duty_cycle.natAbs + 27) ∧
      (wedo_update_output_value wpd % 128 = wpd.duty_cycle.natAbs + 27 ↔
        wpd.duty_cycle.natAbs = 37) ∧
      s8_of_byte (wedo_update_output_value wpd) = -((wpd.duty_cycle.natAbs : Int) + 27)) ∧
    (128 ≤ wedo_update_output_value wpd ↔ drive_reversed wpd) := by
  have hv := output_value_run wpd hcmd hnz
  have hni : ¬ (WEDO_MOTOR_POLARITY_NORMAL = WEDO_MOTOR_POLARITY_INVERTED) := by decide
  have hni2 : ¬ (WEDO_MOTOR_POLARITY_INVERTED = WEDO_MOTOR_POLARITY_NORMAL) := by decide
  unfold drive_reversed s8_of_byte
  generalize wedo_update_output_value wpd = v at hv ⊢
  rcases hpol with hp | hp
  · rw [hp] at hv ⊢
    simp only [if_true, hni2, hni, and_false, or_false, and_true, eq_self_iff_true] at hv ⊢
    clear hni hni2
    by_cases hpos : 0 < wpd.duty_cycle
    · have hab : (wpd.duty_cycle.natAbs : Int) = wpd.duty_cycle :=
        Int.natAbs_of_nonneg (le_of_lt hpos)
      simp only [hpos, if_true] at hv
      generalize wpd.duty_cycle.natAbs = n at *
      split_ifs <;> omega
    · have hab : (wpd.duty_cycle.natAbs : Int) = -wpd.duty_cycle :=
        Int.ofNat_natAbs_of_nonpos (by omega)
      simp only [hpos, if_false] at hv
      generalize wpd.duty_cycle.natAbs = n at *
      split_ifs <;> omega
  · rw [hp] at hv ⊢
    simp only [hni, hni2, if_false, and_false, false_or, and_true, eq_self_iff_true] at hv ⊢
    clear hni hni2
    by_cases hpos : 0 < wpd.duty_cycle
    · have hab : (wpd.duty_cycle.natAbs : Int) = wpd.duty_cycle :=
        Int.natAbs_of_nonneg (le_of_lt hpos)
      simp only [hpos, if_true] at hv
      generalize wpd.duty_cycle.natAbs = n at *
      split_ifs <;> omega
    · have hab : (wpd.duty_cycle.natAbs : Int) = -wpd.duty_cycle :=
        Int.ofNat_natAbs_of_nonpos (by omega)
      simp only [hpos, if_false] at hv
      generalize wpd.duty_cycle.natAbs = n at *
      split_ifs <;> omega

/-- Witness for C19 (amended): run, normal polarity, duty cycle -60 is reversed drive
with power level 87; the byte is 169, its low 7 bits are 41. -/
theorem output_value_twos_complement_witness :
    (motor_port WEDO_MOTOR_COMMAND_RUN WEDO_MOTOR_POLARITY_NORMAL (-60)).command =
      WEDO_MOTOR_COMMAND_RUN ∧
    (motor_port WEDO_MOTOR_COMMAND_RUN WEDO_MOTOR_POLARITY_NORMAL (-60)).duty_cycle ≠ 0 ∧
    drive_reversed (motor_port WEDO_MOTOR_COMMAND_RUN WEDO_MOTOR_POLARITY_NORMAL (-60)) ∧
    wedo_update_output_value
      (motor_port WEDO_MOTOR_COMMAND_RUN WEDO_MOTOR_POLARITY_NORMAL (-60)) = 256 - (60 + 27) ∧
    wedo_update_output_value
      (motor_port WEDO_MOTOR_COMMAND_RUN WEDO_MOTOR_POLARITY_NORMAL (-60)) % 128 =
        128 - (60 + 27) :=
  ⟨rfl, by decide, Or.inl ⟨by decide, rfl⟩,
    ((output_value_twos_complement
      (motor_port WEDO_MOTOR_COMMAND_RUN WEDO_MOTOR_POLARITY_NORMAL (-60)) rfl (by decide)
      (by decide) (by decide) (Or.inl rfl)).2.2.1 (Or.inl ⟨by decide, rfl⟩)).1,
    ((output_value_twos_complement
      (motor_port WEDO_MOTOR_COMMAND_RUN WEDO_MOTOR_POLARITY_NORMAL (-60)) rfl (by decide)
      (by decide) (by decide) (Or.inl rfl)).2.2.1 (Or.inl ⟨by decide, rfl⟩)).2.2.1⟩

/-! ### Invalid enum values at the motor operations (C13) -/

set_option maxRecDepth 100000 in
/-- Evaluation for C13: on the motor of port 1, `wedo_set_command` with the value 7 and
`wedo_set_polarity` with the value 5 return 0, not `-EINVAL`; the value is stored in the
binding and the dirty flag, clear before, is raised; only the port's command and
polarity stay as they were. The sibling setters reject in the same state:
`wedo_set_duty_cycle` with 101 returns `-EINVAL` and leaves binding and dirty flag as
they are, and `wedo_sensor_set_mode` with mode 3 on a tilt sensor (which has 3 modes)
returns `-EINVAL` and keeps the mode. -/
theorem invalid_enum_not_rejected :
    motor_of dev_motor .WEDO_PORT_1 = some new_motor_data ∧
    7 ≠ DC_MOTOR_COMMAND_RUN ∧ 7 ≠ DC_MOTOR_COMMAND_COAST ∧ 7 ≠ DC_MOTOR_COMMAND_BRAKE ∧
    5 ≠ DC_MOTOR_POLARITY_NORMAL ∧ 5 ≠ DC_MOTOR_POLARITY_INVERTED ∧
    dev_motor.update_output = false ∧
    (wedo_set_command .WEDO_PORT_1 7 dev_motor).map (fun r => r.1) = some 0 ∧
    (apply_op dev_motor (wedo_set_command .WEDO_PORT_1 7 dev_motor)).update_output = true ∧
    motor_of (apply_op dev_motor (wedo_set_command .WEDO_PORT_1 7 dev_motor)) .WEDO_PORT_1 =
      some { new_motor_data with command := 7 } ∧
    (wedo_set_polarity .WEDO_PORT_1 5 dev_motor).map (fun r => r.1) = some 0 ∧
    (apply_op dev_motor (wedo_set_polarity .WEDO_PORT_1 5 dev_motor)).update_output = true ∧
    motor_of (apply_op dev_motor (wedo_set_polarity .WEDO_PORT_1 5 dev_motor)) .WEDO_PORT_1 =
      some { new_motor_data with polarity := 5 } ∧
    (get_wpd (apply_op dev_motor (wedo_set_command .WEDO_PORT_1 7 dev_motor))
      .WEDO_PORT_1).command = (get_wpd dev_motor .WEDO_PORT_1).command ∧
    (get_wpd (apply_op dev_motor (wedo_set_polarity .WEDO_PORT_1 5 dev_motor))
      .WEDO_PORT_1).polarity = (get_wpd dev_motor .WEDO_PORT_1).polarity ∧
    (wedo_set_duty_cycle .WEDO_PORT_1 101 dev_motor).map (fun r => r.1) = some (-EINVAL) ∧
    (apply_op dev_motor (wedo_set_duty_cycle .WEDO_PORT_1 101 dev_motor)).update_output =
      false ∧
    motor_of (apply_op dev_motor (wedo_set_duty_cycle .WEDO_PORT_1 101 dev_motor))
      .WEDO_PORT_1 = some new_motor_data ∧
    (new_sensor_data WEDO_TILT_SENSOR).info.num_modes = 3 ∧
    (wedo_sensor_set_mode (new_sensor_data WEDO_TILT_SENSOR) 3).1 = -EINVAL ∧
    (wedo_sensor_set_mode (new_sensor_data WEDO_TILT_SENSOR) 3).2.mode =
      (new_sensor_data WEDO_TILT_SENSOR).mode := by
  decide

theorem update_output_of_set_wpd (dev : usb_wedo) (p : wedo_port) (w : wedo_port_device) :
    (dev.io_halt = false → (wedo_update_output (set_wpd dev p w)).update_output = true) ∧
    (dev.io_halt = true →
      (wedo_update_output (set_wpd dev p w)).update_output = dev.update_output) ∧
    get_wpd (wedo_update_output (set_wpd dev p w)) p = w := by
  have hs := set_wpd_flags dev p w
  have hu := update_output_flags (set_wpd dev p w)
  refine ⟨fun h => hu.2.2.2.2 (hs.2.1.trans h), fun h => ?_, ?_⟩
  · unfold wedo_update_output wedo_ctrl_event
    rw [hs.2.1, h]
    exact hs.2.2.1
  · rw [get_wpd_update_output, get_set_wpd_same]

/-- What the enum setters do with a value out of range, in every state with a motor
bound: for a command outside run, coast, brake, `wedo_set_command` returns 0; if the
value is the one the binding holds nothing changes, otherwise it is stored in the
binding, the port's command, polarity and duty cycle stay as they are, and the dirty
flag is raised unless the hub is halted. `wedo_set_polarity` does the same for a
polarity outside normal, inverted. No such value is rejected. -/
theorem invalid_enum_accepted (p : wedo_port) (dev : usb_wedo) (wmd : wedo_motor_data)
    (hm : motor_of dev p = some wmd) :
    (∀ command, command ≠ DC_MOTOR_COMMAND_RUN → command ≠ DC_MOTOR_COMMAND_COAST →
      command ≠ DC_MOTOR_COMMAND_BRAKE →
      ∃ dev2, wedo_set_command p command dev = some (0, dev2) ∧
        (wmd.command = command → dev2 = dev) ∧
        (wmd.command ≠ command →
          motor_of dev2 p = some { wmd with command := command } ∧
          (get_wpd dev2 p).command = (get_wpd dev p).command ∧
          (get_wpd dev2 p).polarity = (get_wpd dev p).polarity ∧
          (get_wpd dev2 p).duty_cycle = (get_wpd dev p).duty_cycle ∧
          (dev.io_halt = false → dev2.update_output = true) ∧
          (dev.io_halt = true → dev2.update_output = dev.update_output))) ∧
    (∀ polarity, polarity ≠ DC_MOTOR_POLARITY_NORMAL → polarity ≠ DC_MOTOR_POLARITY_INVERTED →
      ∃ dev2, wedo_set_polarity p polarity dev = some (0, dev2) ∧
        (wmd.polarity = polarity → dev2 = dev) ∧
        (wmd.polarity ≠ polarity →
          motor_of dev2 p = some { wmd with polarity := polarity } ∧
          (get_wpd dev2 p).command = (get_wpd dev p).command ∧
          (get_wpd dev2 p).polarity = (get_wpd dev p).polarity ∧
          (get_wpd dev2 p).duty_cycle = (get_wpd dev p).duty_cycle ∧
          (dev.io_halt = false → dev2.update_output = true) ∧
          (dev.io_halt = true → dev2.update_output = dev.update_output))) := by
  constructor
  · intro command h1 h2 h3
    have hn : ¬ (NUM_DC_MOTOR_COMMANDS > command) := by
      simp only [DC_MOTOR_COMMAND_RUN, DC_MOTOR_COMMAND_COAST, DC_MOTOR_COMMAND_BRAKE,
        NUM_DC_MOTOR_COMMANDS] at *
      omega
    unfold wedo_set_command
    simp only [hm, hn, if_false]
    by_cases he : wmd.command = command
    · simp only [he, if_true]
      exact ⟨dev, rfl, fun _ => rfl, fun h => absurd rfl h⟩
    · simp only [he, if_false]
      have hu := update_output_of_set_wpd dev p
        { get_wpd dev p with drvdata := some (.motor { wmd with command := command }) }
      refine ⟨_, rfl, fun h => False.elim h, fun _ => ⟨?_, ?_, ?_, ?_, hu.1, hu.2.1⟩⟩
      · exact motor_of_set_wpd dev p _ _ rfl
      · rw [hu.2.2]
      · rw [hu.2.2]
      · rw [hu.2.2]
  · intro polarity h1 h2
    have hn : ¬ (NUM_DC_MOTOR_POLARITY > polarity) := by
      simp only [DC_MOTOR_POLARITY_NORMAL, DC_MOTOR_POLARITY_INVERTED,
        NUM_DC_MOTOR_POLARITY] at *
      omega
    unfold wedo_set_polarity
    simp only [hm, hn, if_false]
    by_cases he : wmd.polarity = polarity
    · simp only [he, if_true]
      exact ⟨dev, rfl, fun _ => rfl, fun h => absurd rfl h⟩
    · simp only [he, if_false]
      have hu := update_output_of_set_wpd dev p
        { get_wpd dev p with drvdata := some (.motor { wmd with polarity := polarity }) }
      refine ⟨_, rfl, fun h => False.elim h, fun _ => ⟨?_, ?_, ?_, ?_, hu.1, hu.2.1⟩⟩
      · exact motor_of_set_wpd dev p _ _ rfl
      · rw [hu.2.2]
      · rw [hu.2.2]
      · rw [hu.2.2]

set_option maxRecDepth 100000 in
/-- The command value 7 on the motor bound to port 1 is accepted. -/
theorem invalid_enum_accepted_witness :
    motor_of dev_motor .WEDO_PORT_1 = some new_motor_data ∧
    7 ≠ DC_MOTOR_COMMAND_RUN ∧ 7 ≠ DC_MOTOR_COMMAND_COAST ∧ 7 ≠ DC_MOTOR_COMMAND_BRAKE ∧
    ∃ dev2, wedo_set_command .WEDO_PORT_1 7 dev_motor = some (0, dev2) :=
  ⟨by decide, by decide, by decide, by decide,
    ((invalid_enum_accepted .WEDO_PORT_1 dev_motor new_motor_data (by decide)).1 7
      (by decide) (by decide) (by decide)).imp (fun _ h => h.1)⟩

/-! ### The hub attribute writes and the dirty flag (C14) -/

/-- Evaluation for C14: the four hub attribute writes store the flag and leave the dirty
flag as it is, in every state. From the state after the probe, which is not halted,
writing 1 to `reset` is accepted (the write returns its count), the reset flag is then
set, the dirty flag is still clear, and the next read completion submits no frame. -/
theorem hub_store_leaves_dirty_clear :
    (∀ (dev : usb_wedo) (value : Option Int),
      (step (.clear_error_store value) dev).1.update_output = dev.update_output ∧
      (step (.high_power_store value) dev).1.update_output = dev.update_output ∧
      (step (.shut_down_store value) dev).1.update_output = dev.update_output ∧
      (step (.reset_store value) dev).1.update_output = dev.update_output) ∧
    dev_init.io_halt = false ∧
    (reset_store (some 1) 1 dev_init.whd).1 = 1 ∧
    (step (.reset_store (some 1)) dev_init).1.whd.to_hub_status.reset = true ∧
    (step (.reset_store (some 1)) dev_init).1.update_output = false ∧
    (step (.read_complete motor_urb env_ok env_ok)
      (step (.reset_store (some 1)) dev_init).1).2 = [] ∧
    (step (.high_power_store (some 1)) dev_init).1.whd.to_hub_status.high_power = true ∧
    (step (.high_power_store (some 1)) dev_init).1.update_output = false := by
  refine ⟨fun dev value => ⟨rfl, rfl, rfl, rfl⟩, by decide, by decide, by decide, by decide,
    by decide, by decide, by decide⟩

/-! ### Halting (C15) -/

set_option maxRecDepth 100000 in
/-- Counterexample to C15 as stated: the dirty flag is raised (a duty cycle of 50 was set
on port 1), then the hub is halted; the next read completion, in the halted state,
submits a frame. -/
theorem write_submitted_after_halt :
    dev_dirty.update_output = true ∧
    (step .halt dev_dirty).1.io_halt = true ∧
    (step (.read_complete motor_urb env_ok env_ok) (step .halt dev_dirty).1).2 =
      [[0x20, 77, 0, 0, 0, 0, 0, 0]] := by
  decide

theorem update_output_halted (dev : usb_wedo) (h : dev.io_halt = true) :
    wedo_update_output dev = dev := by
  unfold wedo_update_output wedo_ctrl_event
  rw [h]
  rfl

/-- A mutator submits nothing and keeps `io_halt`; on a halted hub it leaves the dirty
flag as it is. -/
theorem mutator_halted (e : event) (dev : usb_wedo) (he : is_mutator e = true) :
    (step e dev).2 = [] ∧ (step e dev).1.io_halt = dev.io_halt ∧
    (step e dev).1.output_pending = dev.output_pending ∧
    (dev.io_halt = true → (step e dev).1.update_output = dev.update_output) := by
  have hmotor : ∀ e, is_motor_event e = true →
      (step e dev).2 = [] ∧ (step e dev).1.io_halt = dev.io_halt ∧
      (step e dev).1.output_pending = dev.output_pending ∧
      (dev.io_halt = true → (step e dev).1.update_output = dev.update_output) := by
    intro e hme
    obtain ⟨h1, h2, h3, _, _⟩ := motor_event_flags e dev hme
    refine ⟨h1, h3, h2, fun hh => ?_⟩
    rcases (motor_event_shape e dev hme).2 with h | ⟨p, w, h⟩
    · rw [h]
    · rw [h, update_output_halted _ ((set_wpd_flags dev p w).2.1.trans hh)]
      exact (set_wpd_flags dev p w).2.2.1
  cases e with
  | set_command p command => exact hmotor _ rfl
  | set_polarity p polarity => exact hmotor _ rfl
  | set_duty_cycle p duty_cycle => exact hmotor _ rfl
  | set_mode p mode =>
    have hshape : (step (.set_mode p mode) dev).1 = dev ∨
        ∃ w, (step (.set_mode p mode) dev).1 = set_wpd dev p w := by
      show apply_op dev (port_set_mode p mode dev) = dev ∨
        ∃ w, apply_op dev (port_set_mode p mode dev) = set_wpd dev p w
      unfold port_set_mode
      split
      · exact Or.inr ⟨_, rfl⟩
      · exact Or.inl rfl
    refine ⟨rfl, ?_, ?_, fun _ => ?_⟩
    · rcases hshape with h | ⟨w, h⟩
      · rw [h]
      · rw [h]; exact (set_wpd_flags dev p w).2.1
    · rcases hshape with h | ⟨w, h⟩
      · rw [h]
      · rw [h]; exact (set_wpd_flags dev p w).1
    · rcases hshape with h | ⟨w, h⟩
      · rw [h]
      · rw [h]; exact (set_wpd_flags dev p w).2.2.1
  | clear_error_store value => exact ⟨rfl, rfl, rfl, fun _ => rfl⟩
  | high_power_store value => exact ⟨rfl, rfl, rfl, fun _ => rfl⟩
  | shut_down_store value => exact ⟨rfl, rfl, rfl, fun _ => rfl⟩
  | reset_store value => exact ⟨rfl, rfl, rfl, fun _ => rfl⟩
  | read_complete urb env1 env2 => simp [is_mutator] at he
  | write_complete status => simp [is_mutator] at he
  | halt => simp [is_mutator] at he

/-- On a halted hub with the dirty flag clear, an event other than a failed write
completion submits nothing and leaves the hub halted and the flag clear. -/
theorem step_halted_clean (e : event) (dev : usb_wedo) (he : is_failed_write e = false)
    (hh : dev.io_halt = true) (hu : dev.update_output = false) :
    (step e dev).2 = [] ∧ (step e dev).1.io_halt = true ∧
    (step e dev).1.update_output = false := by
  by_cases hm : is_mutator e = true
  · obtain ⟨a1, a2, _, a4⟩ := mutator_halted e dev hm
    exact ⟨a1, a2.trans hh, (a4 hh).trans hu⟩
  · cases e with
    | read_complete urb env1 env2 =>
      show (wedo_in_callback urb env1 env2 dev).2.ctl_submitted.toList = [] ∧
        (wedo_in_callback urb env1 env2 dev).1.io_halt = true ∧
        (wedo_in_callback urb env1 env2 dev).1.update_output = false
      by_cases hs : urb.status = 0
      · rw [in_callback_quiet urb env1 env2 dev hs (by rw [hu]; simp)]
        exact ⟨rfl, hh, hu⟩
      · rw [in_callback_failed urb env1 env2 dev hs]
        exact ⟨rfl, hh, hu⟩
    | write_complete status =>
      simp only [is_failed_write, decide_eq_false_iff_not, not_not] at he
      show (wedo_ctrl_callback status dev).2.toList = [] ∧
        (wedo_ctrl_callback status dev).1.io_halt = true ∧
        (wedo_ctrl_callback status dev).1.update_output = false
      unfold wedo_ctrl_callback
      rw [if_neg (not_not.mpr he)]
      exact ⟨rfl, hh, hu⟩
    | halt => exact ⟨rfl, rfl, hu⟩
    | set_command p command => simp [is_mutator] at hm
    | set_polarity p polarity => simp [is_mutator] at hm
    | set_duty_cycle p duty_cycle => simp [is_mutator] at hm
    | set_mode p mode => simp [is_mutator] at hm
    | clear_error_store value => simp [is_mutator] at hm
    | high_power_store value => simp [is_mutator] at hm
    | shut_down_store value => simp [is_mutator] at hm
    | reset_store value => simp [is_mutator] at hm

theorem run_halted_clean (evs : List event) :
    ∀ dev : usb_wedo, (∀ e ∈ evs, is_failed_write e = false) → dev.io_halt = true →
      dev.update_output = false →
      (run dev evs).2 = [] ∧ (run dev evs).1.io_halt = true ∧
      (run dev evs).1.update_output = false := by
  induction evs with
  | nil => intro dev _ hh hu; exact ⟨rfl, hh, hu⟩
  | cons e es ih =>
    intro dev hev hh hu
    obtain ⟨a1, a2, a3⟩ := step_halted_clean e dev (hev e (List.mem_cons_self _ _)) hh hu
    obtain ⟨b1, b2, b3⟩ := ih (step e dev).1 (fun x hx => hev x (List.mem_cons_of_mem _ hx)) a2 a3
    simp only [run]
    exact ⟨by rw [a1, b1]; rfl, b2, b3⟩

/-- C15 (amended): on a halted hub every mutator leaves the dirty flag as it is. If the
flag is clear, no sequence of mutator calls, read completions and write completions with
status 0 submits a frame, and the flag stays clear. If the flag was raised before the
halt, the next read completion with status 0 and no write in flight still submits the
frame. -/
theorem halted_hub_submissions (dev : usb_wedo) (hh : dev.io_halt = true) :
    (∀ e, is_mutator e = true →
      (step e dev).1.update_output = dev.update_output ∧ (step e dev).2 = [] ∧
      (step e dev).1.io_halt = true) ∧
    (dev.update_output = false → ∀ evs : List event,
      (∀ e ∈ evs, is_mutator e = true ∨ is_completion_ok e = true) →
      (run dev evs).2 = [] ∧ (run dev evs).1.update_output = false ∧
      (run dev evs).1.io_halt = true) ∧
    (dev.update_output = true → dev.output_pending = false →
      ∀ (urb : in_urb) (env1 env2 : reg_env), urb.status = 0 →
      (step (.read_complete urb env1 env2) dev).2 = [build_ctl_buf dev.whd]) := by
  refine ⟨?_, ?_, ?_⟩
  · intro e he
    obtain ⟨a1, a2, _, a4⟩ := mutator_halted e dev he
    exact ⟨a4 hh, a1, a2.trans hh⟩
  · intro hu evs hev
    have hnf : ∀ e ∈ evs, is_failed_write e = false := by
      intro e he
      have h := hev e he
      cases e
      case write_complete status =>
        rcases h with h | h
        · simp [is_mutator] at h
        · simp only [is_completion_ok, decide_eq_true_eq] at h
          simp [is_failed_write, h]
      all_goals rfl
    obtain ⟨b1, b2, b3⟩ := run_halted_clean evs dev hnf hh hu
    exact ⟨b1, b3, b2⟩
  · intro hu hp urb env1 env2 hs
    show (wedo_in_callback urb env1 env2 dev).2.ctl_submitted.toList = _
    rw [in_callback_submit urb env1 env2 dev hs hu hp]
    simp only [Option.toList, in_report_frame]

set_option maxRecDepth 100000 in
/-- Witness for C15 (amended): the device with a motor on port 1, halted with the dirty
flag clear; setting a duty cycle and reading a report submit nothing. -/
theorem halted_hub_submissions_witness :
    (step .halt dev_motor).1.io_halt = true ∧ (step .halt dev_motor).1.update_output = false ∧
    (run (step .halt dev_motor).1
      [.set_duty_cycle .WEDO_PORT_1 50, .read_complete motor_urb env_ok env_ok]).2 = [] :=
  ⟨by decide, by decide,
    ((halted_hub_submissions (step .halt dev_motor).1 (by decide)).2.1 (by decide)
      [.set_duty_cycle .WEDO_PORT_1 50, .read_complete motor_urb env_ok env_ok]
      (fun e he => by
        rcases List.mem_cons.mp he with h | h
        · rw [h]; exact Or.inl rfl
        · rw [List.mem_singleton.mp h]; exact Or.inr rfl)).1⟩

/-! ### The single-flight invariant (C16) -/

/-- A read completion that submits nothing keeps `output_pending`. -/
theorem in_callback_none (urb : in_urb) (env1 env2 : reg_env) (dev : usb_wedo)
    (h : (wedo_in_callback urb env1 env2 dev).2.ctl_submitted = none) :
    (wedo_in_callback urb env1 env2 dev).1.output_pending = dev.output_pending ∧
    (wedo_in_callback urb env1 env2 dev).1.update_output = dev.update_output := by
  by_cases hs : urb.status = 0
  · by_cases hq : dev.update_output = true ∧ ¬ dev.output_pending = true
    · rw [in_callback_submit urb env1 env2 dev hs hq.1 (by simpa using hq.2)] at h
      simp at h
    · rw [in_callback_quiet urb env1 env2 dev hs hq]
      exact ⟨rfl, rfl⟩
  · rw [in_callback_failed urb env1 env2 dev hs]
    exact ⟨rfl, rfl⟩

theorem sched_step_inv (e : event) (s : sched_state) (hen : sched_enabled e s)
    (h : s.outstanding = if s.dev.output_pending = true then 1 else 0) :
    (sched_step e s).outstanding =
      if (sched_step e s).dev.output_pending = true then 1 else 0 := by
  cases e with
  | read_complete urb env1 env2 =>
    show s.outstanding + (wedo_in_callback urb env1 env2 s.dev).2.ctl_submitted.toList.length =
      if (wedo_in_callback urb env1 env2 s.dev).1.output_pending = true then 1 else 0
    cases hsub : (wedo_in_callback urb env1 env2 s.dev).2.ctl_submitted with
    | none =>
      rw [(in_callback_none urb env1 env2 s.dev hsub).1, h]
      simp
    | some frame =>
      obtain ⟨_, _, hp, _, _, hp2, _⟩ := in_callback_frame urb env1 env2 s.dev frame hsub
      rw [hp2, h, hp]
      simp
  | write_complete status =>
    have hpos : 0 < s.outstanding := hen
    have hp : s.dev.output_pending = true := by
      by_contra hc
      rw [if_neg hc] at h
      omega
    rw [if_pos hp] at h
    by_cases hst : status = 0
    · show (if status = 0 then s.outstanding - 1 else s.outstanding) =
        if (wedo_ctrl_callback status s.dev).1.output_pending = true then 1 else 0
      unfold wedo_ctrl_callback
      rw [if_pos hst, if_neg (not_not.mpr hst), h]
      simp
    · show (if status = 0 then s.outstanding - 1 else s.outstanding) =
        if (wedo_ctrl_callback status s.dev).1.output_pending = true then 1 else 0
      unfold wedo_ctrl_callback
      rw [if_neg hst, if_pos hst, h, if_pos hp]
  | set_command p command =>
    show s.outstanding =
      if (step (.set_command p command) s.dev).1.output_pending = true then 1 else 0
    rw [(mutator_halted (.set_command p command) s.dev rfl).2.2.1]; exact h
  | set_polarity p polarity =>
    show s.outstanding =
      if (step (.set_polarity p polarity) s.dev).1.output_pending = true then 1 else 0
    rw [(mutator_halted (.set_polarity p polarity) s.dev rfl).2.2.1]; exact h
  | set_duty_cycle p duty_cycle =>
    show s.outstanding =
      if (step (.set_duty_cycle p duty_cycle) s.dev).1.output_pending = true then 1 else 0
    rw [(mutator_halted (.set_duty_cycle p duty_cycle) s.dev rfl).2.2.1]; exact h
  | set_mode p mode =>
    show s.outstanding =
      if (step (.set_mode p mode) s.dev).1.output_pending = true then 1 else 0
    rw [(mutator_halted (.set_mode p mode) s.dev rfl).2.2.1]; exact h
  | clear_error_store value => exact h
  | high_power_store value => exact h
  | shut_down_store value => exact h
  | reset_store value => exact h
  | halt => exact h

/-- A sequence of events each of which can occur when its turn comes leads from a
reachable state to a reachable state. -/
theorem sched_reachable_run (es : List event) :
    ∀ s : sched_state, sched_reachable s → sched_run_ok s es = true →
      sched_reachable (sched_run s es) := by
  induction es with
  | nil => intro s h _; exact h
  | cons e es ih =>
    intro s h hok
    cases e
    case write_complete status =>
      simp only [sched_run_ok, Bool.and_eq_true, decide_eq_true_eq] at hok
      exact ih _ (sched_reachable.next (.write_complete status) s h hok.1) hok.2
    all_goals exact ih _ (sched_reachable.next _ s h trivial) hok

/-- C16: a read completion submits a write only when the dirty flag is set and no write
is in flight at that moment, and the submission clears the dirty flag and sets
in_flight. Over the events mutator call, read completion and write completion
(successful or failed, possible only while a write is outstanding), in every reachable
state the number of writes submitted and not completed with status 0 is 1 if in_flight
is set and 0 otherwise, so never more than one. -/
theorem single_flight (s : sched_state) (h : sched_reachable s) :
    (s.outstanding = if s.dev.output_pending = true then 1 else 0) ∧
    s.outstanding ≤ 1 ∧
    (∀ (urb : in_urb) (env1 env2 : reg_env) (dev : usb_wedo) (frame : List Nat),
      (wedo_in_callback urb env1 env2 dev).2.ctl_submitted = some frame →
      dev.update_output = true ∧ dev.output_pending = false ∧
      (wedo_in_callback urb env1 env2 dev).1.update_output = false ∧
      (wedo_in_callback urb env1 env2 dev).1.output_pending = true) ∧
    (∀ (urb : in_urb) (env1 env2 : reg_env),
      (sched_step (.read_complete urb env1 env2) s).outstanding ≤ 1) := by
  have hinv : ∀ t, sched_reachable t →
      t.outstanding = if t.dev.output_pending = true then 1 else 0 := by
    intro t ht
    induction ht with
    | init => rfl
    | next e t _ hen ih => exact sched_step_inv e t hen ih
  have hle : ∀ t : sched_state,
      (t.outstanding = if t.dev.output_pending = true then 1 else 0) → t.outstanding ≤ 1 := by
    intro t ht
    rw [ht]
    split <;> omega
  refine ⟨hinv s h, hle s (hinv s h), ?_, ?_⟩
  · intro urb env1 env2 dev frame hsub
    obtain ⟨_, a2, a3, _, a5, a6, _⟩ := in_callback_frame urb env1 env2 dev frame hsub
    exact ⟨a2, a3, a5, a6⟩
  · intro urb env1 env2
    exact hle _ (hinv _ (sched_reachable.next _ s h trivial))

set_option maxRecDepth 100000 in
/-- Witness for C16: a state with a write in flight. After the probe, 102 motor reports
bind a motor to port 1; a duty cycle of 50 is set and the next read submits the frame;
the write fails once and is handed in again; a duty cycle of 60 is set while it is in
flight and another report is read. In the state reached the dirty flag and in_flight
are both set and exactly one write is outstanding; one more read completion submits
nothing. -/
theorem single_flight_witness :
    sched_run_ok ⟨dev_init, 0⟩ inflight_events = true ∧
    (sched_run ⟨dev_init, 0⟩ inflight_events).dev.output_pending = true ∧
    (sched_run ⟨dev_init, 0⟩ inflight_events).dev.update_output = true ∧
    (sched_run ⟨dev_init, 0⟩ inflight_events).outstanding = 1 ∧
    (sched_step (.read_complete motor_urb env_ok env_ok)
      (sched_run ⟨dev_init, 0⟩ inflight_events)).outstanding ≤ 1 :=
  ⟨by decide, by decide, by decide,
    (single_flight (sched_run ⟨dev_init, 0⟩ inflight_events)
      (sched_reachable_run inflight_events ⟨dev_init, 0⟩ sched_reachable.init
        (by decide))).1.trans (if_pos (by decide)),
    (single_flight (sched_run ⟨dev_init, 0⟩ inflight_events)
      (sched_reachable_run inflight_events ⟨dev_init, 0⟩ sched_reachable.init
        (by decide))).2.2.2 motor_urb env_ok env_ok⟩

/-! ### One commit per stable candidate (C17) -/

/-- A reading that does not take the commit branch makes no device-class call and keeps
type and binding. -/
theorem port_read_no_commit (wpd : wedo_port_device) (r : reading)
    (h : is_commit wpd r = false) :
    (port_read wpd r).2 = [] ∧ (port_read wpd r).1.type_id = wpd.type_id ∧
    same_binding wpd.drvdata (port_read wpd r).1.drvdata := by
  simp only [is_commit, decide_eq_false_iff_not] at h
  by_cases h1 : port_type_scan r.id = wpd.temp_type_id
  · rcases Nat.lt_trichotomy wpd.type_debounce WEDO_PORT_TYPE_DEBOUNCE with hc | hc | hc
    · obtain ⟨a1, a2, _, _, a5⟩ := port_read_count wpd r h1 hc
      exact ⟨a1, a2, a5⟩
    · exact absurd ⟨h1, hc⟩ h
    · obtain ⟨a1, a2, _, _, a5⟩ := port_read_idle wpd r h1 hc
      exact ⟨a1, a2, a5⟩
  · obtain ⟨a1, a2, _, _, a5⟩ := port_read_reset wpd r h1
    exact ⟨a1, a2, a5⟩

/-- A reading that takes the commit branch is one rebind to its class and puts the count
past the threshold. -/
theorem port_read_commit (wpd : wedo_port_device) (r : reading)
    (h : is_commit wpd r = true) :
    port_read wpd r =
      ({ (rebind r.env (port_analog_update { wpd with input := r.input, id := r.id })
            (port_type_scan r.id)).1 with type_debounce := WEDO_PORT_TYPE_DEBOUNCE + 1 },
        (rebind r.env (port_analog_update { wpd with input := r.input, id := r.id })
            (port_type_scan r.id)).2) ∧
    (port_read wpd r).1.type_id = port_type_scan r.id ∧
    (port_read wpd r).1.temp_type_id = port_type_scan r.id ∧
    (port_read wpd r).1.type_debounce = WEDO_PORT_TYPE_DEBOUNCE + 1 := by
  simp only [is_commit, decide_eq_true_eq] at h
  have hc := port_update_commit r.env { wpd with input := r.input, id := r.id } h.1 h.2
  have hf := port_update_commit_fields r.env { wpd with input := r.input, id := r.id } h.1 h.2
  refine ⟨?_, hf.2.2.1, ?_, hf.2.1⟩
  · unfold port_read
    rw [hc]
    rfl
  · unfold port_read
    rw [hf.1]
    exact h.1.symm

/-- In a run of readings of one class at most one takes the commit branch, and none if
the class is the candidate and the count is past the threshold. -/
theorem port_feed_commits_le (B : Nat) (rs : List reading) :
    ∀ wpd : wedo_port_device, (∀ r ∈ rs, port_type_scan r.id = B) →
      port_feed_commits wpd rs ≤ 1 ∧
      (wpd.temp_type_id = B → WEDO_PORT_TYPE_DEBOUNCE < wpd.type_debounce →
        port_feed_commits wpd rs = 0) := by
  induction rs with
  | nil => intro wpd _; exact ⟨Nat.zero_le _, fun _ _ => rfl⟩
  | cons r rs ih =>
    intro wpd hrs
    have hr : port_type_scan r.id = B := hrs r (List.mem_cons_self _ _)
    have hrest : ∀ x ∈ rs, port_type_scan x.id = B :=
      fun x hx => hrs x (List.mem_cons_of_mem _ hx)
    obtain ⟨i1, i2⟩ := ih (port_read wpd r).1 hrest
    simp only [port_feed_commits]
    by_cases hcm : is_commit wpd r = true
    · obtain ⟨_, _, c3, c4⟩ := port_read_commit wpd r hcm
      have hz := i2 (by rw [c3, hr]) (by rw [c4]; omega)
      have hdeb : wpd.type_debounce = WEDO_PORT_TYPE_DEBOUNCE := by
        simp only [is_commit, decide_eq_true_eq] at hcm
        exact hcm.2
      rw [if_pos hcm, hz]
      exact ⟨Nat.le_refl _, fun _ hgt => by omega⟩
    · rw [if_neg hcm]
      refine ⟨by omega, fun ht hgt => ?_⟩
      obtain ⟨_, _, d3, d4, _⟩ := port_read_idle wpd r (by rw [hr, ht]) hgt
      have := i2 (by rw [d3, ht]) (by rw [d4]; exact hgt)
      omega

/-- Device-class calls are made by commits only. -/
theorem port_feed_no_commit (rs : List reading) :
    ∀ wpd : wedo_port_device, port_feed_commits wpd rs = 0 →
      (port_feed wpd rs).2 = [] ∧ (port_feed wpd rs).1.type_id = wpd.type_id ∧
      same_binding wpd.drvdata (port_feed wpd rs).1.drvdata := by
  induction rs with
  | nil => intro wpd _; exact ⟨rfl, rfl, same_binding_refl _⟩
  | cons r rs ih =>
    intro wpd h
    simp only [port_feed_commits] at h
    have hcm : is_commit wpd r = false := by
      by_contra hc
      rw [if_pos (by simpa using hc)] at h
      omega
    rw [hcm] at h
    obtain ⟨a1, a2, a3⟩ := port_read_no_commit wpd r hcm
    obtain ⟨b1, b2, b3⟩ := ih (port_read wpd r).1 (by simpa using h)
    simp only [port_feed]
    exact ⟨by rw [a1, b1]; rfl, by rw [b2, a2], same_binding_trans _ _ _ a3 b3⟩

/-- C17: for any port state (so for every reachable one) and any run of consecutive
readings that classify to the same category, at most one reading takes the commit branch
of `wedo_port_update_status`, which is one unbind/bind, and without a commit no
device-class call is made. After a commit the count is 101, past the threshold, and
every further reading of that classification leaves candidate, count, type and binding
and makes no call; a reading of another classification sets the count to 0. -/
theorem commit_once_per_candidate (wpd : wedo_port_device) (B : Nat) (rs : List reading)
    (hrs : ∀ r ∈ rs, port_type_scan r.id = B) :
    port_feed_commits wpd rs ≤ 1 ∧
    (port_feed_commits wpd rs = 0 → (port_feed wpd rs).2 = [] ∧
      (port_feed wpd rs).1.type_id = wpd.type_id ∧
      same_binding wpd.drvdata (port_feed wpd rs).1.drvdata) ∧
    (∀ r, port_type_scan r.id = B → is_commit wpd r = true →
      (port_read wpd r).2 =
        (rebind r.env (port_analog_update { wpd with input := r.input, id := r.id }) B).2 ∧
      (port_read wpd r).1.type_id = B ∧
      (port_read wpd r).1.temp_type_id = B ∧
      (port_read wpd r).1.type_debounce = WEDO_PORT_TYPE_DEBOUNCE + 1 ∧
      port_feed_commits (port_read wpd r).1 rs = 0 ∧
      (port_feed (port_read wpd r).1 rs).2 = [] ∧
      (port_feed (port_read wpd r).1 rs).1.temp_type_id = B ∧
      (port_feed (port_read wpd r).1 rs).1.type_debounce = WEDO_PORT_TYPE_DEBOUNCE + 1 ∧
      (port_feed (port_read wpd r).1 rs).1.type_id = B ∧
      same_binding (port_read wpd r).1.drvdata (port_feed (port_read wpd r).1 rs).1.drvdata) ∧
    (∀ (w : wedo_port_device) (x : reading), port_type_scan x.id ≠ w.temp_type_id →
      (port_read w x).1.type_debounce = 0 ∧ is_commit w x = false) := by
  refine ⟨(port_feed_commits_le B rs wpd hrs).1, port_feed_no_commit rs wpd, ?_, ?_⟩
  · intro r hr hcm
    obtain ⟨c1, c2, c3, c4⟩ := port_read_commit wpd r hcm
    have hgt : WEDO_PORT_TYPE_DEBOUNCE < (port_read wpd r).1.type_debounce := by rw [c4]; omega
    obtain ⟨e1, e2, e3, e4, e5⟩ := port_feed_idle B rs (port_read wpd r).1 (by rw [c3, hr]) hrs hgt
    refine ⟨by rw [c1, hr], by rw [c2, hr], by rw [c3, hr], c4, ?_, e1, e3, by rw [e4, c4],
      by rw [e2, c2, hr], e5⟩
    exact (port_feed_commits_le B rs (port_read wpd r).1 hrs).2 (by rw [c3, hr]) hgt
  · intro w x hx
    refine ⟨(port_read_reset w x hx).2.2.2.1, ?_⟩
    simp only [is_commit, decide_eq_false_iff_not]
    exact fun h => hx h.1

set_option maxRecDepth 100000 in
/-- Witness for C17: 150 motor readings given to a port settled as tilt contain exactly
one commit, which is at most one. -/
theorem commit_once_per_candidate_witness :
    port_type_scan motor_reading.id = WEDO_TYPE_MOTOR ∧
    port_feed_commits tilt_port_settled (List.replicate 150 motor_reading) = 1 ∧
    port_feed_commits tilt_port_settled (List.replicate 150 motor_reading) ≤ 1 :=
  ⟨by decide, by decide,
    (commit_once_per_candidate tilt_port_settled WEDO_TYPE_MOTOR
      (List.replicate 150 motor_reading)
      (fun r hr => by rw [List.eq_of_mem_replicate hr]; decide)).1⟩

/-! ### Binding on commit (C11) -/

theorem drvdata_none_eta (w : wedo_port_device) (h : w.drvdata = none) :
    { w with drvdata := none } = w := by
  cases w
  simp only at h
  subst h
  rfl

/-- On a port whose binding fits its type, `unregister_wedo_device` removes the binding,
with one call to the class the binding was registered with. -/
theorem unregister_wedo_device_wf (w : wedo_port_device) (hwf : bind_wf w) :
    (unregister_wedo_device w).1 = { w with drvdata := none } ∧
    (w.drvdata = none → (unregister_wedo_device w).2 = []) ∧
    (w.drvdata ≠ none → w.type_id = WEDO_TYPE_MOTOR →
      (unregister_wedo_device w).2 = [.unregister_dc_motor]) ∧
    (w.drvdata ≠ none → w.type_id ≠ WEDO_TYPE_MOTOR →
      (unregister_wedo_device w).2 = [.unregister_msensor]) := by
  cases hd : w.drvdata with
  | none =>
    have he := drvdata_none_eta w hd
    have hres : unregister_wedo_device w = (w, []) := by
      unfold unregister_wedo_device unregister_wedo_sensor unregister_wedo_motor
      simp only [hd]
      split
      · rfl
      · split <;> rfl
    rw [hres]
    exact ⟨he.symm, fun _ => rfl, fun h => absurd rfl h, fun h => absurd rfl h⟩
  | some d =>
    have hty := hwf (by rw [hd]; simp)
    unfold unregister_wedo_device unregister_wedo_sensor unregister_wedo_motor
    simp only [hd]
    by_cases hs : w.type_id = WEDO_TYPE_TILT ∨ w.type_id = WEDO_TYPE_MOTION
    · rw [if_pos hs]
      have hnm : w.type_id ≠ WEDO_TYPE_MOTOR := by
        rcases hs with h | h <;> rw [h] <;> decide
      exact ⟨rfl, fun h => by simp at h, fun _ h => absurd h hnm, fun _ _ => rfl⟩
    · rw [if_neg hs]
      have hm : w.type_id = WEDO_TYPE_MOTOR := by
        rcases hty with h | h | h
        · exact absurd (Or.inl h) hs
        · exact absurd (Or.inr h) hs
        · exact h
      rw [if_pos hm]
      exact ⟨rfl, fun h => by simp at h, fun _ _ => rfl, fun _ h => absurd hm h⟩

/-- The binding and the calls of `register_wedo_device` on a port without binding. -/
theorem register_wedo_device_unbound (env : reg_env) (w : wedo_port_device) (id : Nat)
    (h : w.drvdata = none) :
    (id = WEDO_TYPE_TILT → env.alloc_ok = true → env.register_err = 0 →
      (register_wedo_device env w id).2.1.drvdata =
        some (.sensor (new_sensor_data WEDO_TILT_SENSOR)) ∧
      (register_wedo_device env w id).2.2 = [.register_msensor "wedo-tilt"] ∧
      (register_wedo_device env w id).1 = 0) ∧
    (id = WEDO_TYPE_MOTION → env.alloc_ok = true → env.register_err = 0 →
      (register_wedo_device env w id).2.1.drvdata =
        some (.sensor (new_sensor_data WEDO_MOTION_SENSOR)) ∧
      (register_wedo_device env w id).2.2 = [.register_msensor "wedo-motion"] ∧
      (register_wedo_device env w id).1 = 0) ∧
    (id = WEDO_TYPE_MOTOR → env.alloc_ok = true → env.register_err = 0 →
      (register_wedo_device env w id).2.1.drvdata = some (.motor new_motor_data) ∧
      (register_wedo_device env w id).2.2 = [.register_dc_motor] ∧
      (register_wedo_device env w id).1 = 0) ∧
    (id ≠ WEDO_TYPE_TILT → id ≠ WEDO_TYPE_MOTION → id ≠ WEDO_TYPE_MOTOR →
      (register_wedo_device env w id).2.1.drvdata = none ∧
      (register_wedo_device env w id).2.2 = []) ∧
    (env.alloc_ok = false ∨ env.register_err ≠ 0 →
      (register_wedo_device env w id).2.1.drvdata = none) := by
  have hs : ∀ t, register_wedo_sensor env { w with type_id := id } t =
      if !env.alloc_ok then (-ENOMEM, { w with type_id := id }, [])
      else if env.register_err ≠ 0 then
        (env.register_err, { w with type_id := id },
          [.register_msensor (new_sensor_data t).info.name])
      else (0, { w with type_id := id, drvdata := some (.sensor (new_sensor_data t)) },
          [.register_msensor (new_sensor_data t).info.name]) := by
    intro t
    unfold register_wedo_sensor
    simp only [h, set_mode_new_sensor_data]
  have hm : register_wedo_motor env { w with type_id := id } =
      if !env.alloc_ok then (-ENOMEM, { w with type_id := id }, [])
      else if env.register_err ≠ 0 then (env.register_err, { w with type_id := id },
          [.register_dc_motor])
      else (0, { w with type_id := id, drvdata := some (.motor new_motor_data) },
          [.register_dc_motor]) := by
    unfold register_wedo_motor
    simp only [h]
  refine ⟨?_, ?_, ?_, ?_, ?_⟩
  · intro hid ha he
    subst hid
    have hr : register_wedo_device env w WEDO_TYPE_TILT =
        register_wedo_sensor env { w with type_id := WEDO_TYPE_TILT } WEDO_TILT_SENSOR := by
      unfold register_wedo_device
      simp only [if_true]
    rw [hr, hs, ha, he]
    exact ⟨rfl, rfl, rfl⟩
  · intro hid ha he
    subst hid
    have hr : register_wedo_device env w WEDO_TYPE_MOTION =
        register_wedo_sensor env { w with type_id := WEDO_TYPE_MOTION } WEDO_MOTION_SENSOR := by
      unfold register_wedo_device
      have hnt : ¬ (WEDO_TYPE_MOTION = WEDO_TYPE_TILT) := by decide
      simp only [hnt, if_true, if_false]
    rw [hr, hs, ha, he]
    exact ⟨rfl, rfl, rfl⟩
  · intro hid ha he
    subst hid
    have hr : register_wedo_device env w WEDO_TYPE_MOTOR =
        register_wedo_motor env { w with type_id := WEDO_TYPE_MOTOR } := by
      unfold register_wedo_device
      have hnt : ¬ (WEDO_TYPE_MOTOR = WEDO_TYPE_TILT) := by decide
      have hnm : ¬ (WEDO_TYPE_MOTOR = WEDO_TYPE_MOTION) := by decide
      simp only [hnt, hnm, if_true, if_false]
    rw [hr, hm, ha, he]
    exact ⟨rfl, rfl, rfl⟩
  · intro h1 h2 h3
    unfold register_wedo_device
    simp only [h1, h2, h3, if_false]
    exact ⟨h, trivial⟩
  · intro hf
    unfold register_wedo_device
    simp only []
    have hsn : ∀ t, (register_wedo_sensor env { w with type_id := id } t).2.1.drvdata = none := by
      intro t
      rw [hs]
      rcases hf with hf | hf
      · simp only [hf, Bool.not_false, if_true]; exact h
      · split
        · exact h
        · simp only [ne_eq, hf, not_false_eq_true, if_true]; exact h
    have hmn : (register_wedo_motor env { w with type_id := id }).2.1.drvdata = none := by
      rw [hm]
      rcases hf with hf | hf
      · simp only [hf, Bool.not_false, if_true]; exact h
      · split
        · exact h
        · simp only [ne_eq, hf, not_false_eq_true, if_true]; exact h
    split
    · exact hsn _
    · split
      · exact hsn _
      · split
        · exact hmn
        · exact h

theorem same_binding_none (a b : Option drv_data) (h : same_binding a b) :
    a = none ↔ b = none := by
  unfold same_binding at h
  cases a with
  | none =>
    cases b with
    | none => exact ⟨fun _ => rfl, fun _ => rfl⟩
    | some d => cases d <;> simp at h
  | some x =>
    cases b with
    | none => cases x <;> simp at h
    | some y => exact ⟨fun h1 => by simp at h1, fun h1 => by simp at h1⟩

theorem bind_wf_of (w v : wedo_port_device) (h : bind_wf w) (hty : v.type_id = w.type_id)
    (hd : v.drvdata ≠ none → w.drvdata ≠ none) : bind_wf v := by
  intro hv
  rw [hty]
  exact h (hd hv)

theorem port_analog_update_bind_wf (w : wedo_port_device) (h : bind_wf w) :
    bind_wf (port_analog_update w) := by
  apply bind_wf_of w _ h (port_analog_update_fields w).1
  intro hv hn
  exact hv ((same_binding_none _ _ (port_analog_update_same_binding w)).mp hn)

/-- The port after a commit: type, binding and calls, for every category and every answer
of the environment. -/
theorem port_update_commit_binding (env : reg_env) (w : wedo_port_device)
    (hscan : port_type_scan w.id = w.temp_type_id)
    (hdeb : w.type_debounce = WEDO_PORT_TYPE_DEBOUNCE) (hwf : bind_wf w) :
    (wedo_port_update_status env w).1.type_id = port_type_scan w.id ∧
    (wedo_port_update_status env w).1.drvdata =
      (register_wedo_device env { port_analog_update w with drvdata := none }
        (port_type_scan w.id)).2.1.drvdata ∧
    (wedo_port_update_status env w).2 =
      (unregister_wedo_device (port_analog_update w)).2 ++
        (register_wedo_device env { port_analog_update w with drvdata := none }
          (port_type_scan w.id)).2.2 := by
  have hu := unregister_wedo_device_wf (port_analog_update w) (port_analog_update_bind_wf w hwf)
  have hc := port_update_commit env w hscan hdeb
  have hf := port_update_commit_fields env w hscan hdeb
  refine ⟨hf.2.2.1, ?_, ?_⟩
  · rw [hc, hu.1]
  · rw [hc, hu.1]

theorem port_update_bind_wf (env : reg_env) (w : wedo_port_device) (h : bind_wf w) :
    bind_wf (wedo_port_update_status env w).1 := by
  by_cases hc : port_type_scan w.id = w.temp_type_id ∧ w.type_debounce = WEDO_PORT_TYPE_DEBOUNCE
  · obtain ⟨a1, a2, _⟩ := port_update_commit_binding env w hc.1 hc.2 h
    have hr := register_wedo_device_unbound env { port_analog_update w with drvdata := none }
      (port_type_scan w.id) rfl
    intro hne
    rw [a1]
    by_cases h1 : port_type_scan w.id = WEDO_TYPE_TILT
    · exact Or.inl h1
    · by_cases h2 : port_type_scan w.id = WEDO_TYPE_MOTION
      · exact Or.inr (Or.inl h2)
      · by_cases h3 : port_type_scan w.id = WEDO_TYPE_MOTOR
        · exact Or.inr (Or.inr h3)
        · rw [a2, (hr.2.2.2.1 h1 h2 h3).1] at hne
          exact absurd rfl hne
  · have hb := port_update_binding env w hc
    have hty : (wedo_port_update_status env w).1.type_id = w.type_id := by
      by_cases h1 : port_type_scan w.id = w.temp_type_id
      · rcases Nat.lt_trichotomy w.type_debounce WEDO_PORT_TYPE_DEBOUNCE with hd | hd | hd
        · rw [port_update_count env w h1 hd]; exact (port_analog_update_fields w).1
        · exact absurd ⟨h1, hd⟩ hc
        · rw [port_update_idle env w h1 hd]; exact (port_analog_update_fields w).1
      · rw [port_update_reset env w h1]; exact (port_analog_update_fields w).1
    apply bind_wf_of w _ h hty
    intro hv hn
    rw [hb.1] at hv
    exact hv ((same_binding_none _ _ (port_analog_update_same_binding w)).mp hn)

theorem in_port_update_bind_wf (env : reg_env) (input id : Nat) (w : wedo_port_device)
    (h : bind_wf w) : bind_wf (in_port_update env input id w).1 := by
  have h2 : bind_wf { w with input := input, id := id } := h
  unfold in_port_update
  simp only []
  split
  · exact port_update_bind_wf env _ h2
  · exact h2

theorem dev_wf_of_ports (dev : usb_wedo) (h1 : bind_wf dev.whd.wpd1)
    (h2 : bind_wf dev.whd.wpd2) : dev_wf dev := by
  intro p; cases p <;> assumption

theorem set_wpd_dev_wf (dev : usb_wedo) (p : wedo_port) (w : wedo_port_device)
    (h : dev_wf dev) (hw : bind_wf w) : dev_wf (wedo_update_output (set_wpd dev p w)) := by
  intro q
  rw [get_wpd_update_output]
  by_cases hq : q = p
  · rw [hq, get_set_wpd_same]; exact hw
  · rw [get_set_wpd_other dev p q w hq]; exact h q

theorem step_dev_wf (e : event) (dev : usb_wedo) (h : dev_wf dev) : dev_wf (step e dev).1 := by
  have h1 : bind_wf dev.whd.wpd1 := h .WEDO_PORT_1
  have h2 : bind_wf dev.whd.wpd2 := h .WEDO_PORT_2
  cases e with
  | read_complete urb env1 env2 =>
    have hw := in_callback_whd urb env1 env2 dev
    apply dev_wf_of_ports
    · show bind_wf (wedo_in_callback urb env1 env2 dev).1.whd.wpd1
      rw [hw]
      split
      · exact in_port_update_bind_wf env1 _ _ _ h1
      · exact h1
    · show bind_wf (wedo_in_callback urb env1 env2 dev).1.whd.wpd2
      rw [hw]
      split
      · exact in_port_update_bind_wf env2 _ _ _ h2
      · exact h2
  | write_complete status =>
    simp only [step, wedo_ctrl_callback]
    split
    · exact h
    · exact dev_wf_of_ports _ h1 h2
  | set_command p command =>
    show dev_wf (apply_op dev (wedo_set_command p command dev))
    unfold wedo_set_command
    split
    · exact h
    · rename_i wmd hm
      have hd := motor_of_some dev p wmd hm
      split
      · exact h
      · simp only [apply_op]
        apply set_wpd_dev_wf _ _ _ h
        apply bind_wf_of (get_wpd dev p) _ (h p)
        · split <;> rfl
        · intro _; rw [hd]; simp
  | set_polarity p polarity =>
    show dev_wf (apply_op dev (wedo_set_polarity p polarity dev))
    unfold wedo_set_polarity
    split
    · exact h
    · rename_i wmd hm
      have hd := motor_of_some dev p wmd hm
      split
      · exact h
      · simp only [apply_op]
        apply set_wpd_dev_wf _ _ _ h
        apply bind_wf_of (get_wpd dev p) _ (h p)
        · split <;> rfl
        · intro _; rw [hd]; simp
  | set_duty_cycle p duty_cycle =>
    show dev_wf (apply_op dev (wedo_set_duty_cycle p duty_cycle dev))
    unfold wedo_set_duty_cycle
    split
    · exact h
    · rename_i wmd hm
      have hd := motor_of_some dev p wmd hm
      split
      · exact h
      · split
        · exact h
        · simp only [apply_op]
          apply set_wpd_dev_wf _ _ _ h
          apply bind_wf_of (get_wpd dev p) _ (h p)
          · rfl
          · intro _; rw [hd]; simp
  | set_mode p mode =>
    show dev_wf (apply_op dev (port_set_mode p mode dev))
    unfold port_set_mode
    split
    · rename_i wsd hd
      simp only [apply_op]
      intro q
      by_cases hq : q = p
      · rw [hq, get_set_wpd_same]
        apply bind_wf_of (get_wpd dev p) _ (h p)
        · rfl
        · intro _; rw [hd]; simp
      · rw [get_set_wpd_other dev p q _ hq]; exact h q
    · exact h
  | clear_error_store value =>
    have hp := flag_store_ports (fun b st => { st with clear_error := b }) value 1 dev.whd
    apply dev_wf_of_ports
    · show bind_wf (clear_error_store value 1 dev.whd).2.wpd1
      unfold clear_error_store; rw [hp.1]; exact h1
    · show bind_wf (clear_error_store value 1 dev.whd).2.wpd2
      unfold clear_error_store; rw [hp.2]; exact h2
  | high_power_store value =>
    have hp := flag_store_ports (fun b st => { st with high_power := b }) value 1 dev.whd
    apply dev_wf_of_ports
    · show bind_wf (high_power_store value 1 dev.whd).2.wpd1
      unfold high_power_store; rw [hp.1]; exact h1
    · show bind_wf (high_power_store value 1 dev.whd).2.wpd2
      unfold high_power_store; rw [hp.2]; exact h2
  | shut_down_store value =>
    have hp := flag_store_ports (fun b st => { st with shut_down := b }) value 1 dev.whd
    apply dev_wf_of_ports
    · show bind_wf (shut_down_store value 1 dev.whd).2.wpd1
      unfold shut_down_store; rw [hp.1]; exact h1
    · show bind_wf (shut_down_store value 1 dev.whd).2.wpd2
      unfold shut_down_store; rw [hp.2]; exact h2
  | reset_store value =>
    have hp := flag_store_ports (fun b st => { st with reset := b }) value 1 dev.whd
    apply dev_wf_of_ports
    · show bind_wf (reset_store value 1 dev.whd).2.wpd1
      unfold reset_store; rw [hp.1]; exact h1
    · show bind_wf (reset_store value 1 dev.whd).2.wpd2
      unfold reset_store; rw [hp.2]; exact h2
  | halt => exact dev_wf_of_ports _ h1 h2

theorem reachable_dev_wf (dev : usb_wedo) (h : reachable dev) : dev_wf dev := by
  induction h with
  | init =>
    apply dev_wf_of_ports
    · intro hn; exact absurd rfl hn
    · intro hn; exact absurd rfl hn
  | next e dev _ ih => exact step_dev_wf e dev ih

/-- C11: when `wedo_port_update_status` commits category c on a port whose binding fits
its type (as it does in every reachable state), the previous binding, if any, is
unregistered and removed, and the type becomes c in every case. The new binding is a
sensor with the tilt definition (3 modes, mode 0) if c is tilt, a sensor with the motion
definition (1 mode, mode 0) if c is motion and a motor if c is motor, provided the
registration succeeds; there is no binding for the other categories, nor when the
allocation or the registration fails. -/
theorem binding_on_commit (env : reg_env) (w : wedo_port_device)
    (hscan : port_type_scan w.id = w.temp_type_id)
    (hdeb : w.type_debounce = WEDO_PORT_TYPE_DEBOUNCE) (hwf : bind_wf w) :
    (wedo_port_update_status env w).1.type_id = port_type_scan w.id ∧
    (unregister_wedo_device (port_analog_update w)).1.drvdata = none ∧
    (w.drvdata = none → (unregister_wedo_device (port_analog_update w)).2 = []) ∧
    (w.drvdata ≠ none → w.type_id = WEDO_TYPE_MOTOR →
      (unregister_wedo_device (port_analog_update w)).2 = [.unregister_dc_motor]) ∧
    (w.drvdata ≠ none → w.type_id ≠ WEDO_TYPE_MOTOR →
      (unregister_wedo_device (port_analog_update w)).2 = [.unregister_msensor]) ∧
    (port_type_scan w.id = WEDO_TYPE_TILT → env.alloc_ok = true → env.register_err = 0 →
      (wedo_port_update_status env w).1.drvdata =
        some (.sensor (new_sensor_data WEDO_TILT_SENSOR)) ∧
      (wedo_port_update_status env w).2 =
        (unregister_wedo_device (port_analog_update w)).2 ++ [.register_msensor "wedo-tilt"]) ∧
    (port_type_scan w.id = WEDO_TYPE_MOTION → env.alloc_ok = true → env.register_err = 0 →
      (wedo_port_update_status env w).1.drvdata =
        some (.sensor (new_sensor_data WEDO_MOTION_SENSOR)) ∧
      (wedo_port_update_status env w).2 =
        (unregister_wedo_device (port_analog_update w)).2 ++
          [.register_msensor "wedo-motion"]) ∧
    (port_type_scan w.id = WEDO_TYPE_MOTOR → env.alloc_ok = true → env.register_err = 0 →
      (wedo_port_update_status env w).1.drvdata = some (.motor new_motor_data) ∧
      (wedo_port_update_status env w).2 =
        (unregister_wedo_device (port_analog_update w)).2 ++ [.register_dc_motor]) ∧
    (port_type_scan w.id ≠ WEDO_TYPE_TILT → port_type_scan w.id ≠ WEDO_TYPE_MOTION →
      port_type_scan w.id ≠ WEDO_TYPE_MOTOR →
      (wedo_port_update_status env w).1.drvdata = none ∧
      (wedo_port_update_status env w).2 = (unregister_wedo_device (port_analog_update w)).2) ∧
    (env.alloc_ok = false ∨ env.register_err ≠ 0 →
      (wedo_port_update_status env w).1.drvdata = none) ∧
    (new_sensor_data WEDO_TILT_SENSOR).info.num_modes = 3 ∧
    (new_sensor_data WEDO_TILT_SENSOR).mode = 0 ∧
    (new_sensor_data WEDO_MOTION_SENSOR).info.num_modes = 1 ∧
    (new_sensor_data WEDO_MOTION_SENSOR).mode = 0 ∧
    (∀ dev : usb_wedo, reachable dev → ∀ p, bind_wf (get_wpd dev p)) := by
  obtain ⟨a1, a2, a3⟩ := port_update_commit_binding env w hscan hdeb hwf
  have hpa := port_analog_update_fields w
  have hsb := same_binding_none _ _ (port_analog_update_same_binding w)
  obtain ⟨u1, u2, u3, u4⟩ :=
    unregister_wedo_device_wf (port_analog_update w) (port_analog_update_bind_wf w hwf)
  obtain ⟨r1, r2, r3, r4, r5⟩ := register_wedo_device_unbound env
    { port_analog_update w with drvdata := none } (port_type_scan w.id) rfl
  refine ⟨a1, by rw [u1], fun h => u2 (hsb.mp h), ?_, ?_, ?_, ?_, ?_, ?_, ?_, by decide,
    by decide, by decide, by decide, fun dev h => reachable_dev_wf dev h⟩
  · intro hn hm
    exact u3 (fun h => hn (hsb.mpr h)) (by rw [hpa.1]; exact hm)
  · intro hn hm
    exact u4 (fun h => hn (hsb.mpr h)) (by rw [hpa.1]; exact hm)
  · intro hc ha he
    obtain ⟨b1, b2, _⟩ := r1 hc ha he
    exact ⟨by rw [a2, b1], by rw [a3, b2]⟩
  · intro hc ha he
    obtain ⟨b1, b2, _⟩ := r2 hc ha he
    exact ⟨by rw [a2, b1], by rw [a3, b2]⟩
  · intro hc ha he
    obtain ⟨b1, b2, _⟩ := r3 hc ha he
    exact ⟨by rw [a2, b1], by rw [a3, b2]⟩
  · intro h1 h2 h3
    obtain ⟨b1, b2⟩ := r4 h1 h2 h3
    exact ⟨by rw [a2, b1], by rw [a3, b2, List.append_nil]⟩
  · intro hf
    rw [a2, r5 hf]

/-- Witness for C11: a port bound as a tilt sensor commits a motor; the motor is bound. -/
theorem binding_on_commit_witness :
    port_type_scan tilt_port_at_commit.id = tilt_port_at_commit.temp_type_id ∧
    tilt_port_at_commit.type_debounce = WEDO_PORT_TYPE_DEBOUNCE ∧
    port_type_scan tilt_port_at_commit.id = WEDO_TYPE_MOTOR ∧
    (wedo_port_update_status env_ok tilt_port_at_commit).1.drvdata =
      some (.motor new_motor_data) :=
  ⟨by decide, by decide, by decide,
    ((binding_on_commit env_ok tilt_port_at_commit (by decide) (by decide)
      (fun _ => Or.inl rfl)).2.2.2.2.2.2.2.1 (by decide) rfl rfl).1⟩

/-! ### A commit of the current type (C20) -/

/-- What `register_wedo_device` binds to a port without binding: nothing, a fresh motor
or a fresh sensor, the same for any two such ports. -/
theorem register_wedo_device_fresh (env : reg_env) (w w2 : wedo_port_device) (id : Nat)
    (h : w.drvdata = none) (h2 : w2.drvdata = none) :
    ((register_wedo_device env w id).2.1.drvdata = none ∨
      (register_wedo_device env w id).2.1.drvdata = some (.motor new_motor_data) ∨
      (register_wedo_device env w id).2.1.drvdata =
        some (.sensor (new_sensor_data WEDO_TILT_SENSOR)) ∨
      (register_wedo_device env w id).2.1.drvdata =
        some (.sensor (new_sensor_data WEDO_MOTION_SENSOR))) ∧
    (register_wedo_device env w id).2.1.drvdata =
      (register_wedo_device env w2 id).2.1.drvdata := by
  obtain ⟨a1, a2, a3, a4, a5⟩ := register_wedo_device_unbound env w id h
  obtain ⟨b1, b2, b3, b4, b5⟩ := register_wedo_device_unbound env w2 id h2
  by_cases hok : env.alloc_ok = true ∧ env.register_err = 0
  · by_cases ht : id = WEDO_TYPE_TILT
    · exact ⟨Or.inr (Or.inr (Or.inl (a1 ht hok.1 hok.2).1)),
        (a1 ht hok.1 hok.2).1.trans (b1 ht hok.1 hok.2).1.symm⟩
    · by_cases hm : id = WEDO_TYPE_MOTION
      · exact ⟨Or.inr (Or.inr (Or.inr (a2 hm hok.1 hok.2).1)),
          (a2 hm hok.1 hok.2).1.trans (b2 hm hok.1 hok.2).1.symm⟩
      · by_cases ho : id = WEDO_TYPE_MOTOR
        · exact ⟨Or.inr (Or.inl (a3 ho hok.1 hok.2).1),
            (a3 ho hok.1 hok.2).1.trans (b3 ho hok.1 hok.2).1.symm⟩
        · exact ⟨Or.inl (a4 ht hm ho).1, (a4 ht hm ho).1.trans (b4 ht hm ho).1.symm⟩
  · have hbad : env.alloc_ok = false ∨ env.register_err ≠ 0 := by
      by_cases ha : env.alloc_ok = true
      · exact Or.inr (fun he => hok ⟨ha, he⟩)
      · exact Or.inl (by simpa using ha)
    exact ⟨Or.inl (a5 hbad), (a5 hbad).trans (b5 hbad).symm⟩

/-- At a commit the binding of a port whose binding fits its type is replaced by what
`register_wedo_device` binds to a port without binding; the binding before and the raw
input are not read. -/
theorem port_update_commit_fresh (env : reg_env) (p q : wedo_port_device)
    (hwf : bind_wf p) (hscan : port_type_scan p.id = p.temp_type_id)
    (hdeb : p.type_debounce = WEDO_PORT_TYPE_DEBOUNCE)
    (hwfq : bind_wf q) (hid : q.id = p.id) (htemp : q.temp_type_id = p.temp_type_id)
    (hdq : q.type_debounce = p.type_debounce) :
    ((wedo_port_update_status env p).1.drvdata = none ∨
      (wedo_port_update_status env p).1.drvdata = some (.motor new_motor_data) ∨
      (wedo_port_update_status env p).1.drvdata =
        some (.sensor (new_sensor_data WEDO_TILT_SENSOR)) ∨
      (wedo_port_update_status env p).1.drvdata =
        some (.sensor (new_sensor_data WEDO_MOTION_SENSOR))) ∧
    (wedo_port_update_status env q).1.drvdata = (wedo_port_update_status env p).1.drvdata := by
  have hp := (port_update_commit_binding env p hscan hdeb hwf).2.1
  have hq := (port_update_commit_binding env q (by rw [hid, htemp]; exact hscan)
    (by rw [hdq]; exact hdeb) hwfq).2.1
  have hf := register_wedo_device_fresh env { port_analog_update p with drvdata := none }
    { port_analog_update q with drvdata := none } (port_type_scan p.id) rfl rfl
  rw [hp, hq, hid]
  exact ⟨hf.1, hf.2.symm⟩

set_option maxRecDepth 100000 in
/-- Counterexample to C3 as stated. A tilt sensor settled on level is fed 4 consecutive
raw inputs of 60, which classify as right; after the 4th the committed status is still
level. And the port-type classifier does write the tilt state: a port of type tilt whose
sensor has candidate right, count 5 and status right gets one motor reading and 101
tilt readings, which leave that tilt state; at the next tilt reading
`wedo_port_update_status` commits tilt, and the tilt candidate, count and status of the
sensor bound afterwards are 0. -/
theorem tilt_fourth_reading_not_committed :
    tilt_level_settled.status = WEDO_TILT_STATUS_LEVEL ∧
    tilt_level_settled.debounce_status = WEDO_TILT_STATUS_LEVEL ∧
    tilt_status_scan 60 = WEDO_TILT_STATUS_RIGHT ∧
    (tilt_feed tilt_level_settled [60, 60, 60, 60]).status = WEDO_TILT_STATUS_LEVEL ∧
    (tilt_feed tilt_level_settled [60, 60, 60, 60]).status ≠ WEDO_TILT_STATUS_RIGHT ∧
    tilt_state_of (port_feed tilt_port_mode2
      (motor_reading :: List.replicate 101 tilt_reading)).1 =
      some (WEDO_TILT_STATUS_RIGHT, 5, WEDO_TILT_STATUS_RIGHT) ∧
    tilt_state_of (port_feed tilt_port_mode2
      (motor_reading :: List.replicate 101 tilt_reading ++ [tilt_reading])).1 =
      some (0, 0, 0) ∧
    tilt_state_of tilt_port_recommit =
      some (WEDO_TILT_STATUS_RIGHT, 5, WEDO_TILT_STATUS_RIGHT) ∧
    tilt_state_of (wedo_port_update_status env_ok tilt_port_recommit).1 = some (0, 0, 0) := by
  decide

/-- C3 (amended): the tilt debounce follows the port-type law with threshold 4 on its own
state. For a sensor whose status and candidate are A, up to 5 consecutive raw inputs
classifying to another status B leave the committed status A; the 6th commits B (and
the status stays B under further such inputs); any input classifying differently from
the candidate sets the tilt count to 0. The port-type classifier never reads the tilt
count and candidate: its type fields depend only on the raw id and the type fields, and
the sensor callback does not depend on the type candidate and count. It writes them only
when it commits a port type: at every other reading the binding is what the sensor
callback left; at a commit the binding of a port whose binding fits its type (as it does
in every reachable state) is replaced, whatever it held, by nothing, a fresh motor or a
fresh sensor, and the tilt count, candidate and status of a fresh sensor are 0. -/
theorem tilt_debounce_law (wsd : wedo_sensor_data) (A B : Nat) (xs : List Nat)
    (hA : wsd.status = A) (hcand : wsd.debounce_status = A) (hAB : B ≠ A)
    (hxs : ∀ y ∈ xs, tilt_status_scan y = B) :
    (xs.length ≤ 5 → (tilt_feed wsd xs).status = A) ∧
    (xs.length = 6 → (tilt_feed wsd xs).status = B ∧
      (tilt_feed wsd xs).debounce_count = WEDO_TILT_STATUS_DEBOUNCE + 1) ∧
    (6 ≤ xs.length → (tilt_feed wsd xs).status = B) ∧
    (∀ (w : wedo_sensor_data) (y : Nat), tilt_status_scan y ≠ w.debounce_status →
      (wedo_update_tilt_status y w).2.debounce_count = 0 ∧
      (wedo_update_tilt_status y w).2.debounce_status = tilt_status_scan y ∧
      (wedo_update_tilt_status y w).2.status = w.status) ∧
    (∀ (env env2 : reg_env) (p q : wedo_port_device), p.id = q.id →
      p.temp_type_id = q.temp_type_id → p.type_debounce = q.type_debounce →
      p.type_id = q.type_id →
      (wedo_port_update_status env p).1.temp_type_id =
        (wedo_port_update_status env2 q).1.temp_type_id ∧
      (wedo_port_update_status env p).1.type_debounce =
        (wedo_port_update_status env2 q).1.type_debounce ∧
      (wedo_port_update_status env p).1.type_id =
        (wedo_port_update_status env2 q).1.type_id) ∧
    (∀ (env : reg_env) (p : wedo_port_device),
      ¬ (port_type_scan p.id = p.temp_type_id ∧ p.type_debounce = WEDO_PORT_TYPE_DEBOUNCE) →
      (wedo_port_update_status env p).1.drvdata = (port_analog_update p).drvdata) ∧
    (∀ p q : wedo_port_device, p.type_id = q.type_id → p.input = q.input →
      p.drvdata = q.drvdata →
      (port_analog_update p).drvdata = (port_analog_update q).drvdata) ∧
    (∀ (env : reg_env) (p : wedo_port_device), bind_wf p →
      port_type_scan p.id = p.temp_type_id → p.type_debounce = WEDO_PORT_TYPE_DEBOUNCE →
      ((wedo_port_update_status env p).1.drvdata = none ∨
        (wedo_port_update_status env p).1.drvdata = some (.motor new_motor_data) ∨
        (wedo_port_update_status env p).1.drvdata =
          some (.sensor (new_sensor_data WEDO_TILT_SENSOR)) ∨
        (wedo_port_update_status env p).1.drvdata =
          some (.sensor (new_sensor_data WEDO_MOTION_SENSOR))) ∧
      (∀ q : wedo_port_device, bind_wf q → q.id = p.id →
        q.temp_type_id = p.temp_type_id → q.type_debounce = p.type_debounce →
        (wedo_port_update_status env q).1.drvdata =
          (wedo_port_update_status env p).1.drvdata)) ∧
    (∀ t : Nat, (new_sensor_data t).debounce_count = 0 ∧
      (new_sensor_data t).debounce_status = 0 ∧ (new_sensor_data t).status = 0) ∧
    (∀ dev : usb_wedo, reachable dev → ∀ p, bind_wf (get_wpd dev p)) := by
  have hreset : ∀ (w : wedo_sensor_data) (y : Nat), tilt_status_scan y ≠ w.debounce_status →
      (wedo_update_tilt_status y w).2.debounce_count = 0 ∧
      (wedo_update_tilt_status y w).2.debounce_status = tilt_status_scan y ∧
      (wedo_update_tilt_status y w).2.status = w.status := by
    intro w y h
    rw [tilt_step_reset y w h]
    exact ⟨rfl, rfl, rfl⟩
  -- the first reading resets, the following ones count
  have hshort : ∀ zs : List Nat, (∀ y ∈ zs, tilt_status_scan y = B) → zs.length ≤ 5 →
      (tilt_feed wsd zs).status = A ∧
      (zs ≠ [] → (tilt_feed wsd zs).debounce_status = B ∧
        (tilt_feed wsd zs).debounce_count + 1 = zs.length) := by
    intro zs hzs hlen
    cases zs with
    | nil => simp [tilt_feed, hA]
    | cons z zs =>
      have hz : tilt_status_scan z = B := hzs z (List.mem_cons_self _ _)
      have hne : tilt_status_scan z ≠ wsd.debounce_status := by rw [hz, hcand]; exact hAB
      simp only [List.length_cons] at hlen
      simp only [tilt_feed, tilt_step_reset z wsd hne]
      rw [tilt_feed_count B zs _ (by simp only []; exact hz)
        (fun y hy => hzs y (List.mem_cons_of_mem _ hy))
        (by simp only [WEDO_TILT_STATUS_DEBOUNCE]; omega)]
      simp [hA, hz]
  have hsix : ∀ zs : List Nat, (∀ y ∈ zs, tilt_status_scan y = B) → 6 ≤ zs.length →
      (tilt_feed wsd zs).status = B ∧
      (tilt_feed wsd zs).debounce_count = WEDO_TILT_STATUS_DEBOUNCE + 1 := by
    intro zs hzs hlen
    have hsplit : zs = zs.take 5 ++ (zs.get ⟨5, by omega⟩ :: zs.drop 6) := by
      conv_lhs => rw [← List.take_append_drop 5 zs]
      congr 1
      rw [List.drop_eq_getElem_cons (by omega)]
      rfl
    have hmem5 : ∀ y ∈ zs.take 5, tilt_status_scan y = B :=
      fun y hy => hzs y (List.mem_of_mem_take hy)
    have hx : tilt_status_scan (zs.get ⟨5, by omega⟩) = B := hzs _ (List.get_mem _ _ _)
    have hrest : ∀ y ∈ zs.drop 6, tilt_status_scan y = B :=
      fun y hy => hzs y (List.mem_of_mem_drop hy)
    have h5 := hshort (zs.take 5) hmem5 (by simp)
    have hne : zs.take 5 ≠ [] := by
      intro h
      have : (zs.take 5).length = 5 := by simp; omega
      rw [h] at this; simp at this
    obtain ⟨hs, hc⟩ := h5
    obtain ⟨hcB, hcnt⟩ := hc hne
    have hcnt4 : (tilt_feed wsd (zs.take 5)).debounce_count = WEDO_TILT_STATUS_DEBOUNCE := by
      have : (zs.take 5).length = 5 := by simp; omega
      simp only [WEDO_TILT_STATUS_DEBOUNCE]; omega
    rw [hsplit, tilt_feed_append]
    simp only [tilt_feed]
    rw [tilt_step_commit _ _ (by rw [hx, hcB]) hcnt4]
    rw [tilt_feed_idle B _ _ (by simp only []; exact hcB) hrest
      (by simp only [hcnt4]; omega)]
    have hx5 : tilt_status_scan zs[5] = B := hx
    simp [hx5, hcnt4]
  exact ⟨fun h => (hshort xs hxs h).1, fun h => hsix xs hxs (by omega),
    fun h => (hsix xs hxs h).1, hreset,
    fun env env2 p q h1 h2 h3 h4 => port_update_type_fields env env2 p q h1 h2 h3 h4,
    fun env p h => (port_update_binding env p h).1,
    fun p q h1 h2 h3 => port_analog_update_binding p q h1 h2 h3,
    fun env p hwf hs hd =>
      ⟨(port_update_commit_fresh env p p hwf hs hd hwf rfl rfl rfl).1,
        fun q hq h1 h2 h3 => (port_update_commit_fresh env p q hwf hs hd hq h1 h2 h3).2⟩,
    fun t => ⟨rfl, rfl, rfl⟩,
    fun dev h p => reachable_dev_wf dev h p⟩

set_option maxRecDepth 100000 in
/-- Witness for C3 (amended): a tilt sensor settled on level commits right at the 6th
consecutive raw input of 60; and at the reading that commits a port type the binding
bound afterwards is the same whatever sensor state and raw input the port held. -/
theorem tilt_debounce_law_witness :
    tilt_level_settled.status = WEDO_TILT_STATUS_LEVEL ∧
    tilt_level_settled.debounce_status = WEDO_TILT_STATUS_LEVEL ∧
    WEDO_TILT_STATUS_RIGHT ≠ WEDO_TILT_STATUS_LEVEL ∧
    tilt_status_scan 60 = WEDO_TILT_STATUS_RIGHT ∧
    (tilt_feed tilt_level_settled (List.replicate 6 60)).status = WEDO_TILT_STATUS_RIGHT ∧
    port_type_scan tilt_port_recommit.id = tilt_port_recommit.temp_type_id ∧
    tilt_port_recommit.type_debounce = WEDO_PORT_TYPE_DEBOUNCE ∧
    (wedo_port_update_status env_ok
      { tilt_port_recommit with
        input := 7, drvdata := some (.sensor tilt_level_settled) }).1.drvdata =
      (wedo_port_update_status env_ok tilt_port_recommit).1.drvdata :=
  ⟨by decide, by decide, by decide, by decide,
    ((tilt_debounce_law tilt_level_settled WEDO_TILT_STATUS_LEVEL WEDO_TILT_STATUS_RIGHT
      (List.replicate 6 60) (by decide) (by decide) (by decide)
      (fun y hy => by rw [List.eq_of_mem_replicate hy]; decide)).2.1 (by simp)).1,
    by decide, by decide,
    ((tilt_debounce_law tilt_level_settled WEDO_TILT_STATUS_LEVEL WEDO_TILT_STATUS_RIGHT
      (List.replicate 6 60) (by decide) (by decide) (by decide)
      (fun y hy => by rw [List.eq_of_mem_replicate hy]; decide)).2.2.2.2.2.2.2.1
      env_ok tilt_port_recommit (fun _ => Or.inl rfl) (by decide) (by decide)).2
      { tilt_port_recommit with input := 7, drvdata := some (.sensor tilt_level_settled) }
      (fun _ => Or.inl rfl) rfl rfl rfl⟩

end Wedo
